import Mathlib

/-!
# Path follower core (BehaviouralPathDriver, PidCtrl)

A shallow embedding of the path segmenter `BehaviouralPathDriver::setPath`, the
discrete regulator `PidCtrl`, the command writer `BehaviourDriveBase::setCommand`,
the behaviours and the driver `BehaviouralPathDriver` with its operations
`setGoal`, `execute` and `stop`, followed by theorems about them.

Conventions of the embedding:

* a C++ `double` is a rational number and `+ - * /`, `min`, `max`, `abs` and the
  comparisons are exact;
* `std::atan2`, `MathHelper::AngleClamp` and the constant `M_PI` live outside
  the translated sources; they are the fields of `MathEnv` and every
  definition that needs them takes the environment as its first argument;
* the stopwatch of `PidCtrl` is the instant (in milliseconds) at which it was
  last restarted; the current instant is an argument of every operation that
  reads or restarts it;
* the further library functions used by the behaviours are the fields of
  `DriverEnv`; the answers of the node during a tick are the `TickInput` of
  `execute`; a thrown behaviour pointer is a returned `Step.throws`, and a failed
  `assert` or an index outside a vector is a `Fault`.
-/

namespace PathFollower

/-! ## Data model -/

/-- Library functions and constants used by the driver whose code is not part of
the translated sources. -/
structure MathEnv where
  /-- The function `std::atan2(y, x)`. -/
  atan2 : ℚ → ℚ → ℚ
  /-- The function `MathHelper::AngleClamp(a)`. -/
  AngleClamp : ℚ → ℚ
  /-- The constant `M_PI`. -/
  M_PI : ℚ

/-- A pose of the path in the map frame: `Waypoint { x, y, theta }`. -/
structure Waypoint where
  x : ℚ
  y : ℚ
  theta : ℚ
deriving DecidableEq, Repr

/-- A sub-path: `typedef std::vector<Waypoint> Path`. -/
abbrev Path := List Waypoint

/-! ## `BehaviouralPathDriver::setPath` -/

/-- The value `angle` of one loop iteration of `setPath`:
`AngleClamp(atan2(cur - last) - atan2(next - cur))`. -/
def turnAngle (env : MathEnv) (last_point current_point next_point : Waypoint) : ℚ :=
  let diff_last_x := current_point.x - last_point.x
  let diff_last_y := current_point.y - last_point.y
  let last_angle := env.atan2 diff_last_y diff_last_x
  let diff_next_x := next_point.x - current_point.x
  let diff_next_y := next_point.y - current_point.y
  let next_angle := env.atan2 diff_next_y diff_next_x
  env.AngleClamp (last_angle - next_angle)

/-- The loop `for (i = 1; i < n; ++i)` of `setPath`.  The second argument is the
list `poses[i], poses[i+1], ...` of the poses not yet visited, so that
`current_point` is its head, `next_point` the head of its tail and
`is_the_last_node` holds when the tail is empty.  The remaining arguments are the
loop-carried variables `last_point`, `current_segment` and `paths_`; the result is
`paths_` when the loop ends. -/
def setPathLoop (env : MathEnv) :
    Waypoint → List Waypoint → Path → List Path → List Path
  | _, [], _, paths_ => paths_
  | _, [current_point], current_segment, paths_ =>
    -- this is the last node: the segment ends here and no new one begins
    paths_ ++ [current_segment ++ [current_point]]
  | last_point, current_point :: next_point :: rest, current_segment, paths_ =>
    if |turnAngle env last_point current_point next_point| > env.M_PI / 3 then
      -- new segment: the current node is the last one of the old segment and
      -- the first one of the new segment
      setPathLoop env current_point (next_point :: rest) [current_point]
        (paths_ ++ [current_segment ++ [current_point]])
    else
      setPathLoop env current_point (next_point :: rest)
        (current_segment ++ [current_point]) paths_

/-- The function `BehaviouralPathDriver::setPath`: the value of `paths_` after the
call (`paths_` is cleared first, so the old value does not matter). -/
def setPath (env : MathEnv) (poses : List Waypoint) : List Path :=
  match poses with
  | [] => []
  | [_] => []
  | first :: rest => setPathLoop env first rest [first] []

/-! ### Notions used to state the properties of the segmentation -/

/-- The sub-paths after the first one of a concatenation, each without its first
waypoint. -/
def dropJoin : List Path → Path
  | [] => []
  | p :: ps => p.drop 1 ++ dropJoin ps

/-- Concatenation of the sub-paths in order, dropping the first waypoint of every
sub-path after the first one. -/
def reconcat : List Path → Path
  | [] => []
  | p :: ps => p ++ dropJoin ps

/-- The waypoints of `W` with indices `r.1, ..., r.2` (both ends included). -/
def slice (W : List Waypoint) (r : ℕ × ℕ) : Path :=
  (W.drop r.1).take (r.2 + 1 - r.1)

/-- The cusp test of the specification at index `i` of `W`:
`|AngleClamp(atan2(W[i] - W[i-1]) - atan2(W[i+1] - W[i]))| > π/3`; it is false
when `i - 1`, `i` or `i + 1` is not an index of `W`. -/
def isCuspAt (env : MathEnv) (W : List Waypoint) (i : ℕ) : Bool :=
  match W[i - 1]?, W[i]?, W[i + 1]? with
  | some a, some b, some c =>
    decide (|env.AngleClamp (env.atan2 (b.y - a.y) (b.x - a.x)
      - env.atan2 (c.y - b.y) (c.x - b.x))| > env.M_PI / 3)
  | _, _, _ => false

/-- The specification's rule for closing a sub-path at index `i` of `W`: always at
the last index, and at an interior index exactly when it is a cusp. -/
def closesAt (env : MathEnv) (W : List Waypoint) (i : ℕ) : Bool :=
  i + 1 = W.length || (0 < i && isCuspAt env W i)

/-- The index ranges between consecutive closing indices: the first range starts
at `start`, every later one starts where the previous one ended. -/
def cutAt : List ℕ → ℕ → List (ℕ × ℕ)
  | [], _ => []
  | e :: es, start => (start, e) :: cutAt es e

/-- The index ranges of the sub-paths according to the specification: none for a
list of fewer than two poses, otherwise the ranges between consecutive closing
indices of `W`, the first one starting at index 0. -/
def segmentRanges (env : MathEnv) (W : List Waypoint) : List (ℕ × ℕ) :=
  if W.length < 2 then [] else cutAt ((List.range W.length).filter (closesAt env W)) 0

/-- The 2D position of a waypoint. -/
def Waypoint.position (w : Waypoint) : ℚ × ℚ := (w.x, w.y)

/-- The last waypoint of the first sub-path is the first waypoint of the second. -/
def SharesCusp (p q : Path) : Prop :=
  ∃ c, p.getLast? = some c ∧ q.head? = some c

/-- At every interior waypoint of the path the clamped angle between the incoming
and the outgoing direction is at most `π/3` in absolute value. -/
def SmoothPath (env : MathEnv) (p : Path) : Prop :=
  ∀ (j : ℕ) (a b c : Waypoint), p[j]? = some a → p[j + 1]? = some b → p[j + 2]? = some c →
    |turnAngle env a b c| ≤ env.M_PI / 3

/-! ### An environment and paths for the examples -/

/-- An environment for the examples.  `M_PI` is the double nearest to π,
`AngleClamp` folds an angle once into the interval from `-M_PI` to `M_PI`, and
`atan2` is given on the three directions that occur in the examples: east (0),
west (`M_PI`) and the direction `(1, sqrt3)` of sixty degrees (`M_PI / 3`); it is
0 elsewhere.  In double arithmetic the library value of `atan2` at `(sqrt3, 1)`,
with `sqrt3` the double nearest to the square root of 3, and the constant
`M_PI / 3.0` are the same double, 1.0471975511965976. -/
def exampleEnv : MathEnv where
  M_PI := 884279719003555 / 281474976710656
  AngleClamp := fun a =>
    if a > 884279719003555 / 281474976710656 then a - 2 * (884279719003555 / 281474976710656)
    else if a < -(884279719003555 / 281474976710656) then
      a + 2 * (884279719003555 / 281474976710656)
    else a
  atan2 := fun y x =>
    if y = 0 ∧ x < 0 then 884279719003555 / 281474976710656
    else if 0 < x ∧ y = 3900231685776981 / 2251799813685248 * x then
      884279719003555 / 281474976710656 / 3
    else 0

/-- The out-and-back path of the specification's second scenario: three poses
heading east, then two poses heading back west. -/
def outAndBack : List Waypoint :=
  [⟨0, 0, 0⟩, ⟨1, 0, 0⟩, ⟨2, 0, 0⟩, ⟨1, 0, 884279719003555 / 281474976710656⟩,
   ⟨0, 0, 884279719003555 / 281474976710656⟩]

/-- The out-and-back path with other orientations at the same positions. -/
def outAndBackTurned : List Waypoint :=
  [⟨0, 0, 1⟩, ⟨1, 0, 2⟩, ⟨2, 0, 3⟩, ⟨1, 0, 4⟩, ⟨0, 0, 5⟩]

/-- A path with a turn of sixty degrees at its middle pose: the second leg heads
east, the first leg has the direction `(1, sqrt3)`, where `sqrt3` is the double
nearest to the square root of 3. -/
def sixtyDegreeTurn : List Waypoint :=
  [⟨0, 0, 0⟩, ⟨1, 3900231685776981 / 2251799813685248, 0⟩,
   ⟨2, 3900231685776981 / 2251799813685248, 0⟩]

/-! ## `PidCtrl` -/

/-- The regulator `PidCtrl`.  The field `timer_` is the instant, in milliseconds,
of the last restart of the stopwatch. -/
structure PidCtrl where
  Kp_ : ℚ
  Ki_ : ℚ
  i_max_ : ℚ
  delta_max_ : ℚ
  e_max_ : ℚ
  v_ : ℚ
  Ta_ : ℚ
  i_f_ : ℚ
  timer_ : ℚ
deriving DecidableEq, Repr

namespace PidCtrl

/-- The method `PidCtrl::reset`, called at the instant `now`. -/
def reset (p : PidCtrl) (now : ℚ) : PidCtrl :=
  { p with timer_ := now, i_f_ := 0 }

/-- The method `PidCtrl::execute(ef, deltaf)`, called at the instant `now`
(milliseconds).  The result is the returned flag, the regulator after the call and
the value of the reference argument `deltaf` after the call. -/
def execute (p : PidCtrl) (now : ℚ) (ef : ℚ) (deltaf : ℚ) : Bool × PidCtrl × ℚ :=
  let d_t := now - p.timer_
  if d_t ≥ p.Ta_ * 1000 then
    let i_f := p.i_f_ + d_t * ef / 1000
    let i_f := min i_f p.i_max_
    let i_f := max i_f (-p.i_max_)
    let p := { p with i_f_ := i_f, timer_ := now }
    (true, p, p.Kp_ * ef + p.Ki_ * p.i_f_)
  else
    (false, p, deltaf)

/-- The five-argument overload `PidCtrl::configure(Kp, delta_max, e_max, v, ta)`. -/
def configure5 (p : PidCtrl) (now : ℚ) (Kp delta_max e_max v ta : ℚ) : PidCtrl :=
  reset { p with Kp_ := Kp, Ki_ := 0, i_max_ := 0, delta_max_ := delta_max,
                 e_max_ := e_max, v_ := v, Ta_ := ta } now

/-- The seven-argument overload
`PidCtrl::configure(Kp, Ki, i_max, delta_max, e_max, v, ta)`. -/
def configure (p : PidCtrl) (now : ℚ) (Kp Ki i_max delta_max e_max v ta : ℚ) : PidCtrl :=
  let p := configure5 p now Kp delta_max e_max v ta
  reset { p with Ki_ := Ki, i_max_ := i_max } now

/-- The regulator states that arise from a call of `configure` (either overload) by
any sequence of calls of `reset` and `execute`, at arbitrary instants and with
arbitrary errors. -/
inductive Reachable : PidCtrl → Prop
  | configure5 (p : PidCtrl) (now Kp delta_max e_max v ta : ℚ) :
      Reachable (PidCtrl.configure5 p now Kp delta_max e_max v ta)
  | configure (p : PidCtrl) (now Kp Ki i_max delta_max e_max v ta : ℚ) :
      Reachable (PidCtrl.configure p now Kp Ki i_max delta_max e_max v ta)
  | reset {p : PidCtrl} (now : ℚ) : Reachable p → Reachable (p.reset now)
  | execute {p : PidCtrl} (now ef deltaf : ℚ) :
      Reachable p → Reachable (p.execute now ef deltaf).2.1

/-- Saturation of `x` to the interval from `lo` to `hi`: the upper bound is
applied first, then the lower bound. -/
def clamp (x lo hi : ℚ) : ℚ := max (min x hi) lo

end PidCtrl

/-! ## `BehaviourDriveBase::setCommand` -/

/-- The status codes `MotionResult::MOTION_STATUS_*`. -/
inductive MotionStatus
  | MOTION_STATUS_MOVING
  | MOTION_STATUS_SUCCESS
  | MOTION_STATUS_SLAM_FAIL
  | MOTION_STATUS_INTERNAL_ERROR
deriving DecidableEq, Repr

/-- The latched actuator setpoint `BehaviouralPathDriver::Command`. -/
structure Command where
  v : ℚ
  steer_front : ℚ
  steer_back : ℚ
deriving DecidableEq, Repr

/-- The configuration and cursor `BehaviouralPathDriver::Options`. -/
structure Options where
  dead_time_ : ℚ
  wp_tolerance_ : ℚ
  goal_tolerance_ : ℚ
  l_ : ℚ
  steer_slow_threshold_ : ℚ
  max_speed_ : ℚ
  path_idx : ℤ
  wp_idx : ℤ
deriving DecidableEq, Repr

/-- What a call of `setCommand` leaves behind: the status written through
`status_ptr_`, the regulator and the latched command. -/
structure SetCommandResult where
  status : MotionStatus
  pid_ : PidCtrl
  current_command_ : Command
deriving DecidableEq, Repr

/-- The method `BehaviourDriveBase::setCommand(error, speed)`, called at the
instant `now` with the regulator `pid_`, the options, the member `dir_sign` and
the latched command `cmd`. -/
def setCommand (pid_ : PidCtrl) (now : ℚ) (opt : Options) (dir_sign : ℚ)
    (cmd : Command) (error speed : ℚ) : SetCommandResult :=
  let delta_f : ℚ := 0
  let delta_r : ℚ := 0
  let status := MotionStatus.MOTION_STATUS_MOVING
  match pid_.execute now error delta_f with
  | (false, pid_, _) =>
    -- Nothing to do
    { status := status, pid_ := pid_, current_command_ := cmd }
  | (true, pid_, delta_f) =>
    let steer := max |delta_f| |delta_r|
    let speed := if steer > opt.steer_slow_threshold_ then speed * (1 / 2) else speed
    { status := status, pid_ := pid_,
      current_command_ :=
        { steer_front := dir_sign * delta_f,
          steer_back := dir_sign * delta_r,
          v := dir_sign * speed } }

/-! ## The driver `BehaviouralPathDriver` and its behaviours

The behaviours signal a transition by throwing a pointer to the next behaviour;
here a function that can throw returns a `Step`.  Undefined behaviour of the C++
code (an index outside a vector) and a failed `assert` are faults.  The answers of
the node (pose queries, frame transforms) and the instant of the tick are the
`TickInput` of `execute`. -/

/-- Modelled from the spec: `MathHelper::sgn`, whose code is not part of the
translated sources; it is `+1` if `x ≥ 0` and `-1` otherwise. -/
def sgn (x : ℚ) : ℚ := if x ≥ 0 then 1 else -1

/-- A planar pose `(x, y, theta)`: the content of a `Vector3d` pose and of a
`geometry_msgs::Pose` (position and yaw). -/
structure Pose2D where
  x : ℚ
  y : ℚ
  theta : ℚ
deriving DecidableEq, Repr

/-- Library functions used by the behaviours, in addition to those of `MathEnv`,
whose code is not part of the translated sources. -/
structure DriverEnv extends MathEnv where
  /-- The function `std::cos`. -/
  cos : ℚ → ℚ
  /-- The function `std::sin`. -/
  sin : ℚ → ℚ
  /-- The function `std::tan`. -/
  tan : ℚ → ℚ
  /-- The function `std::atan`. -/
  atan : ℚ → ℚ
  /-- The function `hypot(x, y)`. -/
  hypot : ℚ → ℚ → ℚ
  /-- The function `MathHelper::NormalizeAngle(a)`. -/
  NormalizeAngle : ℚ → ℚ
  /-- The value `Line2d(p0, p1).GetSignedDistance(q)`, as a function of `p0`, `p1`, `q`. -/
  GetSignedDistance : ℚ × ℚ → ℚ × ℚ → ℚ × ℚ → ℚ
  /-- The filtered speed after `setFilteredSpeed(v)`, as a function of the filtered
  speed before the call and of `v`. -/
  setFilteredSpeed : ℚ → ℚ → ℚ

/-- The behaviour classes that `active_behaviour_` can point to. -/
inductive BehaviourKind
  | BehaviourOnLine
  | BehaviourApproachTurningPoint
  | BehaviourEmergencyBreak
deriving DecidableEq, Repr

/-- The pointers thrown by the behaviours: a `NullBehaviour*` or a pointer to a new
behaviour. -/
inductive Thrown
  | NullBehaviour
  | Behaviour (next_behaviour : BehaviourKind)
deriving DecidableEq, Repr

/-- The ways in which a tick can leave the defined behaviour of the C++ code. -/
inductive Fault
  | assertion
  | outOfRange
deriving DecidableEq, Repr

/-- The calls observed during a tick, in the order in which they are made. -/
inductive Event
  | getWorldPose
  | dispatch (behaviour : BehaviourKind)
  | setCommand (error speed : ℚ)
  | publish (cmd : Command)
deriving DecidableEq, Repr

/-- The members of `BehaviouralPathDriver`.  The member `pending_error_` is `-1`
when no error is armed and a status code, which is not negative, otherwise; it
is `none` for `-1`.  The member `filtered_speed_` is the state behind
`getFilteredSpeed` and `setFilteredSpeed`. -/
structure BehaviouralPathDriver where
  path_ : List Waypoint
  paths_ : List Path
  options_ : Options
  pid_ : PidCtrl
  current_command_ : Command
  active_behaviour_ : Option BehaviourKind
  pending_error_ : Option MotionStatus
  slam_pose_ : Pose2D
  filtered_speed_ : ℚ
deriving DecidableEq, Repr

/-- The goal message `motion_control::MotionGoal`: the path and the speed `v`. -/
structure MotionGoal where
  path : List Waypoint
  v : ℚ
deriving DecidableEq, Repr

/-- The answers of the node during one tick: the instant `now` (milliseconds) read
by the stopwatch of the regulator, the answer of `getWorldPose` to the driver
(`worldPose`) and to the behaviour (`behaviourPose`), and the answers of
`transformToLocal` for the next waypoint and for the follow-up waypoint; `none` is
a failed call. -/
structure TickInput where
  now : ℚ
  worldPose : Option Pose2D
  behaviourPose : Option Pose2D
  transformNext : Waypoint → Option Pose2D
  transformFollowup : Waypoint → Option Pose2D

/-- The outcome of a function of a behaviour that can throw: a fault, a thrown
pointer together with the status written through `status_ptr_` and the options at
that moment, or a returned value. -/
inductive Step (α : Type)
  | fault (f : Fault)
  | throws (status : MotionStatus) (next : Thrown) (options_ : Options)
  | value (a : α)

/-- What `active_behaviour_->execute(&status)` leaves behind: the status, the
thrown pointer (`none` for a normal return), the members of the driver that a
behaviour writes, the member `dir_sign` of the behaviour if it was assigned, and
the calls made. -/
structure BehaviourResult where
  status : MotionStatus
  thrown : Option Thrown
  options_ : Options
  pid_ : PidCtrl
  current_command_ : Command
  dir_sign : Option ℚ
  events : List Event
deriving DecidableEq, Repr

/-- What a call of `BehaviouralPathDriver::execute` leaves behind: the returned
status, the driver, the calls made, and the member `dir_sign` of the dispatched
behaviour if it was assigned. -/
structure TickResult where
  status : MotionStatus
  driver : BehaviouralPathDriver
  events : List Event
  dir_sign : Option ℚ
deriving DecidableEq, Repr

/-- The command handed to `cmd_pub_.publish` during the tick, if any. -/
def TickResult.published (r : TickResult) : Option Command :=
  r.events.findSome? fun e =>
    match e with
    | Event.publish cmd => some cmd
    | _ => none

/-- Element `i` of a vector for an `int` index; `none` outside the vector. -/
def at? {α : Type} (l : List α) (i : ℤ) : Option α :=
  if i < 0 then none else l[i.toNat]?

/-- The elements of a vector from the `int` index `i` on. -/
def dropFrom {α : Type} (l : List α) (i : ℤ) : List α :=
  if i < 0 then [] else l.drop i.toNat

/-- Modelled from the spec: `Options::reset`, whose code is not part of the
translated sources; `start()` leaves the cursor at `(0, 0)`. -/
def Options.reset (opt : Options) : Options :=
  { opt with path_idx := 0, wp_idx := 0 }

namespace BehaviouralPathDriver

/-- The method `Behaviour::getSubPath(index)`: `parent_.paths_[index]`. -/
def getSubPath (parent_ : BehaviouralPathDriver) (index : ℤ) : Option Path :=
  at? parent_.paths_ index

/-- The method `Behaviour::getSubPathCount()`. -/
def getSubPathCount (parent_ : BehaviouralPathDriver) : ℤ :=
  parent_.paths_.length

/-- The method `Behaviour::distanceTo(wp)`. -/
def distanceTo (env : DriverEnv) (parent_ : BehaviouralPathDriver) (wp : Waypoint) : ℚ :=
  env.hypot (parent_.slam_pose_.x - wp.x) (parent_.slam_pose_.y - wp.y)

/-- The method `BehaviouralPathDriver::predictPose(front_pred, rear_pred)`: the
pair of `front_pred` and `rear_pred`. -/
def predictPose (env : DriverEnv) (d : BehaviouralPathDriver) : (ℚ × ℚ) × (ℚ × ℚ) :=
  let dt := d.options_.dead_time_
  let deltaf := d.current_command_.steer_front
  let deltar := d.current_command_.steer_back
  let v := 2 * d.filtered_speed_
  let beta := env.atan (1 / 2 * (env.tan deltaf + env.tan deltar))
  let ds := v * dt
  let dtheta := ds * env.cos beta * (env.tan deltaf - env.tan deltar) / d.options_.l_
  let thetan := dtheta
  let yn := ds * env.sin (dtheta * (1 / 2) + beta * (1 / 2))
  let xn := ds * env.cos (dtheta * (1 / 2) + beta * (1 / 2))
  ((xn + env.cos thetan * d.options_.l_ / 2, yn + env.sin thetan * d.options_.l_ / 2),
   (xn - env.cos thetan * d.options_.l_ / 2, yn - env.sin thetan * d.options_.l_ / 2))

/-- The method `BehaviouralPathDriver::clearActive`. -/
def clearActive (d : BehaviouralPathDriver) : BehaviouralPathDriver :=
  { d with active_behaviour_ := none }

/-- The method `BehaviouralPathDriver::start`. -/
def start (d : BehaviouralPathDriver) : BehaviouralPathDriver :=
  let d := { d with options_ := d.options_.reset }
  let d := clearActive d
  { d with active_behaviour_ := some BehaviourKind.BehaviourOnLine }

/-- The method `BehaviouralPathDriver::stop`. -/
def stop (d : BehaviouralPathDriver) : BehaviouralPathDriver :=
  let d := clearActive d
  { d with current_command_ := { d.current_command_ with v := 0 } }

/-- The method `BehaviouralPathDriver::setPath(path)` on the driver. -/
def setPath (env : MathEnv) (d : BehaviouralPathDriver) (path : List Waypoint) :
    BehaviouralPathDriver :=
  { d with path_ := path, paths_ := PathFollower.setPath env path }

/-- The method `BehaviouralPathDriver::setGoal(goal)`. -/
def setGoal (env : MathEnv) (d : BehaviouralPathDriver) (goal : MotionGoal) :
    BehaviouralPathDriver :=
  let d := { d with pending_error_ := none }
  let d := { d with options_ := { d.options_ with max_speed_ := goal.v } }
  if goal.path.length < 2 then
    let d := stop d
    { d with pending_error_ := some MotionStatus.MOTION_STATUS_INTERNAL_ERROR }
  else
    setPath env d goal.path

/-- The method `BehaviouralPathDriver::publishCommand`: the driver after the call
and the published command. -/
def publishCommand (env : DriverEnv) (d : BehaviouralPathDriver) :
    BehaviouralPathDriver × Event :=
  ({ d with filtered_speed_ := env.setFilteredSpeed d.filtered_speed_ d.current_command_.v },
   Event.publish d.current_command_)

/-- The method `BehaviouralPathDriver::configure`, called at the instant `now`, with
every parameter of the node at its default. -/
def configure (env : MathEnv) (d : BehaviouralPathDriver) (now : ℚ) : BehaviouralPathDriver :=
  { d with
    options_ := { d.options_ with
      dead_time_ := 1 / 10, wp_tolerance_ := 1 / 5, goal_tolerance_ := 3 / 20, l_ := 19 / 50,
      steer_slow_threshold_ := 1 / 4 },
    pid_ := d.pid_.configure now (3 / 2) (1 / 1000) 0 (env.M_PI * 30 / 180) (1 / 10) (1 / 2)
      (3 / 100) }

/-- The constructor of `BehaviouralPathDriver`, called at the instant `now`: no
active behaviour, no pending error, and `configure()`; the members that the
constructor does not mention are zero or empty, and the regulator is first built by
the constructor of `PidCtrl`. -/
def construct (env : MathEnv) (now : ℚ) : BehaviouralPathDriver :=
  configure env
    { path_ := [], paths_ := [],
      options_ := ⟨0, 0, 0, 0, 0, 0, 0, 0⟩,
      pid_ := PidCtrl.configure5 ⟨0, 0, 0, 0, 0, 0, 0, 0, 0⟩ now (3 / 10)
        (20 * env.M_PI / 180) (1 / 10) (2 / 5) (1 / 10),
      current_command_ := ⟨0, 0, 0⟩,
      active_behaviour_ := none,
      pending_error_ := none,
      slam_pose_ := ⟨0, 0, 0⟩,
      filtered_speed_ := 0 } now

end BehaviouralPathDriver

/-- The result of a behaviour whose `execute` was left by a throw. -/
def BehaviourResult.ofThrow (parent_ : BehaviouralPathDriver) (status : MotionStatus)
    (next : Thrown) (options_ : Options) (dir_sign : Option ℚ) (events : List Event) :
    BehaviourResult :=
  { status := status, thrown := some next, options_ := options_, pid_ := parent_.pid_,
    current_command_ := parent_.current_command_, dir_sign := dir_sign, events := events }

namespace BehaviourDriveBase

/-- The method `BehaviourDriveBase::getSlamPose`: the pose message on success. -/
def getSlamPose (inp : TickInput) (opt : Options) : Step Pose2D :=
  match inp.behaviourPose with
  | none =>
    Step.throws MotionStatus.MOTION_STATUS_SLAM_FAIL
      (Thrown.Behaviour BehaviourKind.BehaviourEmergencyBreak) opt
  | some slam_pose_msg_ => Step.value slam_pose_msg_

/-- The method `BehaviourDriveBase::calculateAngleError`. -/
def calculateAngleError (env : DriverEnv) (next_wp_map_ : Waypoint) (slam_pose_msg_ : Pose2D) :
    ℚ :=
  env.NormalizeAngle (next_wp_map_.theta - slam_pose_msg_.theta)

/-- The carrot point chosen by `calculateLineError` and `calculateDistanceError`. -/
def carrot (env : DriverEnv) (parent_ : BehaviouralPathDriver) (dir_sign : ℚ) : ℚ × ℚ :=
  let pred := parent_.predictPose env
  if dir_sign ≥ 0 then pred.1 else pred.2

/-- The method `BehaviourDriveBase::calculateLineError`. -/
def calculateLineError (env : DriverEnv) (parent_ : BehaviouralPathDriver) (inp : TickInput)
    (next_wp_local_ : Pose2D) (dir_sign : ℚ) : Step ℚ :=
  let opt := parent_.options_
  match parent_.getSubPath opt.path_idx with
  | none => Step.fault Fault.outOfRange
  | some current_path =>
    match at? current_path (opt.wp_idx + 1) with
    | none => Step.fault Fault.outOfRange
    | some followup_next_wp_map =>
      match inp.transformFollowup followup_next_wp_map with
      | none =>
        Step.throws MotionStatus.MOTION_STATUS_INTERNAL_ERROR
          (Thrown.Behaviour BehaviourKind.BehaviourEmergencyBreak) opt
      | some followup_next_wp_local =>
        Step.value (-env.GetSignedDistance (next_wp_local_.x, next_wp_local_.y)
          (followup_next_wp_local.x, followup_next_wp_local.y) (carrot env parent_ dir_sign))

/-- The method `BehaviourDriveBase::calculateDistanceError`. -/
def calculateDistanceError (env : DriverEnv) (parent_ : BehaviouralPathDriver)
    (next_wp_local_ : Pose2D) (dir_sign : ℚ) : ℚ :=
  let c := carrot env parent_ dir_sign
  let delta : ℚ × ℚ := (next_wp_local_.x - c.1, next_wp_local_.y - c.2)
  if |delta.2| < 1 / 10 then 0 else delta.2

end BehaviourDriveBase

namespace BehaviourOnLine

/-- The loop `while(distanceTo(current_path[opt.wp_idx]) < opt.wp_tolerance_)` of
`BehaviourOnLine::getNextWaypoint`.  The list is `current_path[wp_idx],
current_path[wp_idx + 1], ...`, so that `wp_idx >= last_wp_idx` holds when it has
one element.  The result is the value of `wp_idx` when the loop is left and whether
it is left by throwing `BehaviourApproachTurningPoint`; it is `none` when
`wp_idx` is not an index of the sub-path. -/
def advance (env : DriverEnv) (parent_ : BehaviouralPathDriver) :
    List Waypoint → ℤ → Option (ℤ × Bool)
  | [], _ => none
  | [wp], wp_idx =>
    if parent_.distanceTo env wp < parent_.options_.wp_tolerance_ then some (wp_idx, true)
    else some (wp_idx, false)
  | wp :: next :: rest, wp_idx =>
    if parent_.distanceTo env wp < parent_.options_.wp_tolerance_ then
      advance env parent_ (next :: rest) (wp_idx + 1)
    else some (wp_idx, false)

/-- The method `BehaviourOnLine::getNextWaypoint`: the options, `next_wp_map_` and
`next_wp_local_` after the call. -/
def getNextWaypoint (env : DriverEnv) (parent_ : BehaviouralPathDriver) (inp : TickInput) :
    Step (Options × Waypoint × Pose2D) :=
  let opt := parent_.options_
  match parent_.getSubPath opt.path_idx with
  | none => Step.fault Fault.outOfRange
  | some current_path =>
    if ¬ opt.wp_idx < (current_path.length : ℤ) then Step.fault Fault.assertion
    else
      match advance env parent_ (dropFrom current_path opt.wp_idx) opt.wp_idx with
      | none => Step.fault Fault.outOfRange
      | some (wp_idx, true) =>
        Step.throws MotionStatus.MOTION_STATUS_MOVING
          (Thrown.Behaviour BehaviourKind.BehaviourApproachTurningPoint)
          { opt with wp_idx := wp_idx }
      | some (wp_idx, false) =>
        let opt := { opt with wp_idx := wp_idx }
        match at? current_path opt.wp_idx with
        | none => Step.fault Fault.outOfRange
        | some next_wp_map_ =>
          match inp.transformNext next_wp_map_ with
          | none =>
            Step.throws MotionStatus.MOTION_STATUS_SLAM_FAIL
              (Thrown.Behaviour BehaviourKind.BehaviourEmergencyBreak) opt
          | some next_wp_local_ => Step.value (opt, next_wp_map_, next_wp_local_)

/-- The method `BehaviourOnLine::execute`. -/
def execute (env : DriverEnv) (parent_ : BehaviouralPathDriver) (inp : TickInput) :
    Except Fault BehaviourResult :=
  match getNextWaypoint env parent_ inp with
  | Step.fault f => Except.error f
  | Step.throws status next opt =>
    Except.ok (BehaviourResult.ofThrow parent_ status next opt none [])
  | Step.value (opt, next_wp_map_, next_wp_local_) =>
    let parent_ := { parent_ with options_ := opt }
    match BehaviourDriveBase.getSlamPose inp opt with
    | Step.fault f => Except.error f
    | Step.throws status next opt =>
      Except.ok (BehaviourResult.ofThrow parent_ status next opt none [Event.getWorldPose])
    | Step.value slam_pose_msg_ =>
      let dir_sign := sgn next_wp_local_.x
      match BehaviourDriveBase.calculateLineError env parent_ inp next_wp_local_ dir_sign with
      | Step.fault f => Except.error f
      | Step.throws status next opt =>
        Except.ok (BehaviourResult.ofThrow parent_ status next opt (some dir_sign)
          [Event.getWorldPose])
      | Step.value e_distance =>
        let e_angle := BehaviourDriveBase.calculateAngleError env next_wp_map_ slam_pose_msg_
        let e_combined := e_distance + e_angle
        let speed := parent_.options_.max_speed_
        let speed := if dir_sign < 0 then speed * (1 / 2) else speed
        let r := setCommand parent_.pid_ inp.now parent_.options_ dir_sign
          parent_.current_command_ e_combined speed
        Except.ok
          { status := MotionStatus.MOTION_STATUS_MOVING, thrown := none,
            options_ := parent_.options_, pid_ := r.pid_,
            current_command_ := r.current_command_, dir_sign := some dir_sign,
            events := [Event.getWorldPose, Event.setCommand e_combined speed] }

end BehaviourOnLine

namespace BehaviourApproachTurningPoint

/-- The method `BehaviourApproachTurningPoint::getNextWaypoint`: the options,
`next_wp_map_` and `next_wp_local_` after the call. -/
def getNextWaypoint (parent_ : BehaviouralPathDriver) (inp : TickInput) :
    Step (Options × Waypoint × Pose2D) :=
  let opt := parent_.options_
  match parent_.getSubPath opt.path_idx with
  | none => Step.fault Fault.outOfRange
  | some current_path =>
    if ¬ opt.wp_idx < (current_path.length : ℤ) then Step.fault Fault.assertion
    else
      let last_wp_idx : ℤ := (current_path.length : ℤ) - 2
      let opt := { opt with wp_idx := last_wp_idx }
      match at? current_path opt.wp_idx with
      | none => Step.fault Fault.outOfRange
      | some next_wp_map_ =>
        match inp.transformNext next_wp_map_ with
        | none =>
          Step.throws MotionStatus.MOTION_STATUS_SLAM_FAIL
            (Thrown.Behaviour BehaviourKind.BehaviourEmergencyBreak) opt
        | some next_wp_local_ => Step.value (opt, next_wp_map_, next_wp_local_)

/-- The method `BehaviourApproachTurningPoint::checkIfDone`: the options after a
normal return. -/
def checkIfDone (env : DriverEnv) (parent_ : BehaviouralPathDriver) (next_wp_map_ : Waypoint)
    (slam_pose_msg_ : Pose2D) : Step Options :=
  let delta : ℚ × ℚ := (next_wp_map_.x - slam_pose_msg_.x, next_wp_map_.y - slam_pose_msg_.y)
  let opt := parent_.options_
  match parent_.getSubPath opt.path_idx with
  | none => Step.fault Fault.outOfRange
  | some current_path =>
    match at? current_path opt.wp_idx with
    | none => Step.fault Fault.outOfRange
    | some wp =>
      let target_dir : ℚ × ℚ := (env.cos wp.theta, env.sin wp.theta)
      let angle := env.AngleClamp (env.atan2 delta.2 delta.1 - env.atan2 target_dir.2 target_dir.1)
      if |angle| ≥ env.M_PI / 2 then
        let opt := { opt with path_idx := opt.path_idx + 1 }
        let opt := { opt with wp_idx := 0 }
        if opt.path_idx < parent_.getSubPathCount then
          Step.throws MotionStatus.MOTION_STATUS_MOVING
            (Thrown.Behaviour BehaviourKind.BehaviourOnLine) opt
        else
          Step.throws MotionStatus.MOTION_STATUS_SUCCESS Thrown.NullBehaviour opt
      else Step.value opt

/-- The method `BehaviourApproachTurningPoint::execute`. -/
def execute (env : DriverEnv) (parent_ : BehaviouralPathDriver) (inp : TickInput) :
    Except Fault BehaviourResult :=
  match getNextWaypoint parent_ inp with
  | Step.fault f => Except.error f
  | Step.throws status next opt =>
    Except.ok (BehaviourResult.ofThrow parent_ status next opt none [])
  | Step.value (opt, next_wp_map_, next_wp_local_) =>
    let parent_ := { parent_ with options_ := opt }
    match BehaviourDriveBase.getSlamPose inp opt with
    | Step.fault f => Except.error f
    | Step.throws status next opt =>
      Except.ok (BehaviourResult.ofThrow parent_ status next opt none [Event.getWorldPose])
    | Step.value slam_pose_msg_ =>
      let dir_sign := sgn next_wp_local_.x
      match checkIfDone env parent_ next_wp_map_ slam_pose_msg_ with
      | Step.fault f => Except.error f
      | Step.throws status next opt =>
        Except.ok (BehaviourResult.ofThrow parent_ status next opt (some dir_sign)
          [Event.getWorldPose])
      | Step.value opt =>
        let parent_ := { parent_ with options_ := opt }
        let e_distance :=
          BehaviourDriveBase.calculateDistanceError env parent_ next_wp_local_ dir_sign
        let e_angle := BehaviourDriveBase.calculateAngleError env next_wp_map_ slam_pose_msg_
        let e_combined := e_distance + e_angle
        let r := setCommand parent_.pid_ inp.now parent_.options_ dir_sign
          parent_.current_command_ e_combined (1 / 10)
        Except.ok
          { status := MotionStatus.MOTION_STATUS_MOVING, thrown := none,
            options_ := parent_.options_, pid_ := r.pid_,
            current_command_ := r.current_command_, dir_sign := some dir_sign,
            events := [Event.getWorldPose, Event.setCommand e_combined (1 / 10)] }

end BehaviourApproachTurningPoint

namespace BehaviourEmergencyBreak

/-- The method `BehaviourEmergencyBreak::execute`. -/
def execute (parent_ : BehaviouralPathDriver) : Except Fault BehaviourResult :=
  Except.ok (BehaviourResult.ofThrow parent_ MotionStatus.MOTION_STATUS_INTERNAL_ERROR
    Thrown.NullBehaviour parent_.options_ none [])

end BehaviourEmergencyBreak

namespace BehaviouralPathDriver

/-- The virtual call `active_behaviour_->execute(&status)`. -/
def dispatch (env : DriverEnv) (behaviour : BehaviourKind) (d : BehaviouralPathDriver)
    (inp : TickInput) : Except Fault BehaviourResult :=
  match behaviour with
  | BehaviourKind.BehaviourOnLine => BehaviourOnLine.execute env d inp
  | BehaviourKind.BehaviourApproachTurningPoint =>
    BehaviourApproachTurningPoint.execute env d inp
  | BehaviourKind.BehaviourEmergencyBreak => BehaviourEmergencyBreak.execute d

/-- The part of `BehaviouralPathDriver::execute` after the call of the active
behaviour: the two `catch` clauses, `publishCommand` and the final clean-up. -/
def finish (env : DriverEnv) (d : BehaviouralPathDriver) (behaviour : BehaviourKind)
    (r : BehaviourResult) : Except Fault TickResult :=
  let status := r.status
  let d := { d with options_ := r.options_, pid_ := r.pid_,
                    current_command_ := r.current_command_ }
  let caught : Except Fault BehaviouralPathDriver :=
    match r.thrown with
    | none => Except.ok d
    | some Thrown.NullBehaviour =>
      let d := clearActive d
      if status ≠ MotionStatus.MOTION_STATUS_SUCCESS then Except.error Fault.assertion
      else Except.ok { d with current_command_ := { d.current_command_ with v := 0 } }
    | some (Thrown.Behaviour next_behaviour) =>
      let d := clearActive d
      Except.ok { d with active_behaviour_ := some next_behaviour }
  match caught with
  | Except.error f => Except.error f
  | Except.ok d =>
    let (d, published) := publishCommand env d
    let d :=
      if status ≠ MotionStatus.MOTION_STATUS_MOVING ∧ d.active_behaviour_ ≠ none then
        clearActive d
      else d
    Except.ok
      { status := status, driver := d,
        events := [Event.getWorldPose, Event.dispatch behaviour] ++ r.events ++ [published],
        dir_sign := r.dir_sign }

/-- The method `BehaviouralPathDriver::execute`: one tick. -/
def execute (env : DriverEnv) (d : BehaviouralPathDriver) (inp : TickInput) :
    Except Fault TickResult :=
  match d.pending_error_ with
  | some error =>
    -- Pending error?
    let d := { d with pending_error_ := none }
    let d := stop d
    Except.ok { status := error, driver := d, events := [], dir_sign := none }
  | none =>
    if d.paths_ = [] then
      let d := clearActive d
      Except.ok { status := MotionStatus.MOTION_STATUS_SUCCESS, driver := d, events := [],
                  dir_sign := none }
    else
      let d := if d.active_behaviour_ = none then start d else d
      match inp.worldPose with
      | none =>
        let d := stop d
        Except.ok { status := MotionStatus.MOTION_STATUS_SLAM_FAIL, driver := d,
                    events := [Event.getWorldPose], dir_sign := none }
      | some slam_pose =>
        let d := { d with slam_pose_ := slam_pose }
        match d.active_behaviour_ with
        | none => Except.error Fault.outOfRange
        | some behaviour =>
          match dispatch env behaviour d inp with
          | Except.error f => Except.error f
          | Except.ok r => finish env d behaviour r

end BehaviouralPathDriver

/-! ### Notions used to state the properties of the driver -/

namespace BehaviourOnLine

/-- The loop `while(distanceTo(current_path[opt.wp_idx]) < opt.wp_tolerance_)` of
`BehaviourOnLine::getNextWaypoint`, iteration by iteration, with the index
`wp_idx` into `current_path`.  The first argument bounds the number of evaluations
of the loop condition; the result is `none` when this bound is exhausted, and
otherwise the result of the loop as in `advance`. -/
def advanceLoop (env : DriverEnv) (parent_ : BehaviouralPathDriver) (current_path : Path) :
    ℕ → ℤ → Option (Option (ℤ × Bool))
  | 0, _ => none
  | fuel + 1, wp_idx =>
    match at? current_path wp_idx with
    | none => some none
    | some wp =>
      if parent_.distanceTo env wp < parent_.options_.wp_tolerance_ then
        if wp_idx ≥ (current_path.length : ℤ) - 1 then some (some (wp_idx, true))
        else advanceLoop env parent_ current_path fuel (wp_idx + 1)
      else some (some (wp_idx, false))

end BehaviourOnLine

namespace BehaviouralPathDriver

/-- The values `xn` and `yn` of `predictPose`: the predicted centre of the robot. -/
def predictedCentre (env : DriverEnv) (d : BehaviouralPathDriver) : ℚ × ℚ :=
  let dt := d.options_.dead_time_
  let deltaf := d.current_command_.steer_front
  let deltar := d.current_command_.steer_back
  let v := 2 * d.filtered_speed_
  let beta := env.atan (1 / 2 * (env.tan deltaf + env.tan deltar))
  let ds := v * dt
  let dtheta := ds * env.cos beta * (env.tan deltaf - env.tan deltar) / d.options_.l_
  let yn := ds * env.sin (dtheta * (1 / 2) + beta * (1 / 2))
  let xn := ds * env.cos (dtheta * (1 / 2) + beta * (1 / 2))
  (xn, yn)

/-- The drivers that arise from the constructor by any sequence of calls of
`setGoal`, `stop` and `execute`, with arbitrary goals and arbitrary answers of the
node; a tick that faults ends the sequence. -/
inductive Reachable (env : DriverEnv) : BehaviouralPathDriver → Prop
  | construct (now : ℚ) : Reachable env (BehaviouralPathDriver.construct env.toMathEnv now)
  | setGoal {d : BehaviouralPathDriver} (goal : MotionGoal) :
      Reachable env d → Reachable env (d.setGoal env.toMathEnv goal)
  | stop {d : BehaviouralPathDriver} : Reachable env d → Reachable env d.stop
  | execute {d : BehaviouralPathDriver} (inp : TickInput) (r : TickResult) :
      Reachable env d → d.execute env inp = Except.ok r → Reachable env r.driver

end BehaviouralPathDriver

namespace BehaviourApproachTurningPoint

/-- The value `angle` of `checkIfDone` when the waypoint `wp` at the cursor is the
waypoint aimed at. -/
def angle (env : DriverEnv) (wp : Waypoint) (slam_pose_msg_ : Pose2D) : ℚ :=
  env.AngleClamp (env.atan2 (wp.y - slam_pose_msg_.y) (wp.x - slam_pose_msg_.x)
    - env.atan2 (env.sin wp.theta) (env.cos wp.theta))

end BehaviourApproachTurningPoint

/-! ## `predictPose` in double arithmetic -/

namespace BehaviouralPathDriver

/-- The values `xn` and `yn` of `predictPose`, the predicted centre of the robot,
when the result of every arithmetic operation is rounded by `fl`. -/
def predictedCentreRounded (fl : ℚ → ℚ) (env : DriverEnv) (d : BehaviouralPathDriver) :
    ℚ × ℚ :=
  let dt := d.options_.dead_time_
  let deltaf := d.current_command_.steer_front
  let deltar := d.current_command_.steer_back
  let v := fl (2 * d.filtered_speed_)
  let beta := env.atan (fl (1 / 2 * fl (env.tan deltaf + env.tan deltar)))
  let ds := fl (v * dt)
  let dtheta := fl (fl (fl (ds * env.cos beta) * fl (env.tan deltaf - env.tan deltar))
    / d.options_.l_)
  let yn := fl (ds * env.sin (fl (fl (dtheta * (1 / 2)) + fl (beta * (1 / 2)))))
  let xn := fl (ds * env.cos (fl (fl (dtheta * (1 / 2)) + fl (beta * (1 / 2)))))
  (xn, yn)

/-- The method `BehaviouralPathDriver::predictPose(front_pred, rear_pred)` when the
result of every arithmetic operation is rounded by `fl`, as it is in `double`
arithmetic; the library functions of the environment return their results as they
are.  With the identity for `fl` this is `predictPose`. -/
def predictPoseRounded (fl : ℚ → ℚ) (env : DriverEnv) (d : BehaviouralPathDriver) :
    (ℚ × ℚ) × (ℚ × ℚ) :=
  let dt := d.options_.dead_time_
  let deltaf := d.current_command_.steer_front
  let deltar := d.current_command_.steer_back
  let v := fl (2 * d.filtered_speed_)
  let beta := env.atan (fl (1 / 2 * fl (env.tan deltaf + env.tan deltar)))
  let ds := fl (v * dt)
  let dtheta := fl (fl (fl (ds * env.cos beta) * fl (env.tan deltaf - env.tan deltar))
    / d.options_.l_)
  let thetan := dtheta
  let yn := fl (ds * env.sin (fl (fl (dtheta * (1 / 2)) + fl (beta * (1 / 2)))))
  let xn := fl (ds * env.cos (fl (fl (dtheta * (1 / 2)) + fl (beta * (1 / 2)))))
  ((fl (xn + fl (fl (env.cos thetan * d.options_.l_) / 2)),
    fl (yn + fl (fl (env.sin thetan * d.options_.l_) / 2))),
   (fl (xn - fl (fl (env.cos thetan * d.options_.l_) / 2)),
    fl (yn - fl (fl (env.sin thetan * d.options_.l_) / 2))))

end BehaviouralPathDriver

/-! ## `ControllerFactory::construct` -/

/-- The robot controller classes that the factory can construct. -/
inductive RobotController
  | RobotController_Ackermann_Pid
  | Robotcontroller_Ackermann_PurePursuit
  | RobotController_Ackermann_Inputscaling
  | RobotController_Ackermann_Stanley
  | RobotController_2Steer_PurePursuit
  | RobotController_2Steer_Stanley
  | RobotController_2Steer_InputScaling
  | RobotController_Unicycle_InputScaling
  | RobotControllerTrailer
  | RobotController_Omnidrive_OrthogonalExponential
  | RobotController_Ackermann_OrthogonalExponential
  | RobotController_Differential_OrthogonalExponential
  | RobotController_Kinematic_SLP
  | RobotController_Dynamic_SLP
  | RobotController_Kinematic_HBZ
  | RobotController_ICR_CCW
deriving DecidableEq, Repr

/-- The local planner classes that the factory can construct. -/
inductive LocalPlanner
  | LocalPlannerAStarNStatic
  | LocalPlannerAStarGStatic
  | LocalPlannerThetaStarNStatic
  | LocalPlannerThetaStarGStatic
  | LocalPlannerAStarNReconf
  | LocalPlannerAStarGReconf
  | LocalPlannerThetaStarNReconf
  | LocalPlannerThetaStarGReconf
  | LocalPlannerBFSStatic
  | LocalPlannerBFSReconf
  | LocalPlannerTransformer
  | LocalPlannerNull
deriving DecidableEq, Repr

/-- The obstacle avoider classes that the factory can construct. -/
inductive ObstacleAvoider
  | NoneAvoider
  | ObstacleDetectorAckermann
  | ObstacleDetectorOmnidrive
  | ObstacleDetectorPatsy
deriving DecidableEq, Repr

/-- The options `opt_` read by `ControllerFactory::construct`: `controller()`,
`algo()` and `obstacle_avoider_use_collision_box()`. -/
structure PathFollowerParameters where
  controller : String
  algo : String
  obstacle_avoider_use_collision_box : Bool
deriving DecidableEq, Repr

/-- The reference arguments of `ControllerFactory::construct`; `none` is an empty
`shared_ptr`. -/
structure FactoryOutput where
  out_controller : Option RobotController
  out_local_planner : Option LocalPlanner
  out_obstacle_avoider : Option ObstacleAvoider
deriving DecidableEq, Repr

/-- The exception `std::logic_error` thrown by the factory, with its message. -/
structure LogicError where
  what : String
deriving DecidableEq, Repr

namespace ControllerFactory

/-- The first chain of `construct`: the controller for the name. -/
def constructController (name : String) : Except LogicError RobotController :=
  if name = "ackermann_pid" then Except.ok RobotController.RobotController_Ackermann_Pid
  else if name = "ackermann_purepursuit" then
    Except.ok RobotController.Robotcontroller_Ackermann_PurePursuit
  else if name = "ackermann_inputscaling" then
    Except.ok RobotController.RobotController_Ackermann_Inputscaling
  else if name = "ackermann_stanley" then
    Except.ok RobotController.RobotController_Ackermann_Stanley
  else if name = "2steer_purepursuit" then
    Except.ok RobotController.RobotController_2Steer_PurePursuit
  else if name = "2steer_stanley" then Except.ok RobotController.RobotController_2Steer_Stanley
  else if name = "2steer_inputscaling" then
    Except.ok RobotController.RobotController_2Steer_InputScaling
  else if name = "unicycle_inputscaling" then
    Except.ok RobotController.RobotController_Unicycle_InputScaling
  else if name = "patsy_pid" then Except.ok RobotController.RobotControllerTrailer
  else if name = "omnidrive_orthexp" then
    Except.ok RobotController.RobotController_Omnidrive_OrthogonalExponential
  else if name = "ackermann_orthexp" then
    Except.ok RobotController.RobotController_Ackermann_OrthogonalExponential
  else if name = "differential_orthexp" then
    Except.ok RobotController.RobotController_Differential_OrthogonalExponential
  else if name = "kinematic_SLP" then Except.ok RobotController.RobotController_Kinematic_SLP
  else if name = "dynamic_SLP" then Except.ok RobotController.RobotController_Dynamic_SLP
  else if name = "kinematic_HBZ" then Except.ok RobotController.RobotController_Kinematic_HBZ
  else if name = "ICR_CCW" then Except.ok RobotController.RobotController_ICR_CCW
  else Except.error ⟨"Unknown robot controller. Shutdown."⟩

/-- The second chain of `construct`: the local planner for the algorithm name. -/
def constructLocalPlanner (local_planner_name : String) : Except LogicError LocalPlanner :=
  if local_planner_name = "AStar" then Except.ok LocalPlanner.LocalPlannerAStarNStatic
  else if local_planner_name = "AStarG" then Except.ok LocalPlanner.LocalPlannerAStarGStatic
  else if local_planner_name = "ThetaStar" then
    Except.ok LocalPlanner.LocalPlannerThetaStarNStatic
  else if local_planner_name = "ThetaStarG" then
    Except.ok LocalPlanner.LocalPlannerThetaStarGStatic
  else if local_planner_name = "AStarR" then Except.ok LocalPlanner.LocalPlannerAStarNReconf
  else if local_planner_name = "AStarGR" then Except.ok LocalPlanner.LocalPlannerAStarGReconf
  else if local_planner_name = "ThetaStarR" then
    Except.ok LocalPlanner.LocalPlannerThetaStarNReconf
  else if local_planner_name = "ThetaStarGR" then
    Except.ok LocalPlanner.LocalPlannerThetaStarGReconf
  else if local_planner_name = "BFS" then Except.ok LocalPlanner.LocalPlannerBFSStatic
  else if local_planner_name = "BFSR" then Except.ok LocalPlanner.LocalPlannerBFSReconf
  else if local_planner_name = "Transformer" then Except.ok LocalPlanner.LocalPlannerTransformer
  else if local_planner_name = "NULL" then Except.ok LocalPlanner.LocalPlannerNull
  else Except.error ⟨"Unknown local planner algorithm. Shutdown."⟩

/-- The detector that the third chain of `construct` assigns for the name when the
collision box is used; `none` for an unknown name. -/
def detectorFor (name : String) : Option ObstacleAvoider :=
  if name = "ackermann_pid" then some ObstacleAvoider.ObstacleDetectorAckermann
  else if name = "ackermann_purepursuit" then some ObstacleAvoider.ObstacleDetectorAckermann
  else if name = "ackermann_inputscaling" then some ObstacleAvoider.ObstacleDetectorAckermann
  else if name = "ackermann_stanley" then some ObstacleAvoider.ObstacleDetectorAckermann
  else if name = "2steer_purepursuit" then some ObstacleAvoider.ObstacleDetectorAckermann
  else if name = "2steer_stanley" then some ObstacleAvoider.ObstacleDetectorAckermann
  else if name = "2steer_inputscaling" then some ObstacleAvoider.ObstacleDetectorAckermann
  else if name = "unicycle_inputscaling" then some ObstacleAvoider.ObstacleDetectorAckermann
  else if name = "patsy_pid" then some ObstacleAvoider.ObstacleDetectorPatsy
  else if name = "omnidrive_orthexp" then some ObstacleAvoider.ObstacleDetectorOmnidrive
  else if name = "ackermann_orthexp" then some ObstacleAvoider.ObstacleDetectorOmnidrive
  else if name = "differential_orthexp" then some ObstacleAvoider.ObstacleDetectorOmnidrive
  else if name = "kinematic_SLP" then some ObstacleAvoider.ObstacleDetectorAckermann
  else if name = "dynamic_SLP" then some ObstacleAvoider.ObstacleDetectorAckermann
  else if name = "kinematic_HBZ" then some ObstacleAvoider.ObstacleDetectorAckermann
  else if name = "ICR_CCW" then some ObstacleAvoider.ObstacleDetectorAckermann
  else none

/-- The third chain of `construct`: `out_obstacle_avoider` after the chain. -/
def constructObstacleAvoider (opt_ : PathFollowerParameters)
    (out_obstacle_avoider : Option ObstacleAvoider) : Except LogicError (Option ObstacleAvoider) :=
  match detectorFor opt_.controller with
  | none => Except.error ⟨"Unknown robot controller. Shutdown."⟩
  | some detector =>
    if opt_.obstacle_avoider_use_collision_box then Except.ok (some detector)
    else Except.ok out_obstacle_avoider

/-- The method `ControllerFactory::construct`: the three reference arguments after
the call, or the thrown exception.  The wiring calls at the end of the method act
on the constructed objects and are not part of the result. -/
def construct (opt_ : PathFollowerParameters) (out : FactoryOutput) :
    Except LogicError FactoryOutput :=
  match constructController opt_.controller with
  | Except.error e => Except.error e
  | Except.ok controller =>
    let out := { out with out_controller := some controller }
    match constructLocalPlanner opt_.algo with
    | Except.error e => Except.error e
    | Except.ok local_planner =>
      let out := { out with out_local_planner := some local_planner }
      match constructObstacleAvoider opt_ out.out_obstacle_avoider with
      | Except.error e => Except.error e
      | Except.ok obstacle_avoider =>
        let out := { out with out_obstacle_avoider := obstacle_avoider }
        --  if no obstacle avoider was set, use the none-avoider
        let out := { out with out_obstacle_avoider := some ObstacleAvoider.NoneAvoider }
        Except.ok out

end ControllerFactory

/-! ### Regulators for the examples -/

/-- A regulator configured at instant 0 with the driver's default gains
(`kp = 1.5`, `ki = 0.001`, `delta_max` of thirty degrees, `e_max = 0.1`,
`v = 0.5`, `Ta = 0.03`) and the integrator bound `i_max = 1`. -/
def examplePid : PidCtrl :=
  PidCtrl.configure ⟨0, 0, 0, 0, 0, 0, 0, 0, 0⟩ 0 (3 / 2) (1 / 1000) 1
    (884279719003555 / 281474976710656 * 30 / 180) (1 / 10) (1 / 2) (3 / 100)

/-- The same regulator configured with the negative integrator bound
`i_max = -1`. -/
def negativeBoundPid : PidCtrl :=
  PidCtrl.configure ⟨0, 0, 0, 0, 0, 0, 0, 0, 0⟩ 0 (3 / 2) (1 / 1000) (-1)
    (884279719003555 / 281474976710656 * 30 / 180) (1 / 10) (1 / 2) (3 / 100)

/-- Options with the driver's default values and a maximal speed of 1. -/
def exampleOptions : Options :=
  { dead_time_ := 1 / 10, wp_tolerance_ := 1 / 5, goal_tolerance_ := 3 / 20, l_ := 19 / 50,
    steer_slow_threshold_ := 1 / 4, max_speed_ := 1, path_idx := 0, wp_idx := 0 }

/-! ## Sequences of calls -/

/-- Equality of outcomes is decidable. -/
instance instDecidableEqExcept {ε α : Type} [DecidableEq ε] [DecidableEq α] :
    DecidableEq (Except ε α) := fun a b =>
  match a, b with
  | Except.ok x, Except.ok y => decidable_of_iff (x = y) (by simp)
  | Except.error e, Except.error f => decidable_of_iff (e = f) (by simp)
  | Except.ok _, Except.error _ => isFalse (by simp)
  | Except.error _, Except.ok _ => isFalse (by simp)

/-- A call of one of the public operations of the driver. -/
inductive Call
  | setGoal (goal : MotionGoal)
  | execute (inp : TickInput)
  | stop

/-- The driver after one call. -/
def call (env : DriverEnv) (d : BehaviouralPathDriver) : Call → Except Fault BehaviouralPathDriver
  | Call.setGoal goal => Except.ok (d.setGoal env.toMathEnv goal)
  | Call.execute inp =>
    match d.execute env inp with
    | Except.error f => Except.error f
    | Except.ok r => Except.ok r.driver
  | Call.stop => Except.ok d.stop

/-- The driver after a sequence of calls. -/
def runCalls (env : DriverEnv) :
    BehaviouralPathDriver → List Call → Except Fault BehaviouralPathDriver
  | d, [] => Except.ok d
  | d, c :: cs =>
    match call env d c with
    | Except.error f => Except.error f
    | Except.ok d => runCalls env d cs

/-- The result of a tick that does not fault (`fallback` otherwise). -/
def tickOf (x : Except Fault TickResult) (fallback : TickResult) : TickResult :=
  match x with
  | Except.ok r => r
  | Except.error _ => fallback

/-- The driver left by a sequence of calls that does not fault (`fallback`
otherwise). -/
def driverOf (x : Except Fault BehaviouralPathDriver) (fallback : BehaviouralPathDriver) :
    BehaviouralPathDriver :=
  match x with
  | Except.ok d => d
  | Except.error _ => fallback

/-! ### A robot on the x axis for the examples -/

/-- An environment for the examples with a robot that stays on the x axis and
heads east, with zero steering: `cos` is exact at 0 and at `M_PI`, `sin`, `tan` and
`atan` are exact at 0, `hypot` is exact when one argument is 0, the signed
distance is exact for a line parallel to the x axis, `NormalizeAngle` folds once
like `AngleClamp`, and the filtered speed is the last published speed. -/
def exampleDriverEnv : DriverEnv :=
  { toMathEnv := exampleEnv,
    cos := fun a => if a = 0 then 1 else if a = 884279719003555 / 281474976710656 then -1 else 0,
    sin := fun _ => 0,
    tan := fun a => a,
    atan := fun a => a,
    hypot := fun x y => if y = 0 then |x| else if x = 0 then |y| else |x| + |y|,
    NormalizeAngle := exampleEnv.AngleClamp,
    GetSignedDistance := fun p0 p1 q => if p0.1 ≤ p1.1 then q.2 - p0.2 else p0.2 - q.2,
    setFilteredSpeed := fun _ v => v }

/-- The answers of the node at the instant `now` when the robot is at `(x, 0)` and
heads east: every pose query and every transform succeeds. -/
def robotAt (x : ℚ) (now : ℚ) : TickInput :=
  { now := now, worldPose := some ⟨x, 0, 0⟩, behaviourPose := some ⟨x, 0, 0⟩,
    transformNext := fun wp => some ⟨wp.x - x, wp.y, wp.theta⟩,
    transformFollowup := fun wp => some ⟨wp.x - x, wp.y, wp.theta⟩ }

/-- A driver constructed at instant 0. -/
def freshDriver : BehaviouralPathDriver :=
  BehaviouralPathDriver.construct exampleEnv 0

/-- A straight path of three poses, speed 1: the first scenario of the
specification. -/
def straightGoal : MotionGoal :=
  { path := [⟨0, 0, 0⟩, ⟨1, 0, 0⟩, ⟨2, 0, 0⟩], v := 1 }

/-- The straight path with speed 0. -/
def zeroSpeedGoal : MotionGoal :=
  { path := [⟨0, 0, 0⟩, ⟨1, 0, 0⟩, ⟨2, 0, 0⟩], v := 0 }

/-- A straight path of five poses whose first three poses lie within the waypoint
tolerance of the origin. -/
def fivePoseGoal : MotionGoal :=
  { path := [⟨0, 0, 0⟩, ⟨1 / 20, 0, 0⟩, ⟨1 / 10, 0, 0⟩, ⟨1, 0, 0⟩, ⟨2, 0, 0⟩], v := 1 }

/-- A straight path of two poses. -/
def twoPoseGoal : MotionGoal :=
  { path := [⟨0, 0, 0⟩, ⟨1, 0, 0⟩], v := 1 }

/-- A straight path of five poses that starts at `(10, 0)`. -/
def shiftedGoal : MotionGoal :=
  { path := [⟨10, 0, 0⟩, ⟨11, 0, 0⟩, ⟨12, 0, 0⟩, ⟨13, 0, 0⟩, ⟨14, 0, 0⟩], v := 1 }

/-- A path of two poses that lie within the waypoint tolerance of each other. -/
def shortGoal : MotionGoal :=
  { path := [⟨0, 0, 0⟩, ⟨1 / 10, 0, 0⟩], v := 1 }

/-- A goal with a single pose. -/
def onePoseGoal : MotionGoal :=
  { path := [⟨0, 0, 0⟩], v := 1 }

/-- The driver after the straight goal and one tick, 30 milliseconds after
construction, with the robot at the origin. -/
def drivingDriver : BehaviouralPathDriver :=
  driverOf (runCalls exampleDriverEnv freshDriver
    [Call.setGoal straightGoal, Call.execute (robotAt 0 30)]) freshDriver

/-- A tick result used as fallback in the examples. -/
def noTick : TickResult :=
  { status := MotionStatus.MOTION_STATUS_INTERNAL_ERROR, driver := freshDriver, events := [],
    dir_sign := none }

/-- The tick of the driving driver 10 milliseconds after its first tick, with the
robot at `(1.5, 0)`, beyond the waypoint it is heading for. -/
def gatedTick : TickResult :=
  tickOf (drivingDriver.execute exampleDriverEnv (robotAt (3 / 2) 40)) noTick

/-- The first tick of a fresh driver with the goal of speed 0 and the robot at
`(3, 0)`, beyond the path. -/
def zeroSpeedTick : TickResult :=
  tickOf ((freshDriver.setGoal exampleEnv zeroSpeedGoal).execute exampleDriverEnv
    (robotAt 3 30)) noTick

/-- The first tick of a fresh driver with the straight goal and the robot at the
origin. -/
def firstTick : TickResult :=
  tickOf ((freshDriver.setGoal exampleEnv straightGoal).execute exampleDriverEnv
    (robotAt 0 30)) noTick

/-- The driver that followed the path of five poses for one tick and then got the
goal of two poses. -/
def staleCursorDriver : BehaviouralPathDriver :=
  driverOf (runCalls exampleDriverEnv freshDriver
    [Call.setGoal fivePoseGoal, Call.execute (robotAt 0 30), Call.setGoal twoPoseGoal])
    freshDriver

/-- The driver that followed the path of five poses for one tick and then got the
shifted goal. -/
def regoaledDriver : BehaviouralPathDriver :=
  driverOf (runCalls exampleDriverEnv freshDriver
    [Call.setGoal fivePoseGoal, Call.execute (robotAt 0 30), Call.setGoal shiftedGoal])
    freshDriver

/-- The driver with the short goal after one tick with the robot at the last pose:
it approaches the turning point. -/
def approachingDriver : BehaviouralPathDriver :=
  driverOf (runCalls exampleDriverEnv freshDriver
    [Call.setGoal shortGoal, Call.execute (robotAt (1 / 10) 30)]) freshDriver

/-- The approaching driver after the tick that reports success. -/
def arrivedDriver : BehaviouralPathDriver :=
  driverOf (runCalls exampleDriverEnv approachingDriver [Call.execute (robotAt (1 / 10) 60)])
    freshDriver

/-- The driving driver after a tick in which the pose query of the driver fails. -/
def lostDriver : BehaviouralPathDriver :=
  driverOf (runCalls exampleDriverEnv drivingDriver
    [Call.execute { robotAt (3 / 2) 60 with worldPose := none }]) freshDriver

/-- The tick of the driving driver in which the pose query of the driver fails. -/
def lostTick : TickResult :=
  tickOf (drivingDriver.execute exampleDriverEnv { robotAt (3 / 2) 60 with worldPose := none })
    noTick

/-- The tick of the driving driver in which the pose query of the behaviour
fails. -/
def behaviourLostTick : TickResult :=
  tickOf (drivingDriver.execute exampleDriverEnv
    { robotAt (1 / 2) 60 with behaviourPose := none }) noTick

/-- The tick of the driving driver in which the transform of the next waypoint
fails. -/
def nextTransformFailTick : TickResult :=
  tickOf (drivingDriver.execute exampleDriverEnv
    { robotAt (1 / 2) 60 with transformNext := fun _ => none }) noTick

/-- The tick of the approaching driver in which the transform of the next waypoint
fails. -/
def approachTransformFailTick : TickResult :=
  tickOf (approachingDriver.execute exampleDriverEnv
    { robotAt (1 / 10) 60 with transformNext := fun _ => none }) noTick

/-- The tick of the driving driver in which the transform of the follow-up waypoint
fails. -/
def followupTransformFailTick : TickResult :=
  tickOf (drivingDriver.execute exampleDriverEnv
    { robotAt (1 / 2) 60 with transformFollowup := fun _ => none }) noTick

/-- A straight path of three poses whose last two poses lie within the waypoint
tolerance of each other. -/
def nearCuspGoal : MotionGoal :=
  { path := [⟨0, 0, 0⟩, ⟨1, 0, 0⟩, ⟨11 / 10, 0, 0⟩], v := 1 }

/-- The driver with the goal `nearCuspGoal` after a tick with the robot at the
origin and a tick with the robot at `(1, 0)`: it approaches the turning point. -/
def nearCuspDriver : BehaviouralPathDriver :=
  driverOf (runCalls exampleDriverEnv freshDriver
    [Call.setGoal nearCuspGoal, Call.execute (robotAt 0 30), Call.execute (robotAt 1 60)])
    freshDriver

/-- The tick of `nearCuspDriver` with the robot at `(0.95, 0)`, before the last
two poses of the path. -/
def approachTick : TickResult :=
  tickOf (nearCuspDriver.execute exampleDriverEnv (robotAt (19 / 20) 90)) noTick

/-- The tick of `nearCuspDriver` with the robot at `(1.05, 0)`, between the last
two poses of the path. -/
def earlySuccessTick : TickResult :=
  tickOf (nearCuspDriver.execute exampleDriverEnv (robotAt (21 / 20) 90)) noTick

/-- The straight path of three poses with orientation `4 / 15` at every pose. -/
def steeringGoal : MotionGoal :=
  { path := [⟨0, 0, 4 / 15⟩, ⟨1, 0, 4 / 15⟩, ⟨2, 0, 4 / 15⟩], v := 1 }

/-- The first tick of a fresh driver with the goal `steeringGoal` and the robot at
the origin, heading east. -/
def steeringTick : TickResult :=
  tickOf ((freshDriver.setGoal exampleEnv steeringGoal).execute exampleDriverEnv
    (robotAt 0 30)) noTick

/-- The tick of the driving driver 30 milliseconds after its first tick, with the
robot at `(1.5, 0)`, beyond the waypoint it is heading for. -/
def reverseTick : TickResult :=
  tickOf (drivingDriver.execute exampleDriverEnv (robotAt (3 / 2) 60)) noTick

/-- The straight path with speed -1. -/
def negativeSpeedGoal : MotionGoal :=
  { path := [⟨0, 0, 0⟩, ⟨1, 0, 0⟩, ⟨2, 0, 0⟩], v := -1 }

/-- The first tick of a fresh driver with the goal of speed -1 and the robot at the
origin. -/
def negativeSpeedTick : TickResult :=
  tickOf ((freshDriver.setGoal exampleEnv negativeSpeedGoal).execute exampleDriverEnv
    (robotAt 0 30)) noTick

/-- The driver as the behaviour sees it in the first tick with the goal of five
poses and the robot at the origin: started, with the pose of the robot stored. -/
def fivePoseParent : BehaviouralPathDriver :=
  { (freshDriver.setGoal exampleEnv fivePoseGoal).start with slam_pose_ := ⟨0, 0, 0⟩ }

/-- The tick of the approaching driver that reports success. -/
def arrivalTick : TickResult :=
  tickOf (approachingDriver.execute exampleDriverEnv (robotAt (1 / 10) 60)) noTick

/-- The first tick with the goal `nearCuspGoal`, with the robot at the origin. -/
def nearCuspFirstTick : TickResult :=
  tickOf ((freshDriver.setGoal exampleEnv nearCuspGoal).execute exampleDriverEnv
    (robotAt 0 30)) noTick

/-- The second tick with the goal `nearCuspGoal`, with the robot at `(1, 0)`. -/
def nearCuspSecondTick : TickResult :=
  tickOf (nearCuspFirstTick.driver.execute exampleDriverEnv (robotAt 1 60)) noTick

/-- The third tick with the goal `nearCuspGoal`, with the robot at `(0.95, 0)`. -/
def nearCuspThirdTick : TickResult :=
  tickOf (nearCuspSecondTick.driver.execute exampleDriverEnv (robotAt (19 / 20) 90)) noTick

/-- The short goal with speed -1. -/
def negativeShortGoal : MotionGoal :=
  { path := [⟨0, 0, 0⟩, ⟨1 / 10, 0, 0⟩], v := -1 }

/-- The driver with the short goal of speed -1 after one tick with the robot at the
last pose: it approaches the turning point. -/
def negativeApproachDriver : BehaviouralPathDriver :=
  driverOf (runCalls exampleDriverEnv freshDriver
    [Call.setGoal negativeShortGoal, Call.execute (robotAt (1 / 10) 30)]) freshDriver

/-- The tick of `negativeApproachDriver` with the robot at `(-0.1, 0)`, before the
path. -/
def negativeApproachTick : TickResult :=
  tickOf (negativeApproachDriver.execute exampleDriverEnv (robotAt (-1 / 10) 60)) noTick

/-- A path that goes east for 0.1 and back: two sub-paths that meet at
`(0.1, 0)`. -/
def turnBackGoal : MotionGoal :=
  { path := [⟨0, 0, 0⟩, ⟨1 / 10, 0, 0⟩, ⟨0, 0, 884279719003555 / 281474976710656⟩], v := 1 }

/-- A path from `(10, 0)` east to `(12, 0)` and back: two sub-paths of three poses
that meet at `(12, 0)`. -/
def farTurnBackGoal : MotionGoal :=
  { path := [⟨10, 0, 0⟩, ⟨11, 0, 0⟩, ⟨12, 0, 0⟩, ⟨11, 0, 884279719003555 / 281474976710656⟩,
      ⟨10, 0, 884279719003555 / 281474976710656⟩], v := 1 }

/-- The driver that followed `turnBackGoal` with the robot at `(0.1, 0)` for three
ticks, up to the approach of the end of the second sub-path, and then got the goal
`farTurnBackGoal`. -/
def staleApproachDriver : BehaviouralPathDriver :=
  driverOf (runCalls exampleDriverEnv freshDriver
    [Call.setGoal turnBackGoal, Call.execute (robotAt (1 / 10) 30),
     Call.execute (robotAt (1 / 10) 60), Call.execute (robotAt (1 / 10) 90),
     Call.setGoal farTurnBackGoal]) freshDriver

/-- The first tick of `staleApproachDriver` after the goal `farTurnBackGoal`, with
the robot still at `(0.1, 0)`. -/
def staleSuccessTick : TickResult :=
  tickOf (staleApproachDriver.execute exampleDriverEnv (robotAt (1 / 10) 120)) noTick

theorem setPathLoop_acc (env : MathEnv) (rest : List Waypoint) :
    ∀ (last : Waypoint) (seg : Path) (paths : List Path),
      setPathLoop env last rest seg paths = paths ++ setPathLoop env last rest seg [] := by
  induction rest with
  | nil => intro last seg paths; simp [setPathLoop]
  | cons cur rest ih =>
    intro last seg paths
    cases rest with
    | nil => simp [setPathLoop]
    | cons next rest =>
      simp only [setPathLoop]
      split
      · rw [ih cur [cur] (paths ++ [seg ++ [cur]]), ih cur [cur] ([] ++ [seg ++ [cur]])]
        simp
      · exact ih cur (seg ++ [cur]) paths

theorem setPathLoop_last (env : MathEnv) (last cur : Waypoint) (seg : Path) :
    setPathLoop env last [cur] seg [] = [seg ++ [cur]] := by
  simp [setPathLoop]

theorem setPathLoop_split (env : MathEnv) (last cur next : Waypoint) (rest : List Waypoint)
    (seg : Path) (h : |turnAngle env last cur next| > env.M_PI / 3) :
    setPathLoop env last (cur :: next :: rest) seg []
      = (seg ++ [cur]) :: setPathLoop env cur (next :: rest) [cur] [] := by
  rw [setPathLoop, if_pos h, setPathLoop_acc]
  simp

theorem setPathLoop_keep (env : MathEnv) (last cur next : Waypoint) (rest : List Waypoint)
    (seg : Path) (h : ¬ |turnAngle env last cur next| > env.M_PI / 3) :
    setPathLoop env last (cur :: next :: rest) seg []
      = setPathLoop env cur (next :: rest) (seg ++ [cur]) [] := by
  rw [setPathLoop, if_neg h]

/-- Shape of the result of the loop: the first sub-path extends the segment under
construction, and the waypoints appended to it followed by the later sub-paths
without their first waypoints are the poses still to visit. -/
theorem setPathLoop_shape (env : MathEnv) (rest : List Waypoint) :
    ∀ (last : Waypoint) (seg : Path), rest ≠ [] →
      ∃ q qs, setPathLoop env last rest seg [] = (seg ++ q) :: qs ∧ q ≠ [] ∧
        q ++ dropJoin qs = rest := by
  induction rest with
  | nil => intro _ _ h; exact absurd rfl h
  | cons cur rest ih =>
    intro last seg _
    cases rest with
    | nil => exact ⟨[cur], [], setPathLoop_last env last cur seg, by simp, by simp [dropJoin]⟩
    | cons next rest =>
      by_cases h : |turnAngle env last cur next| > env.M_PI / 3
      · obtain ⟨q, qs, hq, _, hcat⟩ := ih cur [cur] (by simp)
        refine ⟨[cur], ([cur] ++ q) :: qs, ?_, by simp, ?_⟩
        · rw [setPathLoop_split env last cur next rest seg h, hq]
        · simpa [dropJoin] using hcat
      · obtain ⟨q, qs, hq, _, hcat⟩ := ih cur (seg ++ [cur]) (by simp)
        refine ⟨cur :: q, qs, ?_, by simp, ?_⟩
        · rw [setPathLoop_keep env last cur next rest seg h, hq]
          simp
        · simpa using hcat

theorem setPathLoop_length (env : MathEnv) (rest : List Waypoint) :
    ∀ (last : Waypoint) (seg : Path), seg ≠ [] →
      ∀ p ∈ setPathLoop env last rest seg [], 2 ≤ p.length := by
  induction rest with
  | nil => intro _ _ _ p hp; simp [setPathLoop] at hp
  | cons cur rest ih =>
    intro last seg hseg p hp
    have hlen : 1 ≤ seg.length := List.length_pos.mpr hseg
    cases rest with
    | nil =>
      rw [setPathLoop_last] at hp
      simp only [List.mem_singleton] at hp
      subst hp
      simp
      omega
    | cons next rest =>
      by_cases h : |turnAngle env last cur next| > env.M_PI / 3
      · rw [setPathLoop_split env last cur next rest seg h] at hp
        rcases List.mem_cons.mp hp with hp | hp
        · subst hp
          simp
          omega
        · exact ih cur [cur] (by simp) p hp
      · rw [setPathLoop_keep env last cur next rest seg h] at hp
        exact ih cur (seg ++ [cur]) (by simp) p hp

theorem setPath_cons_cons (env : MathEnv) (a b : Waypoint) (rest : List Waypoint) :
    setPath env (a :: b :: rest) = setPathLoop env a (b :: rest) [a] [] := rfl

theorem exists_cons_cons_of_two_le {α : Type} (W : List α) (h : 2 ≤ W.length) :
    ∃ a b rest, W = a :: b :: rest := by
  match W, h with
  | a :: b :: rest, _ => exact ⟨a, b, rest, rfl⟩

/-- C1: for every waypoint list with at least two poses, concatenating the sub-paths
produced by `setPath` in order, while dropping the first waypoint of every
sub-path after the first one, gives back the waypoint list. -/
theorem setPath_reconcat (env : MathEnv) (W : List Waypoint) (h : 2 ≤ W.length) :
    reconcat (setPath env W) = W := by
  obtain ⟨a, b, rest, rfl⟩ := exists_cons_cons_of_two_le W h
  obtain ⟨q, qs, hq, _, hcat⟩ := setPathLoop_shape env (b :: rest) a [a] (by simp)
  rw [setPath_cons_cons, hq]
  simp [reconcat, hcat]

/-- C3: for every waypoint list with at least two poses every sub-path produced by
`setPath` has at least two waypoints, and for a list with fewer than two poses the
produced set of sub-paths is empty. -/
theorem setPath_subpath_length (env : MathEnv) (W : List Waypoint) :
    (2 ≤ W.length → ∀ p ∈ setPath env W, 2 ≤ p.length) ∧
    (W.length < 2 → setPath env W = []) := by
  constructor
  · intro h
    obtain ⟨a, b, rest, rfl⟩ := exists_cons_cons_of_two_le W h
    rw [setPath_cons_cons]
    exact setPathLoop_length env (b :: rest) a [a] (by simp)
  · intro h
    match W, h with
    | [], _ => rfl
    | [_], _ => rfl
    | _ :: _ :: _, h => exact absurd h (by simp)

theorem chain_getElem? {α : Type} (R : α → α → Prop) (l : List α) (hl : l.Chain' R) :
    ∀ (k : ℕ) (p q : α), l[k]? = some p → l[k + 1]? = some q → R p q := by
  induction l with
  | nil => intro k p q hp; simp at hp
  | cons a l ih =>
    intro k p q hp hq
    cases l with
    | nil => simp at hq
    | cons b l =>
      rw [List.chain'_cons] at hl
      cases k with
      | zero =>
        simp at hp hq
        subst hp hq
        exact hl.1
      | succ k =>
        rw [List.getElem?_cons_succ] at hp hq
        exact ih hl.2 k p q hp hq

theorem setPathLoop_chain (env : MathEnv) (rest : List Waypoint) :
    ∀ (last : Waypoint) (seg : Path),
      (setPathLoop env last rest seg []).Chain' SharesCusp := by
  induction rest with
  | nil => intro _ _; simp [setPathLoop]
  | cons cur rest ih =>
    intro last seg
    cases rest with
    | nil => rw [setPathLoop_last]; exact List.chain'_singleton _
    | cons next rest =>
      by_cases h : |turnAngle env last cur next| > env.M_PI / 3
      · rw [setPathLoop_split env last cur next rest seg h]
        obtain ⟨q, qs, hq, _, _⟩ := setPathLoop_shape env (next :: rest) cur [cur] (by simp)
        have hch := ih cur [cur]
        rw [hq] at hch ⊢
        rw [List.chain'_cons]
        exact ⟨⟨cur, by simp, by simp⟩, hch⟩
      · rw [setPathLoop_keep env last cur next rest seg h]
        exact ih cur (seg ++ [cur])

theorem setPathLoop_getLast (env : MathEnv) (rest : List Waypoint) :
    ∀ (last : Waypoint) (seg : Path), rest ≠ [] →
      ∃ p, (setPathLoop env last rest seg []).getLast? = some p ∧
        p.getLast? = rest.getLast? := by
  induction rest with
  | nil => intro _ _ h; exact absurd rfl h
  | cons cur rest ih =>
    intro last seg _
    cases rest with
    | nil => exact ⟨seg ++ [cur], by rw [setPathLoop_last]; rfl, by simp⟩
    | cons next rest =>
      by_cases h : |turnAngle env last cur next| > env.M_PI / 3
      · obtain ⟨p, hp, hlast⟩ := ih cur [cur] (by simp)
        obtain ⟨q, qs, hq, _, _⟩ := setPathLoop_shape env (next :: rest) cur [cur] (by simp)
        refine ⟨p, ?_, by rw [hlast]; simp⟩
        rw [setPathLoop_split env last cur next rest seg h]
        rw [hq] at hp ⊢
        simpa [List.getLast?_cons_cons] using hp
      · obtain ⟨p, hp, hlast⟩ := ih cur (seg ++ [cur]) (by simp)
        refine ⟨p, ?_, by rw [hlast]; simp⟩
        rw [setPathLoop_keep env last cur next rest seg h]
        exact hp

/-- C4: for every waypoint list with at least two poses, the last waypoint of each
sub-path produced by `setPath` is the first waypoint of the sub-path that follows
it, and the last waypoint of the final sub-path is the last waypoint of the list. -/
theorem setPath_shared_cusp (env : MathEnv) (W : List Waypoint) (h : 2 ≤ W.length) :
    (∀ (k : ℕ) (p q : Path), (setPath env W)[k]? = some p →
        (setPath env W)[k + 1]? = some q →
        ∃ c, p.getLast? = some c ∧ q.head? = some c) ∧
    (∃ p c, (setPath env W).getLast? = some p ∧ p.getLast? = some c ∧
        W.getLast? = some c) := by
  obtain ⟨a, b, rest, rfl⟩ := exists_cons_cons_of_two_le W h
  rw [setPath_cons_cons]
  constructor
  · exact chain_getElem? SharesCusp _ (setPathLoop_chain env (b :: rest) a [a])
  · obtain ⟨p, hp, hlast⟩ := setPathLoop_getLast env (b :: rest) a [a] (by simp)
    refine ⟨p, (b :: rest).getLast (by simp), hp, ?_, ?_⟩
    · rw [hlast]; exact List.getLast?_eq_getLast _ _
    · rw [List.getLast?_cons_cons]; exact List.getLast?_eq_getLast _ _

theorem smoothPath_of_length_le_two (env : MathEnv) (p : Path) (h : p.length ≤ 2) :
    SmoothPath env p := by
  intro j a b c _ _ hc
  have := (List.getElem?_eq_some.mp hc).1
  omega

theorem smoothPath_snoc (env : MathEnv) (l : Path) (a b c : Waypoint)
    (hl : SmoothPath env (l ++ [a, b])) (h : |turnAngle env a b c| ≤ env.M_PI / 3) :
    SmoothPath env (l ++ [a, b, c]) := by
  intro j x y z hx hy hz
  have hj : j + 2 < l.length + 3 := by
    have := (List.getElem?_eq_some.mp hz).1
    simpa using this
  have hsplit : l ++ [a, b, c] = (l ++ [a, b]) ++ [c] := by simp
  by_cases hlt : j < l.length
  · have h0 : j < (l ++ [a, b]).length := by simp; omega
    have h1 : j + 1 < (l ++ [a, b]).length := by simp; omega
    have h2 : j + 2 < (l ++ [a, b]).length := by simp; omega
    rw [hsplit, List.getElem?_append_left h0] at hx
    rw [hsplit, List.getElem?_append_left h1] at hy
    rw [hsplit, List.getElem?_append_left h2] at hz
    exact hl j x y z hx hy hz
  · have hjl : j = l.length := by omega
    subst hjl
    rw [List.getElem?_append_right (le_refl _)] at hx
    rw [List.getElem?_append_right (by omega)] at hy hz
    simp at hx hy hz
    subst hx hy hz
    exact h

theorem setPathLoop_smooth (env : MathEnv) (rest : List Waypoint) :
    ∀ (last : Waypoint) (l : Path), SmoothPath env (l ++ [last] ++ rest.take 1) →
      ∀ p ∈ setPathLoop env last rest (l ++ [last]) [], SmoothPath env p := by
  induction rest with
  | nil => intro _ _ _ p hp; simp [setPathLoop] at hp
  | cons cur rest ih =>
    intro last l hl p hp
    simp only [List.take_succ_cons, List.take_zero] at hl
    cases rest with
    | nil =>
      rw [setPathLoop_last] at hp
      simp only [List.mem_singleton] at hp
      subst hp
      exact hl
    | cons next rest =>
      by_cases h : |turnAngle env last cur next| > env.M_PI / 3
      · rw [setPathLoop_split env last cur next rest _ h] at hp
        rcases List.mem_cons.mp hp with hp | hp
        · subst hp
          exact hl
        · exact ih cur [] (smoothPath_of_length_le_two env _ (by simp)) p hp
      · rw [setPathLoop_keep env last cur next rest _ h] at hp
        refine ih cur (l ++ [last]) ?_ p hp
        have := smoothPath_snoc env l last cur next (by simpa using hl) (not_lt.mp h)
        simpa using this

/-- A turn of exactly `π/3` is kept inside the sub-path: a list of three poses whose
turn at the middle pose is `π/3` in absolute value is one sub-path. -/
theorem setPath_exact_turn (env : MathEnv) (a b c : Waypoint)
    (h : |turnAngle env a b c| = env.M_PI / 3) :
    setPath env [a, b, c] = [[a, b, c]] := by
  rw [setPath_cons_cons, setPathLoop_keep env a b c [] [a] (by rw [h]; exact lt_irrefl _),
    setPathLoop_last]
  rfl

/-- C5 (amended): for every waypoint list with at least two poses and every sub-path
produced by `setPath`, at every interior waypoint of the sub-path the clamped
angle between the incoming and the outgoing direction is at most `π/3` in
absolute value. -/
theorem setPath_smooth (env : MathEnv) (W : List Waypoint) (h : 2 ≤ W.length) :
    ∀ p ∈ setPath env W, ∀ (j : ℕ) (a b c : Waypoint),
      p[j]? = some a → p[j + 1]? = some b → p[j + 2]? = some c →
      |turnAngle env a b c| ≤ env.M_PI / 3 := by
  obtain ⟨a, b, rest, rfl⟩ := exists_cons_cons_of_two_le W h
  intro p hp
  rw [setPath_cons_cons] at hp
  exact setPathLoop_smooth env (b :: rest) a []
    (smoothPath_of_length_le_two env _ (by simp)) p hp

theorem getElem?_append_cons_length {α : Type} (A B : List α) (x : α) (n : ℕ)
    (h : n = A.length) : (A ++ x :: B)[n]? = some x := by
  subst h
  rw [List.getElem?_append_right (le_refl _)]
  simp

theorem closesAt_last (env : MathEnv) (W : List Waypoint) (i : ℕ) (h : i + 1 = W.length) :
    closesAt env W i = true := by
  simp [closesAt, h]

theorem closesAt_interior (env : MathEnv) (A r : List Waypoint) (last cur next : Waypoint) :
    closesAt env (A ++ last :: cur :: next :: r) (A.length + 1)
      = decide (|turnAngle env last cur next| > env.M_PI / 3) := by
  have h0 : (A ++ last :: cur :: next :: r)[A.length + 1 - 1]? = some last :=
    getElem?_append_cons_length A _ last _ (by simp)
  have h1 : (A ++ last :: cur :: next :: r)[A.length + 1]? = some cur := by
    have := getElem?_append_cons_length (A ++ [last]) (next :: r) cur (A.length + 1) (by simp)
    simpa using this
  have h2 : (A ++ last :: cur :: next :: r)[A.length + 1 + 1]? = some next := by
    have := getElem?_append_cons_length (A ++ [last, cur]) r next (A.length + 1 + 1) (by simp)
    simpa using this
  simp only [closesAt, isCuspAt, h0, h1, h2, turnAngle]
  simp
  intro h
  omega

theorem slice_segment (pre seg rest : List Waypoint) (cur : Waypoint) :
    slice (pre ++ seg ++ cur :: rest) (pre.length, pre.length + seg.length) = seg ++ [cur] := by
  have h1 : pre.length + seg.length + 1 - pre.length = (seg ++ [cur]).length := by
    simp; omega
  have h2 : pre ++ seg ++ cur :: rest = pre ++ ((seg ++ [cur]) ++ rest) := by simp
  simp only [slice]
  rw [h1, h2, List.drop_left, List.take_left]

theorem cutAt_map_snd (es : List ℕ) : ∀ start, (cutAt es start).map Prod.snd = es := by
  induction es with
  | nil => intro _; rfl
  | cons e es ih => intro start; simp [cutAt, ih]

theorem cutAt_length (es : List ℕ) : ∀ start, (cutAt es start).length = es.length := by
  induction es with
  | nil => intro _; rfl
  | cons e es ih => intro start; simp [cutAt, ih]

/-- The loop produces the slices of the pose list between consecutive closing
indices.  The list is split as `pre`, the segment under construction `l ++ [last]`
and the poses `rest` still to visit. -/
theorem setPathLoop_slices (env : MathEnv) (rest : List Waypoint) :
    ∀ (last : Waypoint) (l pre W : List Waypoint), W = pre ++ (l ++ [last]) ++ rest →
      setPathLoop env last rest (l ++ [last]) []
        = (cutAt ((List.range' (pre.length + l.length + 1) rest.length).filter (closesAt env W))
            pre.length).map (slice W) := by
  induction rest with
  | nil => intro _ _ _ _ _; simp [setPathLoop, cutAt]
  | cons cur rest ih =>
    intro last l pre W hW
    have hslice : slice W (pre.length, pre.length + l.length + 1) = l ++ [last] ++ [cur] := by
      have := slice_segment pre (l ++ [last]) rest cur
      rw [← hW] at this
      simpa [Nat.add_assoc] using this
    rw [List.length_cons, List.range'_succ]
    cases rest with
    | nil =>
      have hc : closesAt env W (pre.length + l.length + 1) = true :=
        closesAt_last env W _ (by rw [hW]; simp; omega)
      rw [setPathLoop_last, List.filter_cons_of_pos hc]
      simp [cutAt, hslice]
    | cons next rest =>
      have hc : closesAt env W (pre.length + l.length + 1)
          = decide (|turnAngle env last cur next| > env.M_PI / 3) := by
        have := closesAt_interior env (pre ++ l) rest last cur next
        simp only [List.length_append] at this
        rw [← this, hW]
        simp
      by_cases h : |turnAngle env last cur next| > env.M_PI / 3
      · rw [setPathLoop_split env last cur next rest _ h]
        rw [List.filter_cons_of_pos (by rw [hc]; simpa using h)]
        have := ih cur [] (pre ++ (l ++ [last])) W (by rw [hW]; simp)
        simp only [List.nil_append] at this
        rw [this]
        have hslice2 : slice W (pre.length, pre.length + (l.length + 1)) = l ++ [last, cur] := by
          rw [← Nat.add_assoc, hslice]; simp
        simp [cutAt, hslice2, Nat.add_assoc]
      · rw [setPathLoop_keep env last cur next rest _ h]
        rw [List.filter_cons_of_neg (by rw [hc]; simpa using h)]
        have := ih cur (l ++ [last]) pre W (by rw [hW]; simp)
        rw [this]
        simp [Nat.add_assoc]

/-- The result of `setPath` is the list of slices of the pose list given by the
index ranges of the specification. -/
theorem setPath_eq_slices (env : MathEnv) (W : List Waypoint) :
    setPath env W = (segmentRanges env W).map (slice W) := by
  match W with
  | [] => simp [setPath, segmentRanges]
  | [_] => simp [setPath, segmentRanges]
  | a :: b :: rest =>
    have h := setPathLoop_slices env (b :: rest) a [] [] (a :: b :: rest) (by simp)
    have h0 : closesAt env (a :: b :: rest) 0 = false := by simp [closesAt]
    have hlen : ¬ (a :: b :: rest).length < 2 := by simp
    have hr : (List.range (a :: b :: rest).length).filter (closesAt env (a :: b :: rest))
        = (List.range' 1 (b :: rest).length).filter (closesAt env (a :: b :: rest)) := by
      rw [List.range_eq_range', List.length_cons, List.range'_succ,
        List.filter_cons_of_neg (by simp [h0])]
    simp only [List.nil_append, List.length_nil, Nat.zero_add] at h
    rw [setPath_cons_cons, h, segmentRanges, if_neg hlen, hr]

theorem isCuspAt_lt (env : MathEnv) (W : List Waypoint) (i : ℕ)
    (h : isCuspAt env W i = true) : i + 1 < W.length := by
  unfold isCuspAt at h
  cases h2 : W[i + 1]? with
  | none =>
    rw [h2] at h
    cases W[i - 1]? <;> cases W[i]? <;> simp at h
  | some c => exact (List.getElem?_eq_some.mp h2).1

theorem closing_indices_split (env : MathEnv) (W : List Waypoint) (h : 2 ≤ W.length) :
    (List.range W.length).filter (closesAt env W)
      = (List.range (W.length - 1)).filter (fun i => decide (0 < i) && isCuspAt env W i)
          ++ [W.length - 1] := by
  have hlen : W.length = (W.length - 1) + 1 := by omega
  conv_lhs => rw [hlen, List.range_succ, List.filter_append]
  congr 1
  · apply List.filter_congr
    intro i hi
    have hi := List.mem_range.mp hi
    have hne : ¬ i + 1 = W.length := by omega
    simp [closesAt, hne]
  · rw [List.filter_cons_of_pos (closesAt_last env W _ (by omega))]
    rfl

theorem segmentRanges_map_snd (env : MathEnv) (W : List Waypoint) (h : 2 ≤ W.length) :
    (segmentRanges env W).map Prod.snd = (List.range W.length).filter (closesAt env W) := by
  rw [segmentRanges, if_neg (by omega), cutAt_map_snd]

/-- C2: for every waypoint list `W` with at least two poses, the sub-paths produced
by `setPath` are the slices of `W` between consecutive closing indices, where an
index closes a sub-path exactly when it is the last index or an interior index at
which the absolute clamped turn angle is strictly greater than `π/3`; hence the
number of sub-paths is one plus the number of such interior indices, a turn of
exactly `π/3` does not close a sub-path, and a list without such an index gives
exactly one sub-path, equal to the list. -/
theorem setPath_closes_at_cusps (env : MathEnv) (W : List Waypoint) (h : 2 ≤ W.length) :
    setPath env W = (segmentRanges env W).map (slice W) ∧
    (∀ i, i ∈ (segmentRanges env W).map Prod.snd ↔
        (i + 1 = W.length ∨ (0 < i ∧ i + 1 < W.length ∧ isCuspAt env W i = true))) ∧
    (setPath env W).length
      = 1 + ((List.range (W.length - 1)).filter
          (fun i => decide (0 < i) && isCuspAt env W i)).length ∧
    (∀ (i : ℕ) (a b c : Waypoint), W[i]? = some a → W[i + 1]? = some b → W[i + 2]? = some c →
        |env.AngleClamp (env.atan2 (b.y - a.y) (b.x - a.x)
          - env.atan2 (c.y - b.y) (c.x - b.x))| = env.M_PI / 3 →
        i + 1 ∉ (segmentRanges env W).map Prod.snd) ∧
    ((∀ i, 0 < i → i + 1 < W.length → isCuspAt env W i = false) → setPath env W = [W]) := by
  have hiff : ∀ i, i ∈ (segmentRanges env W).map Prod.snd ↔
      (i + 1 = W.length ∨ (0 < i ∧ i + 1 < W.length ∧ isCuspAt env W i = true)) := by
    intro i
    rw [segmentRanges_map_snd env W h, List.mem_filter, List.mem_range]
    simp only [closesAt, Bool.or_eq_true, Bool.and_eq_true, decide_eq_true_eq]
    constructor
    · rintro ⟨_, hlast | ⟨h0, hc⟩⟩
      · exact Or.inl hlast
      · exact Or.inr ⟨h0, isCuspAt_lt env W i hc, hc⟩
    · rintro (hlast | ⟨h0, hlt, hc⟩)
      · exact ⟨by omega, Or.inl hlast⟩
      · exact ⟨by omega, Or.inr ⟨h0, hc⟩⟩
  refine ⟨setPath_eq_slices env W, hiff, ?_, ?_, ?_⟩
  · rw [setPath_eq_slices, List.length_map, segmentRanges, if_neg (by omega), cutAt_length,
      closing_indices_split env W h, List.length_append]
    simp [Nat.add_comm]
  · intro i a b c ha hb hc hEq hmem
    have hlt : i + 2 < W.length := (List.getElem?_eq_some.mp hc).1
    rcases (hiff (i + 1)).mp hmem with hlast | ⟨_, _, hcusp⟩
    · omega
    · have ha2 : W[i + 1 - 1]? = some a := by simpa using ha
      have hc2 : W[i + 1 + 1]? = some c := hc
      simp only [isCuspAt, ha2, hb, hc2, hEq, decide_eq_true_eq] at hcusp
      exact lt_irrefl _ hcusp
  · intro hno
    have hnil : (List.range (W.length - 1)).filter
        (fun i => decide (0 < i) && isCuspAt env W i) = [] := by
      rw [List.filter_eq_nil_iff]
      intro i hi
      have hi := List.mem_range.mp hi
      by_cases h0 : 0 < i
      · simp [hno i h0 (by omega)]
      · simp [h0]
    rw [setPath_eq_slices, segmentRanges, if_neg (by omega), closing_indices_split env W h, hnil]
    have hw : W.length - 1 + 1 = W.length := by omega
    simp [cutAt, slice, hw]

theorem lookup_cases (W1 W2 : List Waypoint) (hlen : W1.length = W2.length)
    (hpos : ∀ (i : ℕ) (a b : Waypoint), W1[i]? = some a → W2[i]? = some b →
      a.x = b.x ∧ a.y = b.y) (j : ℕ) :
    (W1[j]? = none ∧ W2[j]? = none) ∨
      ∃ a b, W1[j]? = some a ∧ W2[j]? = some b ∧ a.x = b.x ∧ a.y = b.y := by
  by_cases hj : j < W1.length
  · have hj2 : j < W2.length := by omega
    exact Or.inr ⟨W1[j], W2[j], List.getElem?_eq_getElem hj, List.getElem?_eq_getElem hj2,
      hpos j W1[j] W2[j] (List.getElem?_eq_getElem hj) (List.getElem?_eq_getElem hj2)⟩
  · exact Or.inl ⟨List.getElem?_eq_none (by omega), List.getElem?_eq_none (by omega)⟩

theorem isCuspAt_congr (env : MathEnv) (W1 W2 : List Waypoint) (hlen : W1.length = W2.length)
    (hpos : ∀ (i : ℕ) (a b : Waypoint), W1[i]? = some a → W2[i]? = some b →
      a.x = b.x ∧ a.y = b.y) (i : ℕ) :
    isCuspAt env W1 i = isCuspAt env W2 i := by
  unfold isCuspAt
  rcases lookup_cases W1 W2 hlen hpos (i - 1) with ⟨h1, h2⟩ | ⟨a, a2, h1, h2, hax, hay⟩ <;>
  rcases lookup_cases W1 W2 hlen hpos i with ⟨h3, h4⟩ | ⟨b, b2, h3, h4, hbx, hby⟩ <;>
  rcases lookup_cases W1 W2 hlen hpos (i + 1) with ⟨h5, h6⟩ | ⟨c, c2, h5, h6, hcx, hcy⟩ <;>
  simp only [h1, h2, h3, h4, h5, h6]
  rw [hax, hay, hbx, hby, hcx, hcy]

/-- C6: the segmentation of `setPath` depends only on the 2D positions: for two
waypoint lists of equal length whose poses agree in `x` and `y` at every index,
the sub-paths of both results are the slices of the respective list over one and
the same list of index ranges; in particular both results have the same number of
sub-paths. -/
theorem setPath_depends_on_positions (env : MathEnv) (W1 W2 : List Waypoint)
    (hlen : W1.length = W2.length)
    (hpos : ∀ (i : ℕ) (a b : Waypoint), W1[i]? = some a → W2[i]? = some b →
      a.x = b.x ∧ a.y = b.y) :
    segmentRanges env W1 = segmentRanges env W2 ∧
    setPath env W1 = (segmentRanges env W1).map (slice W1) ∧
    setPath env W2 = (segmentRanges env W1).map (slice W2) ∧
    (setPath env W1).length = (setPath env W2).length := by
  have hr : segmentRanges env W1 = segmentRanges env W2 := by
    have hc : closesAt env W1 = closesAt env W2 := by
      funext i
      simp only [closesAt, hlen, isCuspAt_congr env W1 W2 hlen hpos i]
    simp only [segmentRanges, hlen, hc]
  refine ⟨hr, setPath_eq_slices env W1, ?_, ?_⟩
  · rw [hr]; exact setPath_eq_slices env W2
  · rw [setPath_eq_slices env W1, setPath_eq_slices env W2, hr]
    simp

/-! ## Regulator -/

theorem clamp_eq_of_le (x lo hi : ℚ) (h : lo ≤ hi) :
    PidCtrl.clamp x lo hi = if x < lo then lo else if hi < x then hi else x := by
  unfold PidCtrl.clamp
  split_ifs with h1 h2
  · rw [min_eq_left (by linarith), max_eq_right (le_of_lt h1)]
  · rw [min_eq_right (le_of_lt h2), max_eq_left h]
  · rw [min_eq_left (not_lt.mp h2), max_eq_left (not_lt.mp h1)]

theorem clamp_abs_le (x m : ℚ) (h : 0 ≤ m) : |PidCtrl.clamp x (-m) m| ≤ m := by
  unfold PidCtrl.clamp
  rw [abs_le]
  constructor
  · exact le_max_right _ _
  · exact max_le (min_le_right _ _) (by linarith)

/-- C7: when the time elapsed since the last restart of the timer, in seconds, is at
least `Ta`, `PidCtrl::execute` returns true, replaces the integrator by its sum
with elapsed time times error saturated to the interval from `-i_max` to `i_max`,
restarts the timer, and outputs `Kp * e + Ki * i_f` with the new integrator; the
output is not saturated. -/
theorem pid_execute_accept (p : PidCtrl) (now ef deltaf : ℚ)
    (h : p.Ta_ ≤ (now - p.timer_) / 1000) :
    p.execute now ef deltaf
      = (true,
         { p with
           i_f_ := PidCtrl.clamp (p.i_f_ + (now - p.timer_) / 1000 * ef) (-p.i_max_) p.i_max_,
           timer_ := now },
         p.Kp_ * ef + p.Ki_ *
           PidCtrl.clamp (p.i_f_ + (now - p.timer_) / 1000 * ef) (-p.i_max_) p.i_max_) := by
  have hc : now - p.timer_ ≥ p.Ta_ * 1000 := by
    have := (le_div_iff₀ (by norm_num : (0 : ℚ) < 1000)).mp h
    exact this
  have he : p.i_f_ + (now - p.timer_) * ef / 1000 = p.i_f_ + (now - p.timer_) / 1000 * ef := by
    ring
  simp only [PidCtrl.execute, if_pos hc, PidCtrl.clamp, he]

theorem pid_execute_reject_eq (p : PidCtrl) (now ef deltaf : ℚ)
    (h : (now - p.timer_) / 1000 < p.Ta_) :
    p.execute now ef deltaf = (false, p, deltaf) := by
  have hc : ¬ now - p.timer_ ≥ p.Ta_ * 1000 := by
    have := (div_lt_iff₀ (by norm_num : (0 : ℚ) < 1000)).mp h
    exact not_le.mpr this
  simp only [PidCtrl.execute, if_neg hc]

theorem pid_execute_true (p : PidCtrl) (now ef deltaf : ℚ)
    (h : (p.execute now ef deltaf).1 = true) :
    (p.execute now ef deltaf).2.1.timer_ = now ∧
    (p.execute now ef deltaf).2.1.Ta_ = p.Ta_ := by
  by_cases hc : now - p.timer_ ≥ p.Ta_ * 1000
  · simp [PidCtrl.execute, if_pos hc]
  · simp [PidCtrl.execute, if_neg hc] at h

/-- C8: when the time elapsed since the last restart of the timer, in seconds, is
less than `Ta`, `PidCtrl::execute` returns false and leaves the regulator (its
integrator and timer included) and the output argument unchanged; in particular a
second call made less than `Ta` after an accepted call returns false and changes
nothing. -/
theorem pid_execute_reject (p : PidCtrl) (now ef deltaf : ℚ) :
    ((now - p.timer_) / 1000 < p.Ta_ → p.execute now ef deltaf = (false, p, deltaf)) ∧
    (∀ now2 ef2 deltaf2 : ℚ, (p.execute now ef deltaf).1 = true →
      (now2 - now) / 1000 < p.Ta_ →
      (p.execute now ef deltaf).2.1.execute now2 ef2 deltaf2
        = (false, (p.execute now ef deltaf).2.1, deltaf2)) := by
  refine ⟨pid_execute_reject_eq p now ef deltaf, ?_⟩
  intro now2 ef2 deltaf2 hacc hlt
  obtain ⟨ht, hTa⟩ := pid_execute_true p now ef deltaf hacc
  exact pid_execute_reject_eq _ now2 ef2 deltaf2 (by rw [ht, hTa]; exact hlt)

theorem pid_execute_i_max (p : PidCtrl) (now ef deltaf : ℚ) :
    (p.execute now ef deltaf).2.1.i_max_ = p.i_max_ := by
  by_cases hc : now - p.timer_ ≥ p.Ta_ * 1000
  · simp [PidCtrl.execute, if_pos hc]
  · simp [PidCtrl.execute, if_neg hc]

theorem pid_execute_bound (p : PidCtrl) (now ef deltaf : ℚ) (h0 : 0 ≤ p.i_max_)
    (h : |p.i_f_| ≤ p.i_max_) : |(p.execute now ef deltaf).2.1.i_f_| ≤ p.i_max_ := by
  by_cases hc : now - p.timer_ ≥ p.Ta_ * 1000
  · simp only [PidCtrl.execute, if_pos hc]
    exact clamp_abs_le _ _ h0
  · simp only [PidCtrl.execute, if_neg hc]
    exact h

theorem pid_reachable_bound (p : PidCtrl) (hr : PidCtrl.Reachable p) :
    0 ≤ p.i_max_ → |p.i_f_| ≤ p.i_max_ := by
  induction hr with
  | configure5 p now Kp delta_max e_max v ta =>
    intro _
    simp [PidCtrl.configure5, PidCtrl.reset]
  | configure p now Kp Ki i_max delta_max e_max v ta =>
    intro h
    simpa [PidCtrl.configure, PidCtrl.configure5, PidCtrl.reset] using h
  | reset now _ _ =>
    intro h
    simpa [PidCtrl.reset] using h
  | execute now ef deltaf _ ih =>
    intro h
    rw [pid_execute_i_max] at h ⊢
    exact pid_execute_bound _ now ef deltaf h (ih h)

/-- C9 (amended): in every regulator state reachable from `configure` by calls of
`reset` and `execute`, with a configured integrator bound `i_max` that is not
negative, the integrator satisfies `|i_f| ≤ i_max` after every `execute`. -/
theorem pid_integrator_bounded (p : PidCtrl) (hr : PidCtrl.Reachable p) (h0 : 0 ≤ p.i_max_)
    (now ef deltaf : ℚ) :
    |(p.execute now ef deltaf).2.1.i_f_| ≤ (p.execute now ef deltaf).2.1.i_max_ := by
  rw [pid_execute_i_max]
  exact pid_execute_bound p now ef deltaf h0 (pid_reachable_bound p hr h0)

/-! ## Command -/

/-- C10: when the regulator accepts the tick and returns `delta`, `setCommand`
writes `steer_front = dir_sign * delta`, `steer_back = 0` and
`v = dir_sign * speed'`, where `speed'` is half of `speed` if `|delta|` is strictly
greater than `steer_slow_threshold` and `speed` otherwise; so when `|delta|`
exceeds the threshold, `|v|` is at most half of the magnitude `|dir_sign * speed|`
that would be commanded otherwise. -/
theorem setCommand_accept (pid_ : PidCtrl) (now : ℚ) (opt : Options) (dir_sign : ℚ)
    (cmd : Command) (error speed : ℚ) (h : (pid_.execute now error 0).1 = true) :
    (setCommand pid_ now opt dir_sign cmd error speed).current_command_
      = { steer_front := dir_sign * (pid_.execute now error 0).2.2,
          steer_back := 0,
          v := dir_sign * (if |(pid_.execute now error 0).2.2| > opt.steer_slow_threshold_
                 then speed / 2 else speed) } ∧
    (|(pid_.execute now error 0).2.2| > opt.steer_slow_threshold_ →
      |(setCommand pid_ now opt dir_sign cmd error speed).current_command_.v|
        ≤ |dir_sign * speed| / 2) := by
  have hcmd : (setCommand pid_ now opt dir_sign cmd error speed).current_command_
      = { steer_front := dir_sign * (pid_.execute now error 0).2.2,
          steer_back := 0,
          v := dir_sign * (if |(pid_.execute now error 0).2.2| > opt.steer_slow_threshold_
                 then speed / 2 else speed) } := by
    simp only [setCommand]
    generalize pid_.execute now error 0 = r at h ⊢
    obtain ⟨ok, q, d⟩ := r
    simp only at h
    subst h
    simp only [abs_zero, mul_zero]
    rw [max_eq_left (abs_nonneg d)]
    congr 2
    split_ifs <;> ring
  refine ⟨hcmd, ?_⟩
  intro hgt
  rw [hcmd]
  simp only [if_pos hgt]
  rw [show dir_sign * (speed / 2) = dir_sign * speed / 2 by ring, abs_div]
  simp

/-! ## Examples -/

/-- The out-and-back path is cut at its turning point, which both sub-paths
share. -/
theorem setPath_outAndBack :
    setPath exampleEnv outAndBack
      = [[⟨0, 0, 0⟩, ⟨1, 0, 0⟩, ⟨2, 0, 0⟩],
         [⟨2, 0, 0⟩, ⟨1, 0, 884279719003555 / 281474976710656⟩,
          ⟨0, 0, 884279719003555 / 281474976710656⟩]] := by
  norm_num [setPath, setPathLoop, outAndBack, turnAngle, exampleEnv, abs_div]

theorem sixtyDegreeTurn_angle :
    |turnAngle exampleEnv ⟨0, 0, 0⟩ ⟨1, 3900231685776981 / 2251799813685248, 0⟩
      ⟨2, 3900231685776981 / 2251799813685248, 0⟩| = exampleEnv.M_PI / 3 := by
  norm_num [turnAngle, exampleEnv]

theorem setPath_sixtyDegreeTurn :
    setPath exampleEnv sixtyDegreeTurn = [sixtyDegreeTurn] :=
  setPath_exact_turn exampleEnv _ _ _ sixtyDegreeTurn_angle

theorem agree_of_map_position (W1 W2 : List Waypoint)
    (h : W1.map Waypoint.position = W2.map Waypoint.position) :
    ∀ (i : ℕ) (a b : Waypoint), W1[i]? = some a → W2[i]? = some b → a.x = b.x ∧ a.y = b.y := by
  intro i a b ha hb
  have h1 : (W1.map Waypoint.position)[i]? = some a.position := by simp [ha]
  have h2 : (W2.map Waypoint.position)[i]? = some b.position := by simp [hb]
  rw [h, h2] at h1
  have h3 : b.position = a.position := Option.some.inj h1
  simp only [Waypoint.position, Prod.mk.injEq] at h3
  exact ⟨h3.1.symm, h3.2.symm⟩

theorem examplePid_accepts : examplePid.Ta_ ≤ (30 - examplePid.timer_) / 1000 := by
  norm_num [examplePid, PidCtrl.configure, PidCtrl.configure5, PidCtrl.reset]

/-- The first accepted tick of the example regulator with error `0.5` after 30
milliseconds. -/
theorem examplePid_execute :
    examplePid.execute 30 (1 / 2) 0
      = (true, { examplePid with i_f_ := 3 / 200, timer_ := 30 }, 750015 / 1000000) := by
  norm_num [examplePid, PidCtrl.execute, PidCtrl.configure, PidCtrl.configure5, PidCtrl.reset]

theorem setPath_reconcat_witness :
    2 ≤ outAndBack.length ∧ reconcat (setPath exampleEnv outAndBack) = outAndBack :=
  ⟨by decide, setPath_reconcat exampleEnv outAndBack (by decide)⟩

theorem setPath_closes_at_cusps_witness :
    2 ≤ outAndBack.length ∧
    setPath exampleEnv outAndBack
      = (segmentRanges exampleEnv outAndBack).map (slice outAndBack) ∧
    (setPath exampleEnv outAndBack).length
      = 1 + ((List.range (outAndBack.length - 1)).filter
          (fun i => decide (0 < i) && isCuspAt exampleEnv outAndBack i)).length :=
  ⟨by decide, (setPath_closes_at_cusps exampleEnv outAndBack (by decide)).1,
    (setPath_closes_at_cusps exampleEnv outAndBack (by decide)).2.2.1⟩

theorem setPath_subpath_length_witness :
    (∀ p ∈ setPath exampleEnv outAndBack, 2 ≤ p.length) ∧
    setPath exampleEnv [⟨0, 0, 0⟩] = [] :=
  ⟨(setPath_subpath_length exampleEnv outAndBack).1 (by decide),
    (setPath_subpath_length exampleEnv [⟨0, 0, 0⟩]).2 (by decide)⟩

theorem setPath_shared_cusp_witness :
    2 ≤ outAndBack.length ∧
    (∀ (k : ℕ) (p q : Path), (setPath exampleEnv outAndBack)[k]? = some p →
        (setPath exampleEnv outAndBack)[k + 1]? = some q →
        ∃ c, p.getLast? = some c ∧ q.head? = some c) ∧
    (∃ p c, (setPath exampleEnv outAndBack).getLast? = some p ∧ p.getLast? = some c ∧
        outAndBack.getLast? = some c) :=
  ⟨by decide, setPath_shared_cusp exampleEnv outAndBack (by decide)⟩

theorem setPath_smooth_witness :
    2 ≤ sixtyDegreeTurn.length ∧
    ∀ p ∈ setPath exampleEnv sixtyDegreeTurn, ∀ (j : ℕ) (a b c : Waypoint),
      p[j]? = some a → p[j + 1]? = some b → p[j + 2]? = some c →
      |turnAngle exampleEnv a b c| ≤ exampleEnv.M_PI / 3 :=
  ⟨by decide, setPath_smooth exampleEnv sixtyDegreeTurn (by decide)⟩

/-- C5 (as stated) fails: the path with a turn of sixty degrees is one sub-path, and
at its interior waypoint the absolute clamped turn angle equals `π/3`, which is not
strictly less than `π/3`. -/
theorem setPath_strict_turn_fails :
    2 ≤ sixtyDegreeTurn.length ∧
    ∃ p ∈ setPath exampleEnv sixtyDegreeTurn, ∃ (j : ℕ) (a b c : Waypoint),
      p[j]? = some a ∧ p[j + 1]? = some b ∧ p[j + 2]? = some c ∧
      ¬ |turnAngle exampleEnv a b c| < exampleEnv.M_PI / 3 := by
  refine ⟨by decide, sixtyDegreeTurn, ?_, 0, ⟨0, 0, 0⟩,
    ⟨1, 3900231685776981 / 2251799813685248, 0⟩, ⟨2, 3900231685776981 / 2251799813685248, 0⟩,
    rfl, rfl, rfl, ?_⟩
  · rw [setPath_sixtyDegreeTurn]
    exact List.mem_singleton.mpr rfl
  · rw [sixtyDegreeTurn_angle]
    exact lt_irrefl _

theorem setPath_depends_on_positions_witness :
    outAndBack.length = outAndBackTurned.length ∧
    outAndBack.map Waypoint.position = outAndBackTurned.map Waypoint.position ∧
    segmentRanges exampleEnv outAndBack = segmentRanges exampleEnv outAndBackTurned ∧
    setPath exampleEnv outAndBackTurned
      = (segmentRanges exampleEnv outAndBack).map (slice outAndBackTurned) ∧
    (setPath exampleEnv outAndBack).length = (setPath exampleEnv outAndBackTurned).length :=
  ⟨rfl, rfl,
    (setPath_depends_on_positions exampleEnv outAndBack outAndBackTurned rfl
      (agree_of_map_position _ _ rfl)).1,
    (setPath_depends_on_positions exampleEnv outAndBack outAndBackTurned rfl
      (agree_of_map_position _ _ rfl)).2.2.1,
    (setPath_depends_on_positions exampleEnv outAndBack outAndBackTurned rfl
      (agree_of_map_position _ _ rfl)).2.2.2⟩

theorem pid_execute_accept_witness :
    examplePid.Ta_ ≤ (30 - examplePid.timer_) / 1000 ∧
    (examplePid.execute 30 (1 / 2) 0).1 = true :=
  ⟨examplePid_accepts,
    congrArg Prod.fst (pid_execute_accept examplePid 30 (1 / 2) 0 examplePid_accepts)⟩

theorem pid_execute_reject_witness :
    examplePid.execute 10 (1 / 2) 7 = (false, examplePid, 7) ∧
    (examplePid.execute 30 (1 / 2) 0).2.1.execute 40 (1 / 2) 7
      = (false, (examplePid.execute 30 (1 / 2) 0).2.1, 7) :=
  ⟨(pid_execute_reject examplePid 10 (1 / 2) 7).1
      (by norm_num [examplePid, PidCtrl.configure, PidCtrl.configure5, PidCtrl.reset]),
    (pid_execute_reject examplePid 30 (1 / 2) 0).2 40 (1 / 2) 7
      (by rw [examplePid_execute])
      (by norm_num [examplePid, PidCtrl.configure, PidCtrl.configure5, PidCtrl.reset])⟩

theorem pid_integrator_bounded_witness :
    PidCtrl.Reachable examplePid ∧ 0 ≤ examplePid.i_max_ ∧
    |(examplePid.execute 30 (1 / 2) 0).2.1.i_f_| ≤ (examplePid.execute 30 (1 / 2) 0).2.1.i_max_ :=
  ⟨PidCtrl.Reachable.configure _ _ _ _ _ _ _ _ _,
    by norm_num [examplePid, PidCtrl.configure, PidCtrl.configure5, PidCtrl.reset],
    pid_integrator_bounded examplePid (PidCtrl.Reachable.configure _ _ _ _ _ _ _ _ _)
      (by norm_num [examplePid, PidCtrl.configure, PidCtrl.configure5, PidCtrl.reset])
      30 (1 / 2) 0⟩

/-- C9 (as stated) fails: a regulator configured with `i_max = -1` is reachable,
and after its first accepted tick the integrator is 1, which is not bounded by
`i_max` in absolute value. -/
theorem pid_negative_bound_fails :
    PidCtrl.Reachable negativeBoundPid ∧
    (negativeBoundPid.execute 30 (1 / 2) 0).1 = true ∧
    (negativeBoundPid.execute 30 (1 / 2) 0).2.1.i_f_ = 1 ∧
    ¬ |(negativeBoundPid.execute 30 (1 / 2) 0).2.1.i_f_|
        ≤ (negativeBoundPid.execute 30 (1 / 2) 0).2.1.i_max_ := by
  refine ⟨PidCtrl.Reachable.configure _ _ _ _ _ _ _ _ _, ?_, ?_, ?_⟩ <;>
  norm_num [negativeBoundPid, PidCtrl.execute, PidCtrl.configure, PidCtrl.configure5,
    PidCtrl.reset]

theorem setCommand_accept_witness :
    (examplePid.execute 30 (1 / 2) 0).1 = true ∧
    (setCommand examplePid 30 exampleOptions 1 ⟨0, 0, 0⟩ (1 / 2) 1).current_command_
      = { steer_front := 1 * (examplePid.execute 30 (1 / 2) 0).2.2,
          steer_back := 0,
          v := 1 * (if |(examplePid.execute 30 (1 / 2) 0).2.2|
                      > exampleOptions.steer_slow_threshold_
                 then 1 / 2 else 1) } :=
  ⟨by rw [examplePid_execute],
    (setCommand_accept examplePid 30 exampleOptions 1 ⟨0, 0, 0⟩ (1 / 2) 1
      (by rw [examplePid_execute])).1⟩

/-- The example tick steers by more than the threshold, so the commanded speed is
half of the requested speed. -/
theorem setCommand_example :
    (setCommand examplePid 30 exampleOptions 1 ⟨0, 0, 0⟩ (1 / 2) 1).current_command_
      = { steer_front := 750015 / 1000000, steer_back := 0, v := 1 / 2 } := by
  simp only [setCommand, examplePid_execute]
  norm_num [exampleOptions, abs_div]

/-! ## Driver -/

theorem pid_execute_fst (p : PidCtrl) (now ef deltaf : ℚ) :
    (p.execute now ef deltaf).1 = decide (now - p.timer_ ≥ p.Ta_ * 1000) := by
  by_cases hc : now - p.timer_ ≥ p.Ta_ * 1000
  · simp [PidCtrl.execute, if_pos hc, hc]
  · simp [PidCtrl.execute, if_neg hc, hc]

theorem pid_execute_of_false (p : PidCtrl) (now ef deltaf : ℚ)
    (h : (p.execute now ef deltaf).1 = false) : p.execute now ef deltaf = (false, p, deltaf) := by
  by_cases hc : now - p.timer_ ≥ p.Ta_ * 1000
  · simp [PidCtrl.execute, if_pos hc] at h
  · simp [PidCtrl.execute, if_neg hc]

theorem setCommand_of_reject (pid_ : PidCtrl) (now : ℚ) (opt : Options) (dir_sign : ℚ)
    (cmd : Command) (error speed : ℚ) (h : (pid_.execute now error 0).1 = false) :
    setCommand pid_ now opt dir_sign cmd error speed
      = { status := MotionStatus.MOTION_STATUS_MOVING, pid_ := pid_, current_command_ := cmd } := by
  simp only [setCommand, pid_execute_of_false pid_ now error 0 h]

theorem setCommand_v_of_accept (pid_ : PidCtrl) (now : ℚ) (opt : Options) (dir_sign : ℚ)
    (cmd : Command) (error speed : ℚ) (h : (pid_.execute now error 0).1 = true) :
    (setCommand pid_ now opt dir_sign cmd error speed).current_command_.v = dir_sign * speed ∨
    (setCommand pid_ now opt dir_sign cmd error speed).current_command_.v
      = dir_sign * (speed * (1 / 2)) := by
  simp only [setCommand]
  generalize pid_.execute now error 0 = r at h ⊢
  obtain ⟨ok, q, d⟩ := r
  simp only at h
  subst h
  simp only
  split_ifs
  · exact Or.inr rfl
  · exact Or.inl rfl

theorem sgn_cases (x : ℚ) : sgn x = 1 ∨ sgn x = -1 := by
  unfold sgn
  split_ifs
  · exact Or.inl rfl
  · exact Or.inr rfl

theorem sgn_mul_pos (dir_sign speed : ℚ) (hd : dir_sign = 1 ∨ dir_sign = -1) (hs : 0 < speed) :
    sgn (dir_sign * speed) = dir_sign := by
  rcases hd with hd | hd
  · subst hd
    simp [sgn, le_of_lt hs]
  · subst hd
    simp [sgn, hs]

theorem advance_le (env : DriverEnv) (parent_ : BehaviouralPathDriver) (l : List Waypoint) :
    ∀ (wp_idx w : ℤ) (b : Bool),
      BehaviourOnLine.advance env parent_ l wp_idx = some (w, b) → wp_idx ≤ w := by
  induction l with
  | nil => intro _ _ _ h; simp [BehaviourOnLine.advance] at h
  | cons wp rest ih =>
    intro wp_idx w b h
    cases rest with
    | nil =>
      simp only [BehaviourOnLine.advance] at h
      split_ifs at h <;> simp at h <;> omega
    | cons next rest =>
      simp only [BehaviourOnLine.advance] at h
      split_ifs at h
      · have := ih (wp_idx + 1) w b h
        omega
      · simp at h
        omega

/-- The options after `BehaviourOnLine::getNextWaypoint`, whether it returns or
throws, differ from the options before at most in `wp_idx`, which does not
decrease. -/
theorem onLine_getNextWaypoint_options (env : DriverEnv) (d : BehaviouralPathDriver)
    (inp : TickInput) :
    (∀ opt wp loc, BehaviourOnLine.getNextWaypoint env d inp = Step.value (opt, wp, loc) →
      ∃ w, opt = { d.options_ with wp_idx := w } ∧ d.options_.wp_idx ≤ w) ∧
    (∀ status next opt, BehaviourOnLine.getNextWaypoint env d inp = Step.throws status next opt →
      ∃ w, opt = { d.options_ with wp_idx := w } ∧ d.options_.wp_idx ≤ w) := by
  constructor
  · intro opt wp loc h
    simp only [BehaviourOnLine.getNextWaypoint] at h
    split at h
    · cases h
    · split at h
      · cases h
      · split at h
        · cases h
        · cases h
        · rename_i w hadv
          split at h
          · cases h
          · split at h
            · cases h
            · cases h
              exact ⟨w, rfl, advance_le env d _ _ _ _ hadv⟩
  · intro status next opt h
    simp only [BehaviourOnLine.getNextWaypoint] at h
    split at h
    · cases h
    · split at h
      · cases h
      · split at h
        · cases h
        · rename_i w hadv
          cases h
          exact ⟨w, rfl, advance_le env d _ _ _ _ hadv⟩
        · rename_i w hadv
          split at h
          · cases h
          · split at h
            · cases h
              exact ⟨w, rfl, advance_le env d _ _ _ _ hadv⟩
            · cases h

theorem getSlamPose_cases (inp : TickInput) (opt : Options) :
    (∃ p, inp.behaviourPose = some p ∧ BehaviourDriveBase.getSlamPose inp opt = Step.value p) ∨
    (inp.behaviourPose = none ∧
      BehaviourDriveBase.getSlamPose inp opt
        = Step.throws MotionStatus.MOTION_STATUS_SLAM_FAIL
            (Thrown.Behaviour BehaviourKind.BehaviourEmergencyBreak) opt) := by
  unfold BehaviourDriveBase.getSlamPose
  cases inp.behaviourPose with
  | none => exact Or.inr ⟨rfl, rfl⟩
  | some p => exact Or.inl ⟨p, rfl, rfl⟩

theorem calculateLineError_throws (env : DriverEnv) (d : BehaviouralPathDriver)
    (inp : TickInput) (loc : Pose2D) (dir_sign : ℚ) (status : MotionStatus) (next : Thrown)
    (opt : Options)
    (h : BehaviourDriveBase.calculateLineError env d inp loc dir_sign
      = Step.throws status next opt) :
    opt = d.options_ := by
  simp only [BehaviourDriveBase.calculateLineError] at h
  split at h
  · cases h
  · split at h
    · cases h
    · split at h
      · cases h
        rfl
      · cases h

/-- What `BehaviourOnLine::execute` leaves behind: the options differ from the
options before at most in `wp_idx`, which does not decrease; and either the
behaviour throws without a call of `setCommand`, leaving regulator and command
untouched, or it returns after one call of `setCommand` with status `MOVING`. -/
theorem onLine_execute_cases (env : DriverEnv) (d : BehaviouralPathDriver) (inp : TickInput)
    (res : BehaviourResult) (h : BehaviourOnLine.execute env d inp = Except.ok res) :
    (∃ w, res.options_ = { d.options_ with wp_idx := w } ∧ d.options_.wp_idx ≤ w) ∧
    ((res.thrown ≠ none ∧ res.pid_ = d.pid_ ∧ res.current_command_ = d.current_command_ ∧
        ∀ e s, Event.setCommand e s ∉ res.events) ∨
     (∃ dir_sign e speed, (dir_sign = 1 ∨ dir_sign = -1) ∧
        (speed = d.options_.max_speed_ ∨ speed = d.options_.max_speed_ * (1 / 2)) ∧
        res.thrown = none ∧ res.status = MotionStatus.MOTION_STATUS_MOVING ∧
        res.dir_sign = some dir_sign ∧
        res.events = [Event.getWorldPose, Event.setCommand e speed] ∧
        res.pid_ = (setCommand d.pid_ inp.now res.options_ dir_sign d.current_command_ e
          speed).pid_ ∧
        res.current_command_ = (setCommand d.pid_ inp.now res.options_ dir_sign
          d.current_command_ e speed).current_command_)) := by
  have hnw := onLine_getNextWaypoint_options env d inp
  simp only [BehaviourOnLine.execute] at h
  split at h
  · cases h
  · rename_i status next opt hg
    cases h
    exact ⟨hnw.2 status next opt hg, Or.inl ⟨by simp [BehaviourResult.ofThrow], rfl, rfl,
      by simp [BehaviourResult.ofThrow]⟩⟩
  · rename_i opt wp loc hg
    obtain ⟨w, hw, hle⟩ := hnw.1 opt wp loc hg
    rcases getSlamPose_cases inp opt with ⟨p, _, hp⟩ | ⟨_, hp⟩
    · rw [hp] at h
      simp only at h
      split at h
      · cases h
      · rename_i status next opt2 hc
        have := calculateLineError_throws env _ inp loc _ status next opt2 hc
        simp only at this
        subst this
        cases h
        exact ⟨⟨w, hw, hle⟩, Or.inl ⟨by simp [BehaviourResult.ofThrow], rfl, rfl,
          by simp [BehaviourResult.ofThrow]⟩⟩
      · rename_i e_distance hc
        cases h
        refine ⟨⟨w, hw, hle⟩, Or.inr ⟨sgn loc.x, _, _, sgn_cases _, ?_, rfl, rfl, rfl, rfl,
          rfl, rfl⟩⟩
        subst hw
        simp only
        split_ifs
        · exact Or.inr rfl
        · exact Or.inl rfl
    · rw [hp] at h
      cases h
      exact ⟨⟨w, hw, hle⟩, Or.inl ⟨by simp [BehaviourResult.ofThrow], rfl, rfl,
        by simp [BehaviourResult.ofThrow]⟩⟩

theorem approach_getNextWaypoint_options (d : BehaviouralPathDriver) (inp : TickInput) :
    (∀ opt wp loc, BehaviourApproachTurningPoint.getNextWaypoint d inp
        = Step.value (opt, wp, loc) → ∃ w, opt = { d.options_ with wp_idx := w }) ∧
    (∀ status next opt, BehaviourApproachTurningPoint.getNextWaypoint d inp
        = Step.throws status next opt → ∃ w, opt = { d.options_ with wp_idx := w }) := by
  constructor
  · intro opt wp loc h
    simp only [BehaviourApproachTurningPoint.getNextWaypoint] at h
    split at h
    · cases h
    · split at h
      · cases h
      · split at h
        · cases h
        · split at h
          · cases h
          · cases h
            exact ⟨_, rfl⟩
  · intro status next opt h
    simp only [BehaviourApproachTurningPoint.getNextWaypoint] at h
    split at h
    · cases h
    · split at h
      · cases h
      · split at h
        · cases h
        · split at h
          · cases h
            exact ⟨_, rfl⟩
          · cases h

theorem checkIfDone_cases (env : DriverEnv) (d : BehaviouralPathDriver) (wp : Waypoint)
    (p : Pose2D) :
    (∀ opt, BehaviourApproachTurningPoint.checkIfDone env d wp p = Step.value opt →
      opt = d.options_) ∧
    (∀ status next opt, BehaviourApproachTurningPoint.checkIfDone env d wp p
        = Step.throws status next opt →
      opt = { d.options_ with path_idx := d.options_.path_idx + 1, wp_idx := 0 }) := by
  constructor
  · intro opt h
    simp only [BehaviourApproachTurningPoint.checkIfDone] at h
    split at h
    · cases h
    · split at h
      · cases h
      · split at h
        · split at h <;> cases h
        · cases h
          rfl
  · intro status next opt h
    simp only [BehaviourApproachTurningPoint.checkIfDone] at h
    split at h
    · cases h
    · split at h
      · cases h
      · split at h
        · split at h <;> cases h <;> rfl
        · cases h

/-- What `BehaviourApproachTurningPoint::execute` leaves behind: either only
`wp_idx` changes in the options, or `path_idx` is incremented and `wp_idx` is 0;
and either the behaviour throws without a call of `setCommand`, leaving regulator
and command untouched, or it returns after one call of `setCommand` with speed
`0.1` and status `MOVING`. -/
theorem approach_execute_cases (env : DriverEnv) (d : BehaviouralPathDriver) (inp : TickInput)
    (res : BehaviourResult)
    (h : BehaviourApproachTurningPoint.execute env d inp = Except.ok res) :
    ((∃ w, res.options_ = { d.options_ with wp_idx := w }) ∨
      res.options_ = { d.options_ with path_idx := d.options_.path_idx + 1, wp_idx := 0 }) ∧
    ((res.thrown ≠ none ∧ res.pid_ = d.pid_ ∧ res.current_command_ = d.current_command_ ∧
        ∀ e s, Event.setCommand e s ∉ res.events) ∨
     (∃ dir_sign e, (dir_sign = 1 ∨ dir_sign = -1) ∧
        res.thrown = none ∧ res.status = MotionStatus.MOTION_STATUS_MOVING ∧
        res.dir_sign = some dir_sign ∧
        res.events = [Event.getWorldPose, Event.setCommand e (1 / 10)] ∧
        res.pid_ = (setCommand d.pid_ inp.now res.options_ dir_sign d.current_command_ e
          (1 / 10)).pid_ ∧
        res.current_command_ = (setCommand d.pid_ inp.now res.options_ dir_sign
          d.current_command_ e (1 / 10)).current_command_)) := by
  have hnw := approach_getNextWaypoint_options d inp
  simp only [BehaviourApproachTurningPoint.execute] at h
  split at h
  · cases h
  · rename_i status next opt hg
    cases h
    exact ⟨Or.inl (hnw.2 status next opt hg), Or.inl ⟨by simp [BehaviourResult.ofThrow], rfl,
      rfl, by simp [BehaviourResult.ofThrow]⟩⟩
  · rename_i opt wp loc hg
    obtain ⟨w, hw⟩ := hnw.1 opt wp loc hg
    rcases getSlamPose_cases inp opt with ⟨p, _, hp⟩ | ⟨_, hp⟩
    · rw [hp] at h
      simp only at h
      split at h
      · cases h
      · rename_i status next opt2 hc
        have := (checkIfDone_cases env _ wp p).2 status next opt2 hc
        cases h
        refine ⟨Or.inr ?_, Or.inl ⟨by simp [BehaviourResult.ofThrow], rfl, rfl,
          by simp [BehaviourResult.ofThrow]⟩⟩
        simp only [BehaviourResult.ofThrow, this, hw]
      · rename_i opt2 hc
        have := (checkIfDone_cases env _ wp p).1 opt2 hc
        simp only at this
        subst this
        cases h
        exact ⟨Or.inl ⟨w, hw⟩, Or.inr ⟨sgn loc.x, _, sgn_cases _, rfl, rfl, rfl, rfl, rfl, rfl⟩⟩
    · rw [hp] at h
      cases h
      exact ⟨Or.inl ⟨w, hw⟩, Or.inl ⟨by simp [BehaviourResult.ofThrow], rfl, rfl,
        by simp [BehaviourResult.ofThrow]⟩⟩

theorem emergencyBreak_execute_eq (d : BehaviouralPathDriver) (res : BehaviourResult)
    (h : BehaviourEmergencyBreak.execute d = Except.ok res) :
    res.thrown = some Thrown.NullBehaviour ∧
    res.status = MotionStatus.MOTION_STATUS_INTERNAL_ERROR ∧ res.events = [] ∧
    res.options_ = d.options_ := by
  simp only [BehaviourEmergencyBreak.execute, BehaviourResult.ofThrow, Except.ok.injEq] at h
  subst h
  exact ⟨rfl, rfl, rfl, rfl⟩

/-- What the part of `execute` after the behaviour leaves behind. -/
theorem finish_ok (env : DriverEnv) (d : BehaviouralPathDriver) (b : BehaviourKind)
    (res : BehaviourResult) (r : TickResult)
    (h : BehaviouralPathDriver.finish env d b res = Except.ok r) :
    r.status = res.status ∧ r.dir_sign = res.dir_sign ∧ r.driver.options_ = res.options_ ∧
    r.driver.pid_ = res.pid_ ∧ r.driver.paths_ = d.paths_ ∧
    r.events = [Event.getWorldPose, Event.dispatch b] ++ res.events
      ++ [Event.publish r.driver.current_command_] ∧
    (res.thrown ≠ some Thrown.NullBehaviour →
      r.driver.current_command_ = res.current_command_) ∧
    (res.thrown = some Thrown.NullBehaviour →
      r.driver.current_command_.v = 0 ∧ res.status = MotionStatus.MOTION_STATUS_SUCCESS) ∧
    (res.status ≠ MotionStatus.MOTION_STATUS_MOVING → r.driver.active_behaviour_ = none) := by
  simp only [BehaviouralPathDriver.finish, BehaviouralPathDriver.publishCommand,
    BehaviouralPathDriver.clearActive] at h
  rcases hth : res.thrown with _ | t
  · rw [hth] at h
    simp only [Except.ok.injEq] at h
    subst h
    refine ⟨rfl, rfl, ?_, ?_, ?_, ?_, ?_, ?_, ?_⟩ <;> split_ifs <;> simp_all
  · cases t with
    | NullBehaviour =>
      rw [hth] at h
      by_cases hs : res.status = MotionStatus.MOTION_STATUS_SUCCESS
      · simp only [hs, ne_eq, not_true_eq_false, if_false, Except.ok.injEq] at h
        subst h
        refine ⟨hs.symm, rfl, ?_, ?_, ?_, ?_, ?_, ?_, ?_⟩ <;> split_ifs <;> simp_all
      · simp only [ne_eq, hs, not_false_eq_true, if_true] at h
        cases h
    | Behaviour nb =>
      rw [hth] at h
      simp only [Except.ok.injEq] at h
      subst h
      refine ⟨rfl, rfl, ?_, ?_, ?_, ?_, ?_, ?_, ?_⟩ <;> split_ifs <;> simp_all

/-- The four ways through `BehaviouralPathDriver::execute`: a pending error, an
empty set of sub-paths, a failed pose query, and the call of the active
behaviour. -/
theorem execute_cases (env : DriverEnv) (d : BehaviouralPathDriver) (inp : TickInput)
    (r : TickResult) (h : d.execute env inp = Except.ok r) :
    (∃ error, d.pending_error_ = some error ∧
      r = { status := error, driver := ({ d with pending_error_ := none }).stop, events := [],
            dir_sign := none }) ∨
    (d.pending_error_ = none ∧ d.paths_ = [] ∧
      r = { status := MotionStatus.MOTION_STATUS_SUCCESS, driver := d.clearActive, events := [],
            dir_sign := none }) ∨
    (d.pending_error_ = none ∧ d.paths_ ≠ [] ∧ inp.worldPose = none ∧
      r = { status := MotionStatus.MOTION_STATUS_SLAM_FAIL,
            driver := (if d.active_behaviour_ = none then d.start else d).stop,
            events := [Event.getWorldPose], dir_sign := none }) ∨
    (∃ p b res, d.pending_error_ = none ∧ d.paths_ ≠ [] ∧ inp.worldPose = some p ∧
      (if d.active_behaviour_ = none then d.start else d).active_behaviour_ = some b ∧
      BehaviouralPathDriver.dispatch env b
        { (if d.active_behaviour_ = none then d.start else d) with slam_pose_ := p } inp
          = Except.ok res ∧
      BehaviouralPathDriver.finish env
        { (if d.active_behaviour_ = none then d.start else d) with slam_pose_ := p } b res
          = Except.ok r) := by
  simp only [BehaviouralPathDriver.execute] at h
  split at h
  · rename_i error he
    simp only [Except.ok.injEq] at h
    exact Or.inl ⟨error, he, h.symm⟩
  · rename_i he
    split at h
    · rename_i hp
      simp only [Except.ok.injEq] at h
      exact Or.inr (Or.inl ⟨he, hp, h.symm⟩)
    · rename_i hp
      split at h
      · rename_i hw
        simp only [Except.ok.injEq] at h
        exact Or.inr (Or.inr (Or.inl ⟨he, hp, hw, h.symm⟩))
      · rename_i p hw
        split at h
        · cases h
        · rename_i b hb
          split at h
          · cases h
          · rename_i res hd
            exact Or.inr (Or.inr (Or.inr ⟨p, b, res, he, hp, hw, hb, hd, h⟩))

theorem entered_fields (d : BehaviouralPathDriver) :
    (if d.active_behaviour_ = none then d.start else d).pid_ = d.pid_ ∧
    (if d.active_behaviour_ = none then d.start else d).current_command_ = d.current_command_ ∧
    (if d.active_behaviour_ = none then d.start else d).paths_ = d.paths_ ∧
    (if d.active_behaviour_ = none then d.start else d).options_.max_speed_
      = d.options_.max_speed_ := by
  split_ifs <;>
  simp [BehaviouralPathDriver.start, BehaviouralPathDriver.clearActive, Options.reset]

theorem mem_setCommand_events (error speed e s : ℚ)
    (h : Event.setCommand error speed ∈ [Event.getWorldPose, Event.setCommand e s]) :
    error = e ∧ speed = s := by
  rcases List.mem_cons.mp h with h1 | h1
  · cases h1
  · rcases List.mem_cons.mp h1 with h2 | h2
    · injection h2 with h3 h4
      exact ⟨h3, h4⟩
    · cases h2

/-- A tick in which `setCommand` is called: the behaviour returns normally with
status `MOVING`, the published command is the one written by that call, and the
speed passed to it is `max_speed_`, half of it, or `0.1`. -/
theorem execute_setCommand (env : DriverEnv) (d : BehaviouralPathDriver) (inp : TickInput)
    (r : TickResult) (error speed : ℚ) (h : d.execute env inp = Except.ok r)
    (hc : Event.setCommand error speed ∈ r.events) :
    ∃ dir_sign opt, (dir_sign = 1 ∨ dir_sign = -1) ∧
      (speed = d.options_.max_speed_ ∨ speed = d.options_.max_speed_ * (1 / 2) ∨
        speed = 1 / 10) ∧
      r.status = MotionStatus.MOTION_STATUS_MOVING ∧ r.dir_sign = some dir_sign ∧
      r.published = some (setCommand d.pid_ inp.now opt dir_sign d.current_command_ error
        speed).current_command_ ∧
      r.driver.current_command_ = (setCommand d.pid_ inp.now opt dir_sign d.current_command_
        error speed).current_command_ := by
  rcases execute_cases env d inp r h with ⟨e, _, hr⟩ | ⟨_, _, hr⟩ | ⟨_, _, _, hr⟩ |
    ⟨p, b, res, _, _, _, _, hd, hf⟩
  · subst hr; simp at hc
  · subst hr; simp at hc
  · subst hr; simp at hc
  · obtain ⟨hst, hds, _, _, _, hev, hcmd, _, _⟩ := finish_ok env _ b res r hf
    obtain ⟨hpid, hcur, _, hmax⟩ := entered_fields d
    rw [hev] at hc
    have hc2 : Event.setCommand error speed ∈ res.events := by
      simpa using hc
    have key : ∃ dir_sign, (dir_sign = 1 ∨ dir_sign = -1) ∧
        (speed = d.options_.max_speed_ ∨ speed = d.options_.max_speed_ * (1 / 2) ∨
          speed = 1 / 10) ∧
        res.thrown = none ∧ res.status = MotionStatus.MOTION_STATUS_MOVING ∧
        res.dir_sign = some dir_sign ∧
        res.events = [Event.getWorldPose, Event.setCommand error speed] ∧
        res.current_command_ = (setCommand d.pid_ inp.now res.options_ dir_sign
          d.current_command_ error speed).current_command_ := by
      cases b with
      | BehaviourOnLine =>
        rcases (onLine_execute_cases env _ inp res hd).2 with ⟨_, _, _, hno⟩ |
          ⟨ds, e, s, hds1, hs, hth, hstat, hdir, hevs, _, hcm⟩
        · exact absurd hc2 (hno error speed)
        · rw [hevs] at hc2
          obtain ⟨rfl, rfl⟩ := mem_setCommand_events _ _ _ _ hc2
          simp only [hpid, hcur, hmax] at hcm hs
          exact ⟨ds, hds1, by tauto, hth, hstat, hdir, hevs, hcm⟩
      | BehaviourApproachTurningPoint =>
        rcases (approach_execute_cases env _ inp res hd).2 with ⟨_, _, _, hno⟩ |
          ⟨ds, e, hds1, hth, hstat, hdir, hevs, _, hcm⟩
        · exact absurd hc2 (hno error speed)
        · rw [hevs] at hc2
          obtain ⟨rfl, rfl⟩ := mem_setCommand_events _ _ _ _ hc2
          simp only [hpid, hcur] at hcm
          exact ⟨ds, hds1, Or.inr (Or.inr rfl), hth, hstat, hdir, hevs, hcm⟩
      | BehaviourEmergencyBreak =>
        obtain ⟨_, _, hevs, _⟩ := emergencyBreak_execute_eq _ res hd
        rw [hevs] at hc2
        simp at hc2
    obtain ⟨ds, hds1, hs, hth, hstat, hdir, hevs, hcm⟩ := key
    have hcur2 : r.driver.current_command_ = res.current_command_ := hcmd (by simp [hth])
    refine ⟨ds, res.options_, hds1, hs, by rw [hst, hstat], by rw [hds, hdir], ?_, ?_⟩
    · rw [← hcm, ← hcur2]
      simp [TickResult.published, hev, hevs, List.findSome?]
    · rw [hcur2, hcm]

/-- The speed passed to `setCommand` in a tick: `BehaviourOnLine` passes
`max_speed_` or half of it, and `BehaviourApproachTurningPoint` passes `0.1`. -/
theorem execute_setCommand_speed (env : DriverEnv) (d : BehaviouralPathDriver)
    (inp : TickInput) (r : TickResult) (error speed : ℚ)
    (h : d.execute env inp = Except.ok r) (hc : Event.setCommand error speed ∈ r.events) :
    (Event.dispatch BehaviourKind.BehaviourOnLine ∈ r.events ∧
      (speed = d.options_.max_speed_ ∨ speed = d.options_.max_speed_ * (1 / 2))) ∨
    (Event.dispatch BehaviourKind.BehaviourApproachTurningPoint ∈ r.events ∧
      speed = 1 / 10) := by
  rcases execute_cases env d inp r h with ⟨e, _, hr⟩ | ⟨_, _, hr⟩ | ⟨_, _, _, hr⟩ |
    ⟨p, b, res, _, _, _, _, hd, hf⟩
  · subst hr; simp at hc
  · subst hr; simp at hc
  · subst hr; simp at hc
  · obtain ⟨_, _, _, _, _, hev, _, _, _⟩ := finish_ok env _ b res r hf
    obtain ⟨_, _, _, hmax⟩ := entered_fields d
    rw [hev] at hc
    have hc2 : Event.setCommand error speed ∈ res.events := by
      simpa using hc
    cases b with
    | BehaviourOnLine =>
      rcases (onLine_execute_cases env _ inp res hd).2 with ⟨_, _, _, hno⟩ |
        ⟨ds, e, s, _, hs, _, _, _, hevs, _, _⟩
      · exact absurd hc2 (hno error speed)
      · rw [hevs] at hc2
        obtain ⟨rfl, rfl⟩ := mem_setCommand_events _ _ _ _ hc2
        simp only [hmax] at hs
        exact Or.inl ⟨by rw [hev]; simp, hs⟩
    | BehaviourApproachTurningPoint =>
      rcases (approach_execute_cases env _ inp res hd).2 with ⟨_, _, _, hno⟩ |
        ⟨ds, e, _, _, _, _, hevs, _, _⟩
      · exact absurd hc2 (hno error speed)
      · rw [hevs] at hc2
        obtain ⟨rfl, rfl⟩ := mem_setCommand_events _ _ _ _ hc2
        exact Or.inr ⟨by rw [hev]; simp, rfl⟩
    | BehaviourEmergencyBreak =>
      obtain ⟨_, _, hevs, _⟩ := emergencyBreak_execute_eq _ res hd
      rw [hevs] at hc2
      simp at hc2

/-- C11 (amended): in every tick of `execute` in which a driving behaviour calls
`setCommand` and the regulator accepts the tick, and in which `max_speed_` is
positive if the behaviour is `BehaviourOnLine`, the velocity `v` of the published
command has the sign of the `dir_sign` of that tick, which is `1` or `-1`.  For
`BehaviourApproachTurningPoint`, which passes the speed `0.1`, nothing is required
of `max_speed_`. -/
theorem published_sign (env : DriverEnv) (d : BehaviouralPathDriver) (inp : TickInput)
    (r : TickResult) (error speed : ℚ) (h : d.execute env inp = Except.ok r)
    (hc : Event.setCommand error speed ∈ r.events)
    (hacc : (d.pid_.execute inp.now error 0).1 = true)
    (hpos : Event.dispatch BehaviourKind.BehaviourOnLine ∈ r.events →
      0 < d.options_.max_speed_) :
    ∃ dir_sign cmd, r.dir_sign = some dir_sign ∧ (dir_sign = 1 ∨ dir_sign = -1) ∧
      r.published = some cmd ∧ sgn cmd.v = dir_sign := by
  obtain ⟨ds, opt, hds, _, _, hdir, hpub, _⟩ := execute_setCommand env d inp r error speed h hc
  have hspeed : 0 < speed := by
    rcases execute_setCommand_speed env d inp r error speed h hc with ⟨hb, hs | hs⟩ | ⟨_, hs⟩
    · rw [hs]; exact hpos hb
    · rw [hs]; linarith [hpos hb]
    · rw [hs]; norm_num
  refine ⟨ds, _, hdir, hds, hpub, ?_⟩
  rcases setCommand_v_of_accept d.pid_ inp.now opt ds d.current_command_ error speed hacc
    with hv | hv
  · rw [hv]; exact sgn_mul_pos ds speed hds hspeed
  · rw [hv]; exact sgn_mul_pos ds _ hds (by linarith)

theorem published_sign_witness :
    ((freshDriver.setGoal exampleEnv straightGoal).execute exampleDriverEnv (robotAt 0 30)
        = Except.ok firstTick ∧
      Event.setCommand 0 1 ∈ firstTick.events ∧
      0 < (freshDriver.setGoal exampleEnv straightGoal).options_.max_speed_ ∧
      ∃ dir_sign cmd, firstTick.dir_sign = some dir_sign ∧ (dir_sign = 1 ∨ dir_sign = -1) ∧
        firstTick.published = some cmd ∧ sgn cmd.v = dir_sign) ∧
    (negativeApproachDriver.execute exampleDriverEnv (robotAt (-1 / 10) 60)
        = Except.ok negativeApproachTick ∧
      Event.dispatch BehaviourKind.BehaviourApproachTurningPoint
        ∈ negativeApproachTick.events ∧
      Event.setCommand 0 (1 / 10) ∈ negativeApproachTick.events ∧
      negativeApproachDriver.options_.max_speed_ = -1 ∧
      negativeApproachTick.published = some ⟨1 / 10, 0, 0⟩ ∧
      ∃ dir_sign cmd, negativeApproachTick.dir_sign = some dir_sign ∧
        (dir_sign = 1 ∨ dir_sign = -1) ∧
        negativeApproachTick.published = some cmd ∧ sgn cmd.v = dir_sign) :=
  ⟨⟨by decide!, by decide!, by decide!,
      published_sign exampleDriverEnv (freshDriver.setGoal exampleEnv straightGoal)
        (robotAt 0 30) firstTick 0 1 (by decide!) (by decide!) (by decide!)
        (fun _ => by decide!)⟩,
    ⟨by decide!, by decide!, by decide!, by decide!, by decide!,
      published_sign exampleDriverEnv negativeApproachDriver (robotAt (-1 / 10) 60)
        negativeApproachTick 0 (1 / 10) (by decide!) (by decide!) (by decide!)
        (fun hb => absurd hb (by decide!))⟩⟩

/-- C11 (as stated) fails.  In a tick of `BehaviourOnLine` that the regulator does
not accept, 10 milliseconds after an accepted tick, the published command is the
one latched before, with `v = 1`, while `dir_sign` is `-1`; and with a goal of
speed 0 the accepted tick with `dir_sign = -1` publishes `v = 0`, whose sign is
`+1`. -/
theorem published_sign_fails :
    (runCalls exampleDriverEnv freshDriver
        [Call.setGoal straightGoal, Call.execute (robotAt 0 30)] = Except.ok drivingDriver ∧
      drivingDriver.execute exampleDriverEnv (robotAt (3 / 2) 40) = Except.ok gatedTick ∧
      Event.dispatch BehaviourKind.BehaviourOnLine ∈ gatedTick.events ∧
      gatedTick.dir_sign = some (-1) ∧
      gatedTick.published = some ⟨1, 0, 0⟩ ∧ sgn 1 ≠ -1) ∧
    ((freshDriver.setGoal exampleEnv zeroSpeedGoal).execute exampleDriverEnv (robotAt 3 30)
        = Except.ok zeroSpeedTick ∧
      Event.dispatch BehaviourKind.BehaviourOnLine ∈ zeroSpeedTick.events ∧
      Event.setCommand 0 0 ∈ zeroSpeedTick.events ∧
      ((freshDriver.setGoal exampleEnv zeroSpeedGoal).pid_.execute 30 0 0).1 = true ∧
      zeroSpeedTick.dir_sign = some (-1) ∧
      zeroSpeedTick.published = some ⟨0, 0, 0⟩ ∧ sgn 0 ≠ -1) := by
  decide!

/-- C12: when the regulator returns no update, `setCommand` leaves the three fields
of the latched command unchanged and the status is `MOVING`; so in a tick of
`execute` in which `setCommand` is called and the regulator returns no update, the
status is `MOVING` and the published command is the command latched before the
tick. -/
theorem setCommand_no_update :
    (∀ (pid_ : PidCtrl) (now : ℚ) (opt : Options) (dir_sign : ℚ) (cmd : Command)
        (error speed : ℚ), (pid_.execute now error 0).1 = false →
      (setCommand pid_ now opt dir_sign cmd error speed).current_command_ = cmd ∧
      (setCommand pid_ now opt dir_sign cmd error speed).status
        = MotionStatus.MOTION_STATUS_MOVING) ∧
    (∀ (env : DriverEnv) (d : BehaviouralPathDriver) (inp : TickInput) (r : TickResult)
        (error speed : ℚ), d.execute env inp = Except.ok r →
      Event.setCommand error speed ∈ r.events →
      (d.pid_.execute inp.now error 0).1 = false →
      r.status = MotionStatus.MOTION_STATUS_MOVING ∧
      r.published = some d.current_command_ ∧
      r.driver.current_command_ = d.current_command_) := by
  constructor
  · intro pid_ now opt dir_sign cmd error speed h
    rw [setCommand_of_reject pid_ now opt dir_sign cmd error speed h]
    exact ⟨rfl, rfl⟩
  · intro env d inp r error speed h hc hrej
    obtain ⟨ds, opt, _, _, hst, _, hpub, hcur⟩ := execute_setCommand env d inp r error speed h hc
    rw [setCommand_of_reject d.pid_ inp.now opt ds d.current_command_ error speed hrej]
      at hpub hcur
    exact ⟨hst, hpub, hcur⟩

theorem setCommand_no_update_witness :
    (examplePid.execute 10 (1 / 2) 0).1 = false ∧
    (setCommand examplePid 10 exampleOptions 1 ⟨1, 0, 0⟩ (1 / 2) 1).current_command_
      = ⟨1, 0, 0⟩ ∧
    drivingDriver.execute exampleDriverEnv (robotAt (3 / 2) 40) = Except.ok gatedTick ∧
    Event.setCommand 0 (1 / 2) ∈ gatedTick.events ∧
    (drivingDriver.pid_.execute 40 0 0).1 = false ∧
    gatedTick.published = some drivingDriver.current_command_ :=
  ⟨by decide!,
    (setCommand_no_update.1 examplePid 10 exampleOptions 1 ⟨1, 0, 0⟩ (1 / 2) 1 (by decide!)).1,
    by decide!, by decide!, by decide!,
    (setCommand_no_update.2 exampleDriverEnv drivingDriver (robotAt (3 / 2) 40) gatedTick 0
      (1 / 2) (by decide!) (by decide!) (by decide!)).2.1⟩


/-- C13 (evaluation at the failing input): a driver follows the path of five poses
for one tick, which leaves `BehaviourOnLine` active with the cursor `(0, 3)`, and
then gets a goal of two poses.  `setGoal` keeps the behaviour and the cursor, so in
the next tick `BehaviourOnLine` runs with `wp_idx = 3` on a sub-path of two
waypoints and the assertion `wp_idx < size` fails. -/
theorem stale_cursor_assertion :
    runCalls exampleDriverEnv freshDriver
        [Call.setGoal fivePoseGoal, Call.execute (robotAt 0 30), Call.setGoal twoPoseGoal]
      = Except.ok staleCursorDriver ∧
    staleCursorDriver.active_behaviour_ = some BehaviourKind.BehaviourOnLine ∧
    staleCursorDriver.paths_ = [twoPoseGoal.path] ∧
    staleCursorDriver.options_.path_idx = 0 ∧
    staleCursorDriver.options_.wp_idx = 3 ∧
    staleCursorDriver.execute exampleDriverEnv (robotAt 0 60) = Except.error Fault.assertion := by
  decide!

theorem cursor_step (env : DriverEnv) (d : BehaviouralPathDriver) (inp : TickInput)
    (r : TickResult) (h : d.execute env inp = Except.ok r) (b : BehaviourKind)
    (ha : d.active_behaviour_ = some b) :
    r.driver.options_ = d.options_ ∨
    ∃ res, BehaviouralPathDriver.dispatch env b
        { d with slam_pose_ := (inp.worldPose.getD d.slam_pose_) } inp = Except.ok res ∧
      r.driver.options_ = res.options_ := by
  have hent : (if d.active_behaviour_ = none then d.start else d) = d := by
    rw [if_neg (by simp [ha])]
  rcases execute_cases env d inp r h with ⟨e, _, hr⟩ | ⟨_, _, hr⟩ | ⟨_, _, _, hr⟩ |
    ⟨p, b2, res, _, _, hw, hb, hd, hf⟩
  · subst hr
    exact Or.inl rfl
  · subst hr
    exact Or.inl rfl
  · subst hr
    rw [hent]
    exact Or.inl rfl
  · rw [hent] at hb hd hf
    rw [ha] at hb
    cases hb
    refine Or.inr ⟨res, ?_, (finish_ok env _ b res r hf).2.2.1⟩
    rw [hw]
    exact hd

/-- What a tick of `execute` that is entered with an active driving behaviour does
to the cursor: `path_idx` does not decrease; in a tick of `BehaviourOnLine`
`path_idx` is unchanged and `wp_idx` does not decrease; and in every tick in which
`path_idx` changes it is incremented by one and `wp_idx` is reset to 0. -/
theorem cursor_monotone (env : DriverEnv) (d : BehaviouralPathDriver) (inp : TickInput)
    (r : TickResult) (h : d.execute env inp = Except.ok r)
    (ha : d.active_behaviour_ = some BehaviourKind.BehaviourOnLine ∨
      d.active_behaviour_ = some BehaviourKind.BehaviourApproachTurningPoint) :
    d.options_.path_idx ≤ r.driver.options_.path_idx ∧
    (d.active_behaviour_ = some BehaviourKind.BehaviourOnLine →
      r.driver.options_.path_idx = d.options_.path_idx ∧
      d.options_.wp_idx ≤ r.driver.options_.wp_idx) ∧
    (r.driver.options_.path_idx ≠ d.options_.path_idx →
      r.driver.options_.path_idx = d.options_.path_idx + 1 ∧
      r.driver.options_.wp_idx = 0) := by
  rcases ha with ha | ha
  · rcases cursor_step env d inp r h _ ha with ho | ⟨res, hd, ho⟩
    · rw [ho]
      exact ⟨le_refl _, fun _ => ⟨rfl, le_refl _⟩, fun hne => absurd rfl hne⟩
    · obtain ⟨w, hw, hle⟩ := (onLine_execute_cases env _ inp res hd).1
      rw [ho, hw]
      exact ⟨le_refl _, fun _ => ⟨rfl, hle⟩, fun hne => absurd rfl hne⟩
  · have hnot : d.active_behaviour_ ≠ some BehaviourKind.BehaviourOnLine := by
      rw [ha]; decide
    rcases cursor_step env d inp r h _ ha with ho | ⟨res, hd, ho⟩
    · rw [ho]
      exact ⟨le_refl _, fun hon => absurd hon hnot, fun hne => absurd rfl hne⟩
    · rcases (approach_execute_cases env _ inp res hd).1 with ⟨w, hw⟩ | hw
      · rw [ho, hw]
        exact ⟨le_refl _, fun hon => absurd hon hnot, fun hne => absurd rfl hne⟩
      · rw [ho, hw]
        exact ⟨by simp, fun hon => absurd hon hnot, fun _ => ⟨rfl, rfl⟩⟩

theorem cursor_monotone_witness :
    drivingDriver.execute exampleDriverEnv (robotAt (3 / 2) 40) = Except.ok gatedTick ∧
    drivingDriver.active_behaviour_ = some BehaviourKind.BehaviourOnLine ∧
    gatedTick.driver.options_.path_idx = drivingDriver.options_.path_idx ∧
    drivingDriver.options_.wp_idx ≤ gatedTick.driver.options_.wp_idx :=
  ⟨by decide!, by decide!,
    ((cursor_monotone exampleDriverEnv drivingDriver (robotAt (3 / 2) 40) gatedTick
      (by decide!) (Or.inl (by decide!))).2.1 (by decide!)).1,
    ((cursor_monotone exampleDriverEnv drivingDriver (robotAt (3 / 2) 40) gatedTick
      (by decide!) (Or.inl (by decide!))).2.1 (by decide!)).2⟩

/-- After a tick that ended the following of the path, the next tick starts again at
the cursor `(0, 0)`.  After the tick that reports success the cursor is `(1, 0)`,
and the next tick has `path_idx = 0`; and after a tick in which the pose query of
the driver fails, the next tick has `wp_idx = 0`, while `wp_idx` was 1 before. -/
theorem cursor_monotone_fails :
    (runCalls exampleDriverEnv freshDriver
        [Call.setGoal shortGoal, Call.execute (robotAt (1 / 10) 30),
         Call.execute (robotAt (1 / 10) 60)] = Except.ok arrivedDriver ∧
      arrivedDriver.options_.path_idx = 1 ∧
      (tickOf (arrivedDriver.execute exampleDriverEnv (robotAt (1 / 10) 90)) noTick).status
        = MotionStatus.MOTION_STATUS_MOVING ∧
      (tickOf (arrivedDriver.execute exampleDriverEnv (robotAt (1 / 10) 90))
        noTick).driver.options_.path_idx = 0) ∧
    (runCalls exampleDriverEnv freshDriver
        [Call.setGoal straightGoal, Call.execute (robotAt 0 30),
         Call.execute { robotAt (3 / 2) 60 with worldPose := none }] = Except.ok lostDriver ∧
      lostDriver.options_.path_idx = 0 ∧ lostDriver.options_.wp_idx = 1 ∧
      (tickOf (lostDriver.execute exampleDriverEnv (robotAt (3 / 2) 90)) noTick).status
        = MotionStatus.MOTION_STATUS_MOVING ∧
      (tickOf (lostDriver.execute exampleDriverEnv (robotAt (3 / 2) 90))
        noTick).driver.options_.path_idx = 0 ∧
      (tickOf (lostDriver.execute exampleDriverEnv (robotAt (3 / 2) 90))
        noTick).driver.options_.wp_idx = 0) := by
  decide!

/-- C14 (evaluation at the failing input): within one goal, in ticks that all
return `MOVING`, `wp_idx` decreases while `path_idx` stays the same.  With the path
`(0,0), (1,0), (1.1,0)` the first tick leaves the cursor at `(0, 1)`, the second
tick, in which `BehaviourOnLine` throws `BehaviourApproachTurningPoint`, leaves it
at `(0, 2)`, and the third tick, in which `BehaviourApproachTurningPoint` assigns
`size() - 2` to `wp_idx`, leaves it at `(0, 1)`. -/
theorem cursor_decreases_within_goal :
    ((freshDriver.setGoal exampleEnv nearCuspGoal).execute exampleDriverEnv (robotAt 0 30)
        = Except.ok nearCuspFirstTick ∧
      nearCuspFirstTick.status = MotionStatus.MOTION_STATUS_MOVING ∧
      nearCuspFirstTick.driver.options_.path_idx = 0 ∧
      nearCuspFirstTick.driver.options_.wp_idx = 1) ∧
    (nearCuspFirstTick.driver.execute exampleDriverEnv (robotAt 1 60)
        = Except.ok nearCuspSecondTick ∧
      nearCuspSecondTick.status = MotionStatus.MOTION_STATUS_MOVING ∧
      nearCuspSecondTick.driver.options_.path_idx = 0 ∧
      nearCuspSecondTick.driver.options_.wp_idx = 2) ∧
    (nearCuspSecondTick.driver.execute exampleDriverEnv (robotAt (19 / 20) 90)
        = Except.ok nearCuspThirdTick ∧
      nearCuspThirdTick.status = MotionStatus.MOTION_STATUS_MOVING ∧
      nearCuspThirdTick.driver.options_.path_idx = 0 ∧
      nearCuspThirdTick.driver.options_.wp_idx = 1) ∧
    nearCuspThirdTick.driver.options_.wp_idx < nearCuspSecondTick.driver.options_.wp_idx := by
  decide!

/-- C15: after `setGoal` with a path of fewer than two poses, the next `execute`
returns `INTERNAL_ERROR`, leaves no active behaviour and `v = 0` in the latched
command, makes no call at all (no pose query, no dispatch of a behaviour, no
publication) and clears the latch; in the execute after that the status
`INTERNAL_ERROR`, if returned, does not come from the latch: it is preceded by
calls. -/
theorem rejected_goal_latch (env : DriverEnv) (d : BehaviouralPathDriver) (goal : MotionGoal)
    (inp : TickInput) (hshort : goal.path.length < 2) :
    ∃ r, (d.setGoal env.toMathEnv goal).execute env inp = Except.ok r ∧
      r.status = MotionStatus.MOTION_STATUS_INTERNAL_ERROR ∧
      r.driver.active_behaviour_ = none ∧ r.driver.current_command_.v = 0 ∧
      r.events = [] ∧ r.driver.pending_error_ = none ∧
      ∀ inp2 r2, r.driver.execute env inp2 = Except.ok r2 →
        r2.status = MotionStatus.MOTION_STATUS_INTERNAL_ERROR → r2.events ≠ [] := by
  refine ⟨{ status := MotionStatus.MOTION_STATUS_INTERNAL_ERROR,
             driver := ({ d.setGoal env.toMathEnv goal with pending_error_ := none }).stop,
             events := [], dir_sign := none }, ?_, rfl, rfl, rfl, rfl, rfl, ?_⟩
  · simp only [BehaviouralPathDriver.setGoal, if_pos hshort, BehaviouralPathDriver.execute]
  · intro inp2 r2 h2 hst
    rcases execute_cases env _ inp2 r2 h2 with ⟨e, he, _⟩ | ⟨_, _, hr⟩ | ⟨_, _, _, hr⟩ |
      ⟨p, b, res, _, _, _, _, _, hf⟩
    · simp [BehaviouralPathDriver.stop, BehaviouralPathDriver.clearActive] at he
    · subst hr
      cases hst
    · subst hr
      cases hst
    · rw [(finish_ok env _ b res r2 hf).2.2.2.2.2.1]
      simp

theorem rejected_goal_latch_witness :
    onePoseGoal.path.length < 2 ∧
    ∃ r, (drivingDriver.setGoal exampleEnv onePoseGoal).execute exampleDriverEnv (robotAt 0 60)
        = Except.ok r ∧
      r.status = MotionStatus.MOTION_STATUS_INTERNAL_ERROR ∧
      r.driver.active_behaviour_ = none ∧ r.driver.current_command_.v = 0 ∧
      r.events = [] ∧ r.driver.pending_error_ = none ∧
      ∀ inp2 r2, r.driver.execute exampleDriverEnv inp2 = Except.ok r2 →
        r2.status = MotionStatus.MOTION_STATUS_INTERNAL_ERROR → r2.events ≠ [] :=
  ⟨by decide, rejected_goal_latch exampleDriverEnv drivingDriver onePoseGoal (robotAt 0 60)
    (by decide)⟩

/-- C16 (evaluation at the failing input): a driver follows the path of five poses
for one tick and then gets the shifted goal.  After `setGoal` the behaviour
`BehaviourOnLine` is still active and the cursor is still `(0, 3)`; the next tick,
with the robot at the first pose of the new path, runs `BehaviourOnLine` from that
cursor and ends with the cursor `(0, 3)`, whereas the same tick of a fresh driver
with the same goal ends with the cursor `(0, 1)`. -/
theorem goal_keeps_behaviour :
    runCalls exampleDriverEnv freshDriver
        [Call.setGoal fivePoseGoal, Call.execute (robotAt 0 30), Call.setGoal shiftedGoal]
      = Except.ok regoaledDriver ∧
    regoaledDriver.active_behaviour_ = some BehaviourKind.BehaviourOnLine ∧
    regoaledDriver.options_.path_idx = 0 ∧ regoaledDriver.options_.wp_idx = 3 ∧
    Event.dispatch BehaviourKind.BehaviourOnLine
      ∈ (tickOf (regoaledDriver.execute exampleDriverEnv (robotAt 10 60)) noTick).events ∧
    (tickOf (regoaledDriver.execute exampleDriverEnv (robotAt 10 60))
      noTick).driver.options_.wp_idx = 3 ∧
    (tickOf ((freshDriver.setGoal exampleEnv shiftedGoal).execute exampleDriverEnv
      (robotAt 10 60)) noTick).driver.options_.wp_idx = 1 := by
  decide!

/-- C17 (amended): after `setGoal` with at least two poses the sub-paths are the
segmentation of the new path and of nothing else; `stop` and a `setGoal` with fewer
than two poses leave the sub-paths as they are. -/
theorem paths_after_goal (env : MathEnv) (d : BehaviouralPathDriver) (goal : MotionGoal) :
    (2 ≤ goal.path.length → (d.setGoal env goal).paths_ = setPath env goal.path) ∧
    (goal.path.length < 2 → (d.setGoal env goal).paths_ = d.paths_) ∧
    d.stop.paths_ = d.paths_ := by
  refine ⟨?_, ?_, rfl⟩
  · intro h
    simp only [BehaviouralPathDriver.setGoal, if_neg (not_lt.mpr h),
      BehaviouralPathDriver.setPath]
  · intro h
    simp only [BehaviouralPathDriver.setGoal, if_pos h, BehaviouralPathDriver.stop,
      BehaviouralPathDriver.clearActive]

theorem paths_after_goal_witness :
    (drivingDriver.setGoal exampleEnv shiftedGoal).paths_ = setPath exampleEnv shiftedGoal.path ∧
    (drivingDriver.setGoal exampleEnv onePoseGoal).paths_ = drivingDriver.paths_ :=
  ⟨(paths_after_goal exampleEnv drivingDriver shiftedGoal).1 (by decide),
    (paths_after_goal exampleEnv drivingDriver onePoseGoal).2.1 (by decide)⟩

/-- C17 (as stated) fails: after `stop`, and after a `setGoal` with a single pose,
the driver still holds the sub-path of the previous goal. -/
theorem paths_after_stop_fails :
    runCalls exampleDriverEnv freshDriver
        [Call.setGoal straightGoal, Call.execute (robotAt 0 30)] = Except.ok drivingDriver ∧
    drivingDriver.stop.paths_ = [straightGoal.path] ∧
    drivingDriver.stop.paths_ ≠ [] ∧
    (drivingDriver.setGoal exampleEnv onePoseGoal).paths_ = [straightGoal.path] := by
  decide!

/-- C18 (amended): in every tick of `execute` with sub-paths, without a pending error,
in which the pose query of the driver fails, `execute` returns `SLAM_FAIL`, clears
the active behaviour and sets `v` of the latched command to 0; the pose query is
the only call of the tick and no command is published in it. -/
theorem pose_failure_stops (env : DriverEnv) (d : BehaviouralPathDriver) (inp : TickInput)
    (hpend : d.pending_error_ = none) (hpaths : d.paths_ ≠ []) (hpose : inp.worldPose = none) :
    ∃ r, d.execute env inp = Except.ok r ∧
      r.status = MotionStatus.MOTION_STATUS_SLAM_FAIL ∧
      r.driver.active_behaviour_ = none ∧ r.driver.current_command_.v = 0 ∧
      r.events = [Event.getWorldPose] ∧ r.published = none := by
  refine ⟨{ status := MotionStatus.MOTION_STATUS_SLAM_FAIL,
             driver := (if d.active_behaviour_ = none then d.start else d).stop,
             events := [Event.getWorldPose], dir_sign := none }, ?_, rfl, rfl, rfl, rfl, rfl⟩
  simp only [BehaviouralPathDriver.execute, hpend, if_neg hpaths, hpose]

theorem pose_failure_stops_witness :
    drivingDriver.pending_error_ = none ∧ drivingDriver.paths_ ≠ [] ∧
    ∃ r, drivingDriver.execute exampleDriverEnv { robotAt (3 / 2) 60 with worldPose := none }
        = Except.ok r ∧
      r.status = MotionStatus.MOTION_STATUS_SLAM_FAIL ∧
      r.driver.active_behaviour_ = none ∧ r.driver.current_command_.v = 0 ∧
      r.events = [Event.getWorldPose] ∧ r.published = none :=
  ⟨by decide!, by decide!,
    pose_failure_stops exampleDriverEnv drivingDriver
      { robotAt (3 / 2) 60 with worldPose := none } (by decide!) (by decide!) rfl⟩

/-- C18 (as stated) fails: in the tick of the driving driver in which the pose query
of the driver fails, no command is published. -/
theorem pose_failure_publishes_nothing :
    drivingDriver.pending_error_ = none ∧ drivingDriver.paths_ ≠ [] ∧
    drivingDriver.execute exampleDriverEnv { robotAt (3 / 2) 60 with worldPose := none }
      = Except.ok lostTick ∧
    lostTick.status = MotionStatus.MOTION_STATUS_SLAM_FAIL ∧
    lostTick.published = none ∧
    ¬ ∃ cmd, Event.publish cmd ∈ lostTick.events := by
  refine ⟨by decide!, by decide!, by decide!, by decide!, by decide!, ?_⟩
  have h : lostTick.events = [Event.getWorldPose] := by decide!
  rw [h]
  simp

/-- C19 (evaluation at the failing input): when the transform of the next waypoint
fails, the tick of `BehaviourOnLine` and the tick of
`BehaviourApproachTurningPoint` both return `SLAM_FAIL`; only the failure of the
transform of the follow-up waypoint returns `INTERNAL_ERROR`. -/
theorem transform_failure_status :
    (drivingDriver.execute exampleDriverEnv
        { robotAt (1 / 2) 60 with transformNext := fun _ => none }
      = Except.ok nextTransformFailTick ∧
      Event.dispatch BehaviourKind.BehaviourOnLine ∈ nextTransformFailTick.events ∧
      nextTransformFailTick.status = MotionStatus.MOTION_STATUS_SLAM_FAIL) ∧
    (approachingDriver.execute exampleDriverEnv
        { robotAt (1 / 10) 60 with transformNext := fun _ => none }
      = Except.ok approachTransformFailTick ∧
      Event.dispatch BehaviourKind.BehaviourApproachTurningPoint
        ∈ approachTransformFailTick.events ∧
      approachTransformFailTick.status = MotionStatus.MOTION_STATUS_SLAM_FAIL) ∧
    (drivingDriver.execute exampleDriverEnv
        { robotAt (1 / 2) 60 with transformFollowup := fun _ => none }
      = Except.ok followupTransformFailTick ∧
      followupTransformFailTick.status = MotionStatus.MOTION_STATUS_INTERNAL_ERROR) := by
  decide!

/-- C20 (evaluation at the failing input): in the tick of the driving driver in
which the pose query of the behaviour fails, `execute` returns `SLAM_FAIL` and
clears the active behaviour, but the command published in that tick is the command
latched before, with `v = 1`. -/
theorem failure_publishes_stale_command :
    runCalls exampleDriverEnv freshDriver
        [Call.setGoal straightGoal, Call.execute (robotAt 0 30)] = Except.ok drivingDriver ∧
    drivingDriver.current_command_ = ⟨1, 0, 0⟩ ∧
    drivingDriver.execute exampleDriverEnv { robotAt (1 / 2) 60 with behaviourPose := none }
      = Except.ok behaviourLostTick ∧
    Event.dispatch BehaviourKind.BehaviourOnLine ∈ behaviourLostTick.events ∧
    behaviourLostTick.status = MotionStatus.MOTION_STATUS_SLAM_FAIL ∧
    behaviourLostTick.driver.active_behaviour_ = none ∧
    behaviourLostTick.published = some ⟨1, 0, 0⟩ := by
  decide!

/-! ## Regulator with the default integrator bound -/

theorem pid_execute_i_f_zero (p : PidCtrl) (now ef deltaf : ℚ) (h0 : p.i_max_ = 0) :
    (p.execute now ef deltaf).2.1.i_f_ = 0 ∨
    (p.execute now ef deltaf).2.1.i_f_ = p.i_f_ := by
  by_cases hc : now - p.timer_ ≥ p.Ta_ * 1000
  · left
    simp only [PidCtrl.execute, if_pos hc, h0, neg_zero]
    rcases le_total (p.i_f_ + (now - p.timer_) * ef / 1000) 0 with h | h
    · rw [min_eq_left h, max_eq_right h]
    · rw [min_eq_right h, max_self]
  · right
    simp only [PidCtrl.execute, if_neg hc]

theorem pid_reachable_i_f_zero (p : PidCtrl) (hr : PidCtrl.Reachable p) (h0 : p.i_max_ = 0) :
    p.i_f_ = 0 := by
  have h := pid_reachable_bound p hr (le_of_eq h0.symm)
  rw [h0] at h
  exact abs_eq_zero.mp (le_antisymm h (abs_nonneg _))

/-- C28: with the integrator bound `i_max = 0`, which is the default that the
driver passes to `configure`, the integrator `i_f` is 0 in every regulator state
reachable from `configure` by calls of `reset` and `execute`, and every accepted
call of `execute` leaves the integrator at 0 and returns `delta = Kp * e`,
whatever the gain `Ki`, the instant of the call and the earlier errors are. -/
theorem pid_proportional (p : PidCtrl) (hr : PidCtrl.Reachable p) (h0 : p.i_max_ = 0) :
    p.i_f_ = 0 ∧
    (∀ now ef deltaf : ℚ, (p.execute now ef deltaf).1 = true →
      (p.execute now ef deltaf).2.2 = p.Kp_ * ef ∧ (p.execute now ef deltaf).2.1.i_f_ = 0) ∧
    (∀ (env : MathEnv) (now : ℚ),
      (BehaviouralPathDriver.construct env now).pid_.i_max_ = 0 ∧
      PidCtrl.Reachable (BehaviouralPathDriver.construct env now).pid_) := by
  have hi := pid_reachable_i_f_zero p hr h0
  refine ⟨hi, ?_, ?_⟩
  · intro now ef deltaf hacc
    by_cases hc : now - p.timer_ ≥ p.Ta_ * 1000
    · have hz : max (min (p.i_f_ + (now - p.timer_) * ef / 1000) 0) 0 = 0 := by
        rcases le_total (p.i_f_ + (now - p.timer_) * ef / 1000) 0 with h | h
        · rw [min_eq_left h, max_eq_right h]
        · rw [min_eq_right h, max_self]
      simp only [PidCtrl.execute, if_pos hc, h0, neg_zero, hz, mul_zero, add_zero, and_self]
    · simp [PidCtrl.execute, if_neg hc] at hacc
  · intro env now
    exact ⟨rfl, PidCtrl.Reachable.configure _ _ _ _ _ _ _ _ _⟩

/-- An instance: the regulator of a freshly constructed driver after an accepted
call with error 1 at 30 ms; the next accepted call, with error 5 at 60 ms, returns
`1.5 * 5`. -/
theorem pid_proportional_witness :
    (PidCtrl.Reachable (freshDriver.pid_.execute 30 1 0).2.1 ∧
      (freshDriver.pid_.execute 30 1 0).2.1.i_max_ = 0 ∧
      ((freshDriver.pid_.execute 30 1 0).2.1.execute 60 5 0).1 = true) ∧
    (freshDriver.pid_.execute 30 1 0).2.1.i_f_ = 0 ∧
    ((freshDriver.pid_.execute 30 1 0).2.1.execute 60 5 0).2.2
      = (freshDriver.pid_.execute 30 1 0).2.1.Kp_ * 5 ∧
    ((freshDriver.pid_.execute 30 1 0).2.1.execute 60 5 0).2.1.i_f_ = 0 ∧
    (freshDriver.pid_.execute 30 1 0).2.1.Kp_ * 5 = 15 / 2 :=
  ⟨⟨PidCtrl.Reachable.execute 30 1 0 (PidCtrl.Reachable.configure _ _ _ _ _ _ _ _ _),
      by decide!, by decide!⟩,
    (pid_proportional (freshDriver.pid_.execute 30 1 0).2.1
      (PidCtrl.Reachable.execute 30 1 0 (PidCtrl.Reachable.configure _ _ _ _ _ _ _ _ _))
      (by decide!)).1,
    ((pid_proportional (freshDriver.pid_.execute 30 1 0).2.1
      (PidCtrl.Reachable.execute 30 1 0 (PidCtrl.Reachable.configure _ _ _ _ _ _ _ _ _))
      (by decide!)).2.1 60 5 0 (by decide!)).1,
    ((pid_proportional (freshDriver.pid_.execute 30 1 0).2.1
      (PidCtrl.Reachable.execute 30 1 0 (PidCtrl.Reachable.configure _ _ _ _ _ _ _ _ _))
      (by decide!)).2.1 60 5 0 (by decide!)).2,
    by decide!⟩

/-! ## Prediction -/

theorem predictPoseRounded_id (env : DriverEnv) (d : BehaviouralPathDriver) :
    d.predictPoseRounded id env = d.predictPose env := by
  simp only [BehaviouralPathDriver.predictPoseRounded, BehaviouralPathDriver.predictPose, id]

theorem predictedCentreRounded_id (env : DriverEnv) (d : BehaviouralPathDriver) :
    d.predictedCentreRounded id env = d.predictedCentre env := by
  simp only [BehaviouralPathDriver.predictedCentreRounded,
    BehaviouralPathDriver.predictedCentre, id]

theorem construct_avoider (opt_ : PathFollowerParameters) (out r : FactoryOutput)
    (h : ControllerFactory.construct opt_ out = Except.ok r) :
    r.out_obstacle_avoider = some ObstacleAvoider.NoneAvoider := by
  simp only [ControllerFactory.construct] at h
  split at h
  · cases h
  · split at h
    · cases h
    · split at h
      · cases h
      · simp only [Except.ok.injEq] at h
        subst h
        rfl

/-- C30 (evaluation at the failing input): `ControllerFactory::construct` with the controller
name `ackermann_pid` and `obstacle_avoider_use_collision_box` true returns the
none-avoider and not `ObstacleDetectorAckermann`; likewise `patsy_pid` and
`omnidrive_orthexp` get the none-avoider, because the assignment of the
none-avoider after the chain of names is unconditional. -/
theorem construct_returns_none_avoider :
    ControllerFactory.detectorFor "ackermann_pid" = some ObstacleAvoider.ObstacleDetectorAckermann ∧
    ControllerFactory.construct ⟨"ackermann_pid", "NULL", true⟩ ⟨none, none, none⟩
      = Except.ok ⟨some RobotController.RobotController_Ackermann_Pid,
          some LocalPlanner.LocalPlannerNull, some ObstacleAvoider.NoneAvoider⟩ ∧
    ControllerFactory.construct ⟨"patsy_pid", "NULL", true⟩ ⟨none, none, none⟩
      = Except.ok ⟨some RobotController.RobotControllerTrailer,
          some LocalPlanner.LocalPlannerNull, some ObstacleAvoider.NoneAvoider⟩ ∧
    ControllerFactory.construct ⟨"omnidrive_orthexp", "NULL", true⟩ ⟨none, none, none⟩
      = Except.ok ⟨some RobotController.RobotController_Omnidrive_OrthogonalExponential,
          some LocalPlanner.LocalPlannerNull, some ObstacleAvoider.NoneAvoider⟩ := by
  refine ⟨?_, ?_, ?_, ?_⟩ <;> decide

/-! ## The waypoint loop of `BehaviourOnLine` -/

theorem at?_natCast {α : Type} (l : List α) (i : ℕ) : at? l (i : ℤ) = l[i]? := by
  simp [at?]

theorem dropFrom_natCast {α : Type} (l : List α) (i : ℕ) : dropFrom l (i : ℤ) = l.drop i := by
  simp [dropFrom]

theorem at?_some_lt {α : Type} (l : List α) (i : ℤ) (x : α) (h : at? l i = some x) :
    0 ≤ i ∧ i < l.length := by
  unfold at? at h
  split_ifs at h with h0
  have hlt := (List.getElem?_eq_some_iff.mp h).1
  omega

/-- The result of the loop on the waypoints `l` from the cursor on: either all of
them are within the tolerance and the loop is left by the throw at the last of
them, or the loop stops at the first of them that is not within the tolerance. -/
theorem advance_spec (env : DriverEnv) (d : BehaviouralPathDriver) :
    ∀ (l : List Waypoint) (k : ℤ), l ≠ [] →
      ((∀ wp ∈ l, d.distanceTo env wp < d.options_.wp_tolerance_) ∧
        BehaviourOnLine.advance env d l k = some (k + l.length - 1, true)) ∨
      (∃ (m : ℕ) (wp : Waypoint), l[m]? = some wp ∧
        ¬ d.distanceTo env wp < d.options_.wp_tolerance_ ∧
        (∀ j wp2, j < m → l[j]? = some wp2 → d.distanceTo env wp2 < d.options_.wp_tolerance_) ∧
        BehaviourOnLine.advance env d l k = some (k + m, false)) := by
  intro l
  induction l with
  | nil => intro k h; exact absurd rfl h
  | cons wp rest ih =>
    intro k _
    cases rest with
    | nil =>
      by_cases hc : d.distanceTo env wp < d.options_.wp_tolerance_
      · left
        refine ⟨by simpa using hc, ?_⟩
        simp [BehaviourOnLine.advance, hc]
      · right
        exact ⟨0, wp, rfl, hc, by intro j _ hj; omega, by simp [BehaviourOnLine.advance, hc]⟩
    | cons next rest =>
      by_cases hc : d.distanceTo env wp < d.options_.wp_tolerance_
      · rcases ih (k + 1) (by simp) with ⟨hall, hadv⟩ | ⟨m, wp1, hm, hfar, hbefore, hadv⟩
        · left
          refine ⟨?_, ?_⟩
          · intro w hw
            rcases List.mem_cons.mp hw with rfl | hw
            · exact hc
            · exact hall w hw
          · simp only [BehaviourOnLine.advance, if_pos hc, hadv, List.length_cons,
              Option.some.injEq, Prod.mk.injEq, and_true]
            push_cast
            ring
        · right
          refine ⟨m + 1, wp1, by simpa using hm, hfar, ?_, ?_⟩
          · intro j wp2 hj hj2
            cases j with
            | zero =>
              simp only [List.getElem?_cons_zero, Option.some.injEq] at hj2
              subst hj2
              exact hc
            | succ j =>
              exact hbefore j wp2 (by omega) (by simpa using hj2)
          · simp only [BehaviourOnLine.advance, if_pos hc, hadv, Option.some.injEq,
              Prod.mk.injEq, and_true]
            push_cast
            ring
      · right
        exact ⟨0, wp, rfl, hc, by intro j _ hj; omega, by simp [BehaviourOnLine.advance, hc]⟩

/-- The loop evaluated with a bound of `n` evaluations of its condition, where `n`
is the number of waypoints from the cursor on, gives the result of `advance`. -/
theorem advanceLoop_eq (env : DriverEnv) (d : BehaviouralPathDriver) (path : Path) :
    ∀ (n i : ℕ), i + n = path.length → 0 < n →
      BehaviourOnLine.advanceLoop env d path n (i : ℤ)
        = some (BehaviourOnLine.advance env d (path.drop i) (i : ℤ)) := by
  intro n
  induction n with
  | zero => intro i _ h; omega
  | succ n ih =>
    intro i hlen _
    have hi : i < path.length := by omega
    have hdrop : path.drop i = path[i] :: path.drop (i + 1) := List.drop_eq_getElem_cons hi
    have hat : at? path (i : ℤ) = some path[i] := by
      rw [at?_natCast]
      exact List.getElem?_eq_getElem hi
    rw [hdrop]
    simp only [BehaviourOnLine.advanceLoop, hat]
    rcases Nat.eq_zero_or_pos n with hn | hn
    · have hnil : path.drop (i + 1) = [] := List.drop_eq_nil_of_le (by omega)
      have hge : (i : ℤ) ≥ (path.length : ℤ) - 1 := by omega
      rw [hnil]
      simp only [BehaviourOnLine.advance, if_pos hge]
      split_ifs <;> rfl
    · have hlt : ¬ (i : ℤ) ≥ (path.length : ℤ) - 1 := by omega
      have hi1 : i + 1 < path.length := by omega
      have hdrop1 : path.drop (i + 1) = path[i + 1] :: path.drop (i + 1 + 1) :=
        List.drop_eq_getElem_cons hi1
      have hrec := ih (i + 1) (by omega) hn
      rw [hdrop1] at hrec ⊢
      simp only [BehaviourOnLine.advance, if_neg hlt]
      split_ifs
      · rw [Nat.cast_add, Nat.cast_one] at hrec
        exact hrec
      · rfl

theorem onLine_getNextWaypoint_throw (env : DriverEnv) (d : BehaviouralPathDriver)
    (inp : TickInput) (path : Path) (w : ℤ)
    (hpath : d.getSubPath d.options_.path_idx = some path)
    (hlt : d.options_.wp_idx < (path.length : ℤ))
    (hadv : BehaviourOnLine.advance env d (dropFrom path d.options_.wp_idx) d.options_.wp_idx
      = some (w, true)) :
    BehaviourOnLine.getNextWaypoint env d inp
      = Step.throws MotionStatus.MOTION_STATUS_MOVING
          (Thrown.Behaviour BehaviourKind.BehaviourApproachTurningPoint)
          { d.options_ with wp_idx := w } := by
  simp only [BehaviourOnLine.getNextWaypoint, hpath, hlt, not_true_eq_false, if_false, hadv]

theorem onLine_getNextWaypoint_stop (env : DriverEnv) (d : BehaviouralPathDriver)
    (inp : TickInput) (path : Path) (w : ℤ) (wp : Waypoint)
    (hpath : d.getSubPath d.options_.path_idx = some path)
    (hlt : d.options_.wp_idx < (path.length : ℤ))
    (hadv : BehaviourOnLine.advance env d (dropFrom path d.options_.wp_idx) d.options_.wp_idx
      = some (w, false))
    (hwp : at? path w = some wp) :
    BehaviourOnLine.getNextWaypoint env d inp
      = match inp.transformNext wp with
        | none =>
          Step.throws MotionStatus.MOTION_STATUS_SLAM_FAIL
            (Thrown.Behaviour BehaviourKind.BehaviourEmergencyBreak)
            { d.options_ with wp_idx := w }
        | some loc => Step.value ({ d.options_ with wp_idx := w }, wp, loc) := by
  simp only [BehaviourOnLine.getNextWaypoint, hpath, hlt, not_true_eq_false, if_false, hadv,
    hwp]

/-- C23: in a tick of `BehaviourOnLine` whose cursor is in range, the loop of
`getNextWaypoint` ends within `|sub-path| - wp_idx` evaluations of its condition.
It leaves by the throw of `BehaviourApproachTurningPoint` exactly when every
waypoint from the old `wp_idx` to the last index is closer to the robot than
`wp_tolerance_`; otherwise it leaves `wp_idx` at the smallest index from the old
`wp_idx` on whose waypoint is at a distance of at least `wp_tolerance_`, and the
selection continues with the transform of that waypoint. -/
theorem onLine_advance_loop (env : DriverEnv) (d : BehaviouralPathDriver) (inp : TickInput)
    (path : Path) (i : ℕ)
    (hpath : d.getSubPath d.options_.path_idx = some path)
    (hi : d.options_.wp_idx = (i : ℤ)) (hlt : i < path.length) :
    (∃ res, BehaviourOnLine.advanceLoop env d path (path.length - i) d.options_.wp_idx
          = some (some res) ∧
        BehaviourOnLine.advance env d (dropFrom path d.options_.wp_idx) d.options_.wp_idx
          = some res) ∧
    ((∃ opt, BehaviourOnLine.getNextWaypoint env d inp
          = Step.throws MotionStatus.MOTION_STATUS_MOVING
              (Thrown.Behaviour BehaviourKind.BehaviourApproachTurningPoint) opt) ↔
      ∀ j wp, i ≤ j → path[j]? = some wp →
        d.distanceTo env wp < d.options_.wp_tolerance_) ∧
    ((∀ j wp, i ≤ j → path[j]? = some wp → d.distanceTo env wp < d.options_.wp_tolerance_) →
      BehaviourOnLine.getNextWaypoint env d inp
        = Step.throws MotionStatus.MOTION_STATUS_MOVING
            (Thrown.Behaviour BehaviourKind.BehaviourApproachTurningPoint)
            { d.options_ with wp_idx := (path.length : ℤ) - 1 }) ∧
    (¬ (∀ j wp, i ≤ j → path[j]? = some wp →
          d.distanceTo env wp < d.options_.wp_tolerance_) →
      ∃ (w : ℕ) (wp : Waypoint), i ≤ w ∧ path[w]? = some wp ∧
        ¬ d.distanceTo env wp < d.options_.wp_tolerance_ ∧
        (∀ j wp2, i ≤ j → j < w → path[j]? = some wp2 →
          d.distanceTo env wp2 < d.options_.wp_tolerance_) ∧
        BehaviourOnLine.getNextWaypoint env d inp
          = match inp.transformNext wp with
            | none =>
              Step.throws MotionStatus.MOTION_STATUS_SLAM_FAIL
                (Thrown.Behaviour BehaviourKind.BehaviourEmergencyBreak)
                { d.options_ with wp_idx := (w : ℤ) }
            | some loc => Step.value ({ d.options_ with wp_idx := (w : ℤ) }, wp, loc)) := by
  have hlt2 : d.options_.wp_idx < (path.length : ℤ) := by rw [hi]; exact_mod_cast hlt
  have hne : path.drop i ≠ [] := by
    intro h
    have := List.drop_eq_nil_iff.mp h
    omega
  have hloop := advanceLoop_eq env d path (path.length - i) i (by omega) (by omega)
  have hlen : ((path.drop i).length : ℤ) = (path.length : ℤ) - i := by
    rw [List.length_drop, Nat.cast_sub (le_of_lt hlt)]
  rw [hi, dropFrom_natCast]
  rcases advance_spec env d (path.drop i) (i : ℤ) hne with
    ⟨hall, hadv⟩ | ⟨m, wp, hm, hfar, hbefore, hadv⟩
  · have hall2 : ∀ j wp, i ≤ j → path[j]? = some wp →
        d.distanceTo env wp < d.options_.wp_tolerance_ := by
      intro j wp hj hwp
      refine hall wp ?_
      rw [List.mem_iff_getElem?]
      refine ⟨j - i, ?_⟩
      rw [List.getElem?_drop]
      rw [← hwp]
      congr 1
      omega
    have hadv2 : BehaviourOnLine.advance env d (dropFrom path d.options_.wp_idx)
        d.options_.wp_idx = some ((path.length : ℤ) - 1, true) := by
      have he : (i : ℤ) + ((path.length : ℤ) - i) - 1 = (path.length : ℤ) - 1 := by ring
      rw [hi, dropFrom_natCast, hadv, hlen, he]
    have hg := onLine_getNextWaypoint_throw env d inp path _ hpath hlt2 hadv2
    refine ⟨⟨_, ?_, hadv⟩, ⟨fun _ => hall2, fun _ => ⟨_, hg⟩⟩, fun _ => hg,
      fun hn => absurd hall2 hn⟩
    rw [hloop, hadv]
  · have hm2 : path[i + m]? = some wp := by
      rw [← hm, List.getElem?_drop]
    have hnot : ¬ (∀ j wp, i ≤ j → path[j]? = some wp →
        d.distanceTo env wp < d.options_.wp_tolerance_) :=
      fun hall => hfar (hall (i + m) wp (by omega) hm2)
    have hadv2 : BehaviourOnLine.advance env d (dropFrom path d.options_.wp_idx)
        d.options_.wp_idx = some (((i + m : ℕ) : ℤ), false) := by
      rw [hi, dropFrom_natCast, hadv, Nat.cast_add]
    have hg := onLine_getNextWaypoint_stop env d inp path _ wp hpath hlt2 hadv2
      (by rw [at?_natCast]; exact hm2)
    refine ⟨⟨_, ?_, hadv⟩, ⟨fun h => ?_, fun h => absurd h hnot⟩, fun h => absurd h hnot,
      fun _ => ⟨i + m, wp, by omega, hm2, hfar, ?_, hg⟩⟩
    · rw [hloop, hadv]
    · obtain ⟨opt, ho⟩ := h
      rw [hg] at ho
      cases htn : inp.transformNext wp with
      | none => rw [htn] at ho; cases ho
      | some loc => rw [htn] at ho; cases ho
    · intro j wp2 hj hjw hwp2
      refine hbefore (j - i) wp2 (by omega) ?_
      rw [List.getElem?_drop, ← hwp2]
      congr 1
      omega

/-! ## The cursor of the behaviours at the end of a sub-path -/

/-- C21 (evaluation at the failing input): in a tick of `BehaviourApproachTurningPoint` the
waypoint selection sets `wp_idx` to `|sub-path| - 2`, the index before the last
one.  With the sub-path `(0,0), (1,0), (1.1,0)` and the cursor at the last index 2,
a tick with the robot at `(0.95, 0)` leaves `wp_idx = 1`, and a tick with the robot
at `(1.05, 0)`, where the final waypoint is still ahead, is taken for the arrival
at the cusp and returns `SUCCESS`. -/
theorem approach_aims_before_cusp :
    nearCuspDriver.active_behaviour_ = some BehaviourKind.BehaviourApproachTurningPoint ∧
    nearCuspDriver.paths_ = [[⟨0, 0, 0⟩, ⟨1, 0, 0⟩, ⟨11 / 10, 0, 0⟩]] ∧
    nearCuspDriver.options_.path_idx = 0 ∧ nearCuspDriver.options_.wp_idx = 2 ∧
    nearCuspDriver.execute exampleDriverEnv (robotAt (19 / 20) 90) = Except.ok approachTick ∧
    approachTick.status = MotionStatus.MOTION_STATUS_MOVING ∧
    approachTick.driver.active_behaviour_
      = some BehaviourKind.BehaviourApproachTurningPoint ∧
    approachTick.driver.options_.wp_idx = 1 ∧
    nearCuspDriver.execute exampleDriverEnv (robotAt (21 / 20) 90)
      = Except.ok earlySuccessTick ∧
    earlySuccessTick.status = MotionStatus.MOTION_STATUS_SUCCESS := by
  decide!

/-- C24 (evaluation at the failing input): a tick of `BehaviourOnLine` reaches the line-error
computation with `wp_idx` at the last index of the sub-path.  With the goal of two
poses `(0,0), (1,0)` and the robot at the origin, the loop of `getNextWaypoint`
leaves `wp_idx = 1`, the transform of that waypoint succeeds, and
`calculateLineError` reads `current_path[2]` of a vector of two elements. -/
theorem line_error_out_of_bounds :
    (freshDriver.setGoal exampleEnv twoPoseGoal).paths_ = [[⟨0, 0, 0⟩, ⟨1, 0, 0⟩]] ∧
    BehaviourOnLine.advance exampleDriverEnv
      { (freshDriver.setGoal exampleEnv twoPoseGoal).start with slam_pose_ := ⟨0, 0, 0⟩ }
      [⟨0, 0, 0⟩, ⟨1, 0, 0⟩] 0 = some (1, false) ∧
    at? [(⟨0, 0, 0⟩ : Waypoint), ⟨1, 0, 0⟩] (1 + 1) = none ∧
    (freshDriver.setGoal exampleEnv twoPoseGoal).execute exampleDriverEnv (robotAt 0 30)
      = Except.error Fault.outOfRange := by
  decide!

/-! ## The test for the turning point -/

/-- C22: a tick of `BehaviourApproachTurningPoint` in which the waypoint selection
and the pose query succeed, with `alpha` the value `angle` of `checkIfDone`.  If
`|alpha| ≥ M_PI / 2`, then `path_idx` is incremented by 1, `wp_idx` is 0,
`setCommand` is not called and the regulator is untouched; the next behaviour is
`BehaviourOnLine` with status `MOVING` when the new `path_idx` is less than the
number of sub-paths, and otherwise the behaviour is cleared, the status is
`SUCCESS` and the speed of the command is 0.  If `|alpha| < M_PI / 2`, then
`path_idx` is unchanged, the behaviour stays and the status is `MOVING`. -/
theorem approach_cusp_test (env : DriverEnv) (d : BehaviouralPathDriver) (inp : TickInput)
    (p pm : Pose2D) (path : Path) (wp : Waypoint) (loc : Pose2D)
    (hpend : d.pending_error_ = none)
    (hact : d.active_behaviour_ = some BehaviourKind.BehaviourApproachTurningPoint)
    (hpath : d.getSubPath d.options_.path_idx = some path)
    (hidx : d.options_.wp_idx < (path.length : ℤ))
    (hwp : at? path ((path.length : ℤ) - 2) = some wp)
    (hpose : inp.worldPose = some p) (hloc : inp.transformNext wp = some loc)
    (hpm : inp.behaviourPose = some pm) :
    ∃ r, d.execute env inp = Except.ok r ∧
      (|BehaviourApproachTurningPoint.angle env wp pm| ≥ env.M_PI / 2 →
        r.driver.options_.path_idx = d.options_.path_idx + 1 ∧
        r.driver.options_.wp_idx = 0 ∧
        (∀ e s, Event.setCommand e s ∉ r.events) ∧ r.driver.pid_ = d.pid_ ∧
        (d.options_.path_idx + 1 < d.getSubPathCount →
          r.driver.active_behaviour_ = some BehaviourKind.BehaviourOnLine ∧
          r.status = MotionStatus.MOTION_STATUS_MOVING) ∧
        (¬ d.options_.path_idx + 1 < d.getSubPathCount →
          r.driver.active_behaviour_ = none ∧
          r.status = MotionStatus.MOTION_STATUS_SUCCESS ∧
          r.driver.current_command_.v = 0)) ∧
      (|BehaviourApproachTurningPoint.angle env wp pm| < env.M_PI / 2 →
        r.driver.options_.path_idx = d.options_.path_idx ∧
        r.driver.active_behaviour_ = some BehaviourKind.BehaviourApproachTurningPoint ∧
        r.status = MotionStatus.MOTION_STATUS_MOVING) := by
  have hpaths : d.paths_ ≠ [] := by
    intro h
    simp [BehaviouralPathDriver.getSubPath, at?, h] at hpath
  obtain ⟨path_, paths_, options_, pid_, cmd, act, pend, slam, fs⟩ := d
  simp only [BehaviouralPathDriver.getSubPath] at hpend hact hpaths hpath hidx
  subst hpend hact
  simp only [BehaviourApproachTurningPoint.angle]
  by_cases ha : |env.AngleClamp (env.atan2 (wp.y - pm.y) (wp.x - pm.x)
      - env.atan2 (env.sin wp.theta) (env.cos wp.theta))| ≥ env.M_PI / 2
  · have hna := not_lt.mpr ha
    by_cases hc : options_.path_idx + 1 < (paths_.length : ℤ)
    · simp only [BehaviouralPathDriver.execute, hpaths, if_false, hpose, reduceCtorEq,
        BehaviouralPathDriver.dispatch, BehaviourApproachTurningPoint.execute,
        BehaviourApproachTurningPoint.getNextWaypoint, BehaviouralPathDriver.getSubPath, hpath,
        hidx, not_true_eq_false, hwp, hloc, BehaviourDriveBase.getSlamPose, hpm,
        BehaviourApproachTurningPoint.checkIfDone, if_pos ha,
        BehaviouralPathDriver.getSubPathCount, if_pos hc,
        BehaviouralPathDriver.finish, BehaviourResult.ofThrow,
        BehaviouralPathDriver.publishCommand, BehaviouralPathDriver.clearActive]
      refine ⟨_, rfl, ?_, fun h => absurd h hna⟩
      intro _
      simp [hc]
    · simp only [BehaviouralPathDriver.execute, hpaths, if_false, hpose, reduceCtorEq,
        BehaviouralPathDriver.dispatch, BehaviourApproachTurningPoint.execute,
        BehaviourApproachTurningPoint.getNextWaypoint, BehaviouralPathDriver.getSubPath, hpath,
        hidx, not_true_eq_false, hwp, hloc, BehaviourDriveBase.getSlamPose, hpm,
        BehaviourApproachTurningPoint.checkIfDone, if_pos ha,
        BehaviouralPathDriver.getSubPathCount, if_neg hc,
        BehaviouralPathDriver.finish, BehaviourResult.ofThrow,
        BehaviouralPathDriver.publishCommand, BehaviouralPathDriver.clearActive]
      refine ⟨_, rfl, ?_, fun h => absurd h hna⟩
      intro _
      simp [hc]
  · simp only [BehaviouralPathDriver.execute, hpaths, if_false, hpose, reduceCtorEq,
      BehaviouralPathDriver.dispatch, BehaviourApproachTurningPoint.execute,
      BehaviourApproachTurningPoint.getNextWaypoint, BehaviouralPathDriver.getSubPath, hpath,
      hidx, not_true_eq_false, hwp, hloc, BehaviourDriveBase.getSlamPose, hpm,
      BehaviourApproachTurningPoint.checkIfDone, if_neg ha,
      BehaviouralPathDriver.finish,
      BehaviouralPathDriver.publishCommand, BehaviouralPathDriver.clearActive]
    refine ⟨_, rfl, fun h => absurd h ha, ?_⟩
    intro _
    simp

/-! ## The speed of `BehaviourOnLine` -/

theorem setCommand_v_eq (pid_ : PidCtrl) (now : ℚ) (opt : Options) (dir_sign : ℚ)
    (cmd : Command) (error speed : ℚ) (h : (pid_.execute now error 0).1 = true) :
    (setCommand pid_ now opt dir_sign cmd error speed).current_command_.v
      = dir_sign * (if |(pid_.execute now error 0).2.2| > opt.steer_slow_threshold_ then
          speed * (1 / 2) else speed) := by
  simp only [setCommand]
  generalize pid_.execute now error 0 = r at h ⊢
  obtain ⟨ok, q, d⟩ := r
  simp only at h
  subst h
  simp only [abs_zero, max_eq_left (abs_nonneg d)]

theorem onLine_execute_speed (env : DriverEnv) (d : BehaviouralPathDriver) (inp : TickInput)
    (res : BehaviourResult) (h : BehaviourOnLine.execute env d inp = Except.ok res)
    (hn : res.thrown = none) :
    ∃ dir_sign e, (dir_sign = 1 ∨ dir_sign = -1) ∧ res.dir_sign = some dir_sign ∧
      res.options_.steer_slow_threshold_ = d.options_.steer_slow_threshold_ ∧
      res.events = [Event.getWorldPose, Event.setCommand e
        (if dir_sign < 0 then d.options_.max_speed_ * (1 / 2) else d.options_.max_speed_)] ∧
      res.current_command_ = (setCommand d.pid_ inp.now res.options_ dir_sign
        d.current_command_ e
        (if dir_sign < 0 then d.options_.max_speed_ * (1 / 2)
          else d.options_.max_speed_)).current_command_ := by
  have hnw := onLine_getNextWaypoint_options env d inp
  simp only [BehaviourOnLine.execute] at h
  split at h
  · cases h
  · cases h
    simp [BehaviourResult.ofThrow] at hn
  · rename_i opt wp loc hg
    obtain ⟨w, hw, _⟩ := hnw.1 opt wp loc hg
    rcases getSlamPose_cases inp opt with ⟨p, _, hp⟩ | ⟨_, hp⟩
    · rw [hp] at h
      simp only at h
      split at h
      · cases h
      · cases h
        simp [BehaviourResult.ofThrow] at hn
      · cases h
        subst hw
        exact ⟨sgn loc.x, _, sgn_cases _, rfl, rfl, rfl, rfl⟩
    · rw [hp] at h
      cases h
      simp [BehaviourResult.ofThrow] at hn

/-- C25 (amended): in a tick of `BehaviourOnLine` in which `setCommand` is called
and the regulator accepts the tick, the published speed satisfies
`|v| = |max_speed_| * a * b`, with `a = 1/2` if `dir_sign < 0` and `a = 1` otherwise,
and `b = 1/2` if `|delta| > steer_slow_threshold_` and `b = 1` otherwise, where
`delta` is the output of the regulator. -/
theorem onLine_speed (env : DriverEnv) (d : BehaviouralPathDriver) (inp : TickInput)
    (r : TickResult) (error speed : ℚ) (h : d.execute env inp = Except.ok r)
    (hb : Event.dispatch BehaviourKind.BehaviourOnLine ∈ r.events)
    (hc : Event.setCommand error speed ∈ r.events)
    (hacc : (d.pid_.execute inp.now error 0).1 = true) :
    ∃ dir_sign cmd, r.dir_sign = some dir_sign ∧ r.published = some cmd ∧
      |cmd.v| = |d.options_.max_speed_| * (if dir_sign < 0 then 1 / 2 else 1)
        * (if |(d.pid_.execute inp.now error 0).2.2| > d.options_.steer_slow_threshold_ then
            1 / 2 else 1) := by
  rcases execute_cases env d inp r h with ⟨e, _, hr⟩ | ⟨_, _, hr⟩ | ⟨_, _, _, hr⟩ |
    ⟨p, b, res, _, _, _, _, hd, hf⟩
  · subst hr; simp at hc
  · subst hr; simp at hc
  · subst hr; simp at hc
  · obtain ⟨_, hds, hopt, _, _, hev, hcmd, _, _⟩ := finish_ok env _ b res r hf
    obtain ⟨hpid, hcur, _, hmax⟩ := entered_fields d
    rw [hev] at hc hb
    have hc2 : Event.setCommand error speed ∈ res.events := by
      simpa using hc
    cases b with
    | BehaviourOnLine =>
      have hth : res.thrown = none := by
        rcases (onLine_execute_cases env _ inp res hd).2 with ⟨_, _, _, hno⟩ |
          ⟨_, _, _, _, _, hth, _⟩
        · exact absurd hc2 (hno error speed)
        · exact hth
      obtain ⟨ds, e, hds1, hdir, hthr, hevs, hcm⟩ := onLine_execute_speed env _ inp res hd hth
      rw [hevs] at hc2
      obtain ⟨rfl, rfl⟩ := mem_setCommand_events _ _ _ _ hc2
      simp only [hpid, hcur, hmax] at hcm hevs
      have hthr2 : res.options_.steer_slow_threshold_ = d.options_.steer_slow_threshold_ := by
        rw [hthr]
        split_ifs <;> rfl
      have hcur2 : r.driver.current_command_ = res.current_command_ := hcmd (by simp [hth])
      refine ⟨ds, r.driver.current_command_, by rw [hds, hdir], ?_, ?_⟩
      · simp [TickResult.published, hev, hevs, List.findSome?]
      · rw [hcur2, hcm, setCommand_v_eq _ _ _ _ _ _ _ hacc, hthr2]
        have h2 : |(1 / 2 : ℚ)| = 1 / 2 := abs_of_pos (by norm_num)
        rcases hds1 with rfl | rfl
        · have h1 : ¬ (1 : ℚ) < 0 := by norm_num
          simp only [if_neg h1]
          split_ifs <;> simp only [abs_mul, h2, abs_one] <;> ring
        · have h1 : (-1 : ℚ) < 0 := by norm_num
          simp only [if_pos h1]
          split_ifs <;> simp only [abs_mul, h2, abs_neg, abs_one] <;> ring
    | BehaviourApproachTurningPoint =>
      rcases (approach_execute_cases env _ inp res hd).2 with ⟨_, _, _, hno⟩ |
        ⟨_, _, _, _, _, _, hevs, _⟩
      · exact absurd hc2 (hno error speed)
      · rw [hevs] at hb
        simp at hb
    | BehaviourEmergencyBreak =>
      obtain ⟨_, _, hevs, _⟩ := emergencyBreak_execute_eq _ res hd
      rw [hevs] at hc2
      simp at hc2

/-! ## Statuses and thrown behaviours -/

theorem onLine_getNextWaypoint_throws (env : DriverEnv) (d : BehaviouralPathDriver)
    (inp : TickInput) (status : MotionStatus) (next : Thrown) (opt : Options)
    (h : BehaviourOnLine.getNextWaypoint env d inp = Step.throws status next opt) :
    (status = MotionStatus.MOTION_STATUS_MOVING ∧
      next = Thrown.Behaviour BehaviourKind.BehaviourApproachTurningPoint) ∨
    (status = MotionStatus.MOTION_STATUS_SLAM_FAIL ∧
      next = Thrown.Behaviour BehaviourKind.BehaviourEmergencyBreak) := by
  simp only [BehaviourOnLine.getNextWaypoint] at h
  split at h
  · cases h
  · split at h
    · cases h
    · split at h
      · cases h
      · cases h
        exact Or.inl ⟨rfl, rfl⟩
      · split at h
        · cases h
        · split at h
          · cases h
            exact Or.inr ⟨rfl, rfl⟩
          · cases h

theorem getSlamPose_throws (inp : TickInput) (opt : Options) (status : MotionStatus)
    (next : Thrown) (opt2 : Options)
    (h : BehaviourDriveBase.getSlamPose inp opt = Step.throws status next opt2) :
    status = MotionStatus.MOTION_STATUS_SLAM_FAIL ∧
    next = Thrown.Behaviour BehaviourKind.BehaviourEmergencyBreak := by
  simp only [BehaviourDriveBase.getSlamPose] at h
  split at h
  · cases h
    exact ⟨rfl, rfl⟩
  · cases h

theorem calculateLineError_throws_status (env : DriverEnv) (d : BehaviouralPathDriver)
    (inp : TickInput) (loc : Pose2D) (dir_sign : ℚ) (status : MotionStatus) (next : Thrown)
    (opt : Options)
    (h : BehaviourDriveBase.calculateLineError env d inp loc dir_sign
      = Step.throws status next opt) :
    status = MotionStatus.MOTION_STATUS_INTERNAL_ERROR ∧
    next = Thrown.Behaviour BehaviourKind.BehaviourEmergencyBreak := by
  simp only [BehaviourDriveBase.calculateLineError] at h
  split at h
  · cases h
  · split at h
    · cases h
    · split at h
      · cases h
        exact ⟨rfl, rfl⟩
      · cases h

/-- The ways in which `BehaviourOnLine::execute` ends: a normal return with status
`MOVING`, the throw of `BehaviourApproachTurningPoint` with status `MOVING`, or the
throw of `BehaviourEmergencyBreak` with a failure status. -/
theorem onLine_execute_status (env : DriverEnv) (d : BehaviouralPathDriver) (inp : TickInput)
    (res : BehaviourResult) (h : BehaviourOnLine.execute env d inp = Except.ok res) :
    (res.thrown = none ∧ res.status = MotionStatus.MOTION_STATUS_MOVING) ∨
    (res.thrown = some (Thrown.Behaviour BehaviourKind.BehaviourApproachTurningPoint) ∧
      res.status = MotionStatus.MOTION_STATUS_MOVING) ∨
    (res.thrown = some (Thrown.Behaviour BehaviourKind.BehaviourEmergencyBreak) ∧
      (res.status = MotionStatus.MOTION_STATUS_SLAM_FAIL ∨
        res.status = MotionStatus.MOTION_STATUS_INTERNAL_ERROR)) := by
  simp only [BehaviourOnLine.execute] at h
  split at h
  · cases h
  · rename_i status next opt hg
    cases h
    rcases onLine_getNextWaypoint_throws env d inp status next opt hg with ⟨rfl, rfl⟩ |
      ⟨rfl, rfl⟩
    · exact Or.inr (Or.inl ⟨rfl, rfl⟩)
    · exact Or.inr (Or.inr ⟨rfl, Or.inl rfl⟩)
  · rename_i opt wp loc hg
    split at h
    · cases h
    · rename_i status next opt2 hp
      cases h
      obtain ⟨rfl, rfl⟩ := getSlamPose_throws inp opt status next opt2 hp
      exact Or.inr (Or.inr ⟨rfl, Or.inl rfl⟩)
    · split at h
      · cases h
      · rename_i status next opt2 hc
        cases h
        obtain ⟨rfl, rfl⟩ := calculateLineError_throws_status env _ inp loc _ status next opt2 hc
        exact Or.inr (Or.inr ⟨rfl, Or.inr rfl⟩)
      · cases h
        exact Or.inl ⟨rfl, rfl⟩

theorem approach_getNextWaypoint_throws (d : BehaviouralPathDriver)
    (inp : TickInput) (status : MotionStatus) (next : Thrown) (opt : Options)
    (h : BehaviourApproachTurningPoint.getNextWaypoint d inp = Step.throws status next opt) :
    status = MotionStatus.MOTION_STATUS_SLAM_FAIL ∧
    next = Thrown.Behaviour BehaviourKind.BehaviourEmergencyBreak := by
  simp only [BehaviourApproachTurningPoint.getNextWaypoint] at h
  split at h
  · cases h
  · split at h
    · cases h
    · split at h
      · cases h
      · split at h
        · cases h
          exact ⟨rfl, rfl⟩
        · cases h

theorem checkIfDone_throws (env : DriverEnv) (d : BehaviouralPathDriver) (wp : Waypoint)
    (p : Pose2D) (status : MotionStatus) (next : Thrown) (opt : Options)
    (h : BehaviourApproachTurningPoint.checkIfDone env d wp p = Step.throws status next opt) :
    (status = MotionStatus.MOTION_STATUS_MOVING ∧
      next = Thrown.Behaviour BehaviourKind.BehaviourOnLine) ∨
    (status = MotionStatus.MOTION_STATUS_SUCCESS ∧ next = Thrown.NullBehaviour ∧
      opt.path_idx = d.options_.path_idx + 1 ∧ opt.path_idx = d.getSubPathCount) := by
  simp only [BehaviourApproachTurningPoint.checkIfDone] at h
  split at h
  · cases h
  · rename_i path hpath
    split at h
    · cases h
    · split at h
      · split at h
        · cases h
          exact Or.inl ⟨rfl, rfl⟩
        · rename_i hc
          cases h
          refine Or.inr ⟨rfl, rfl, rfl, ?_⟩
          have hlt := (at?_some_lt _ _ _ hpath).2
          simp only [BehaviouralPathDriver.getSubPathCount] at hc ⊢
          omega
      · cases h

/-- The ways in which `BehaviourApproachTurningPoint::execute` ends: a normal return
with status `MOVING`, the throw of `BehaviourEmergencyBreak` with status
`SLAM_FAIL`, the throw of `BehaviourOnLine` with status `MOVING`, or the throw of
the null behaviour with status `SUCCESS` at the last sub-path. -/
theorem approach_execute_status (env : DriverEnv) (d : BehaviouralPathDriver)
    (inp : TickInput) (res : BehaviourResult)
    (h : BehaviourApproachTurningPoint.execute env d inp = Except.ok res) :
    (res.thrown = none ∧ res.status = MotionStatus.MOTION_STATUS_MOVING) ∨
    (res.thrown = some (Thrown.Behaviour BehaviourKind.BehaviourEmergencyBreak) ∧
      res.status = MotionStatus.MOTION_STATUS_SLAM_FAIL) ∨
    (res.thrown = some (Thrown.Behaviour BehaviourKind.BehaviourOnLine) ∧
      res.status = MotionStatus.MOTION_STATUS_MOVING) ∨
    (res.thrown = some Thrown.NullBehaviour ∧
      res.status = MotionStatus.MOTION_STATUS_SUCCESS ∧
      res.options_.path_idx = d.options_.path_idx + 1 ∧
      res.options_.path_idx = d.getSubPathCount) := by
  have hnw := approach_getNextWaypoint_options d inp
  simp only [BehaviourApproachTurningPoint.execute] at h
  split at h
  · cases h
  · rename_i status next opt hg
    cases h
    obtain ⟨rfl, rfl⟩ := approach_getNextWaypoint_throws d inp status next opt hg
    exact Or.inr (Or.inl ⟨rfl, rfl⟩)
  · rename_i opt wp loc hg
    obtain ⟨w, hw⟩ := hnw.1 opt wp loc hg
    split at h
    · cases h
    · rename_i status next opt2 hp
      cases h
      obtain ⟨rfl, rfl⟩ := getSlamPose_throws inp opt status next opt2 hp
      exact Or.inr (Or.inl ⟨rfl, rfl⟩)
    · split at h
      · cases h
      · rename_i status next opt2 hc
        cases h
        rcases checkIfDone_throws env _ wp _ status next opt2 hc with ⟨rfl, rfl⟩ |
          ⟨rfl, rfl, h1, h2⟩
        · exact Or.inr (Or.inr (Or.inl ⟨rfl, rfl⟩))
        · refine Or.inr (Or.inr (Or.inr ⟨rfl, rfl, ?_, ?_⟩))
          · simpa [BehaviourResult.ofThrow, hw] using h1
          · simpa [BehaviourResult.ofThrow, BehaviouralPathDriver.getSubPathCount] using h2
      · cases h
        exact Or.inl ⟨rfl, rfl⟩

/-! ## Reachable drivers -/

theorem finish_state (env : DriverEnv) (d : BehaviouralPathDriver) (b : BehaviourKind)
    (res : BehaviourResult) (r : TickResult)
    (h : BehaviouralPathDriver.finish env d b res = Except.ok r) :
    r.driver.pending_error_ = d.pending_error_ ∧
    (r.driver.active_behaviour_ = none ∨
      (res.thrown = none ∧ r.driver.active_behaviour_ = d.active_behaviour_) ∨
      (∃ nb, res.thrown = some (Thrown.Behaviour nb) ∧
        res.status = MotionStatus.MOTION_STATUS_MOVING ∧
        r.driver.active_behaviour_ = some nb)) := by
  simp only [BehaviouralPathDriver.finish, BehaviouralPathDriver.publishCommand,
    BehaviouralPathDriver.clearActive] at h
  rcases hth : res.thrown with _ | t
  · rw [hth] at h
    simp only [Except.ok.injEq] at h
    subst h
    refine ⟨by split_ifs <;> rfl, ?_⟩
    split_ifs
    · exact Or.inl rfl
    · exact Or.inr (Or.inl ⟨rfl, rfl⟩)
  · cases t with
    | NullBehaviour =>
      rw [hth] at h
      by_cases hs : res.status = MotionStatus.MOTION_STATUS_SUCCESS
      · simp only [hs, ne_eq, not_true_eq_false, if_false, Except.ok.injEq] at h
        subst h
        refine ⟨by split_ifs <;> rfl, Or.inl ?_⟩
        split_ifs <;> rfl
      · simp only [ne_eq, hs, not_false_eq_true, if_true] at h
        cases h
    | Behaviour nb =>
      rw [hth] at h
      simp only [Except.ok.injEq] at h
      subst h
      refine ⟨by split_ifs <;> rfl, ?_⟩
      by_cases hs : res.status = MotionStatus.MOTION_STATUS_MOVING
      · refine Or.inr (Or.inr ⟨nb, rfl, hs, ?_⟩)
        simp [hs]
      · refine Or.inl ?_
        simp [hs]

theorem entered_active (d : BehaviouralPathDriver) (b : BehaviourKind)
    (h : (if d.active_behaviour_ = none then d.start else d).active_behaviour_ = some b) :
    (d.active_behaviour_ = none ∧ b = BehaviourKind.BehaviourOnLine) ∨
    d.active_behaviour_ = some b := by
  split_ifs at h with h0
  · left
    simp only [BehaviouralPathDriver.start, BehaviouralPathDriver.clearActive,
      Option.some.injEq] at h
    exact ⟨h0, h.symm⟩
  · exact Or.inr h

theorem entered_pending (d : BehaviouralPathDriver) :
    (if d.active_behaviour_ = none then d.start else d).pending_error_ = d.pending_error_ := by
  split_ifs <;> rfl

/-- The behaviour thrown by a dispatched driving behaviour together with status
`MOVING` is a driving behaviour. -/
theorem dispatch_thrown_moving (env : DriverEnv) (d : BehaviouralPathDriver) (inp : TickInput)
    (b nb : BehaviourKind) (res : BehaviourResult)
    (hb : b ≠ BehaviourKind.BehaviourEmergencyBreak)
    (h : BehaviouralPathDriver.dispatch env b d inp = Except.ok res)
    (hth : res.thrown = some (Thrown.Behaviour nb))
    (hs : res.status = MotionStatus.MOTION_STATUS_MOVING) :
    nb ≠ BehaviourKind.BehaviourEmergencyBreak := by
  intro hnb
  subst hnb
  cases b with
  | BehaviourOnLine =>
    rcases onLine_execute_status env d inp res h with ⟨h1, _⟩ | ⟨h1, _⟩ | ⟨_, h2 | h2⟩
    · rw [h1] at hth; cases hth
    · rw [h1] at hth; cases hth
    · rw [h2] at hs; cases hs
    · rw [h2] at hs; cases hs
  | BehaviourApproachTurningPoint =>
    rcases approach_execute_status env d inp res h with ⟨h1, _⟩ | ⟨_, h2⟩ | ⟨h1, _⟩ | ⟨h1, _⟩
    · rw [h1] at hth; cases hth
    · rw [h2] at hs; cases hs
    · rw [h1] at hth; cases hth
    · rw [h1] at hth; cases hth
  | BehaviourEmergencyBreak => exact hb rfl

/-- In every reachable driver the active behaviour is not the emergency break, and a
pending error is `INTERNAL_ERROR`. -/
theorem reachable_inv (env : DriverEnv) (d : BehaviouralPathDriver)
    (hr : BehaviouralPathDriver.Reachable env d) :
    d.active_behaviour_ ≠ some BehaviourKind.BehaviourEmergencyBreak ∧
    (d.pending_error_ = none ∨
      d.pending_error_ = some MotionStatus.MOTION_STATUS_INTERNAL_ERROR) := by
  induction hr with
  | construct now =>
    simp [BehaviouralPathDriver.construct, BehaviouralPathDriver.configure]
  | @setGoal d goal _ ih =>
    simp only [BehaviouralPathDriver.setGoal, BehaviouralPathDriver.stop,
      BehaviouralPathDriver.clearActive, BehaviouralPathDriver.setPath]
    split_ifs
    · simp
    · exact ⟨ih.1, Or.inl rfl⟩
  | @stop d _ ih =>
    exact ⟨by simp [BehaviouralPathDriver.stop, BehaviouralPathDriver.clearActive], ih.2⟩
  | @execute d inp r _ h ih =>
    rcases execute_cases env d inp r h with ⟨e, _, hr⟩ | ⟨hp, _, hr⟩ | ⟨hp, _, _, hr⟩ |
      ⟨p, b, res, hp, _, _, hb, hd, hf⟩
    · subst hr
      simp [BehaviouralPathDriver.stop, BehaviouralPathDriver.clearActive]
    · subst hr
      simp [BehaviouralPathDriver.clearActive, hp]
    · subst hr
      refine ⟨by simp [BehaviouralPathDriver.stop, BehaviouralPathDriver.clearActive], Or.inl ?_⟩
      simp only [BehaviouralPathDriver.stop, BehaviouralPathDriver.clearActive]
      rw [entered_pending, hp]
    · obtain ⟨hpend, hact⟩ := finish_state env _ b res r hf
      have hbne : b ≠ BehaviourKind.BehaviourEmergencyBreak := by
        rcases entered_active d b hb with ⟨_, rfl⟩ | h1
        · simp
        · intro hbe
          rw [hbe] at h1
          exact ih.1 h1
      refine ⟨?_, Or.inl ?_⟩
      · rcases hact with h1 | ⟨_, h1⟩ | ⟨nb, hth, hs, h1⟩
        · rw [h1]; simp
        · rw [h1]
          simp only
          rw [hb]
          simpa using hbne
        · rw [h1]
          have := dispatch_thrown_moving env _ inp b nb res hbne hd hth hs
          simpa using this
      · rw [hpend]
        simp only
        rw [entered_pending, hp]

theorem reachable_runCalls (env : DriverEnv) (cs : List Call) :
    ∀ (d d2 : BehaviouralPathDriver), BehaviouralPathDriver.Reachable env d →
      runCalls env d cs = Except.ok d2 → BehaviouralPathDriver.Reachable env d2 := by
  induction cs with
  | nil =>
    intro d d2 hr h
    simp only [runCalls, Except.ok.injEq] at h
    subst h
    exact hr
  | cons c cs ih =>
    intro d d2 hr h
    simp only [runCalls] at h
    split at h
    · cases h
    · rename_i d1 hc
      refine ih d1 d2 ?_ h
      cases c with
      | setGoal goal =>
        simp only [call, Except.ok.injEq] at hc
        subst hc
        exact BehaviouralPathDriver.Reachable.setGoal goal hr
      | execute inp =>
        simp only [call] at hc
        split at hc
        · cases hc
        · rename_i r hex
          simp only [Except.ok.injEq] at hc
          subst hc
          exact BehaviouralPathDriver.Reachable.execute inp r hr hex
      | stop =>
        simp only [call, Except.ok.injEq] at hc
        subst hc
        exact BehaviouralPathDriver.Reachable.stop hr

theorem reachable_freshDriver : BehaviouralPathDriver.Reachable exampleDriverEnv freshDriver :=
  BehaviouralPathDriver.Reachable.construct 0

theorem dispatch_events (env : DriverEnv) (d : BehaviouralPathDriver) (inp : TickInput)
    (b : BehaviourKind) (res : BehaviourResult)
    (h : BehaviouralPathDriver.dispatch env b d inp = Except.ok res) :
    ∀ b2, Event.dispatch b2 ∉ res.events := by
  cases b with
  | BehaviourOnLine =>
    simp only [BehaviouralPathDriver.dispatch, BehaviourOnLine.execute] at h
    split at h
    · cases h
    · cases h
      simp [BehaviourResult.ofThrow]
    · split at h
      · cases h
      · cases h
        simp [BehaviourResult.ofThrow]
      · split at h
        · cases h
        · cases h
          simp [BehaviourResult.ofThrow]
        · cases h
          simp
  | BehaviourApproachTurningPoint =>
    simp only [BehaviouralPathDriver.dispatch, BehaviourApproachTurningPoint.execute] at h
    split at h
    · cases h
    · cases h
      simp [BehaviourResult.ofThrow]
    · split at h
      · cases h
      · cases h
        simp [BehaviourResult.ofThrow]
      · split at h
        · cases h
        · cases h
          simp [BehaviourResult.ofThrow]
        · cases h
          simp
  | BehaviourEmergencyBreak =>
    simp only [BehaviouralPathDriver.dispatch, BehaviourEmergencyBreak.execute,
      Except.ok.injEq] at h
    subst h
    simp [BehaviourResult.ofThrow]

/-- Where the cursor is when a tick returns `SUCCESS`: when a tick of a reachable
driver with a non-empty set of sub-paths returns `SUCCESS`, the tick called
`BehaviourApproachTurningPoint` with the cursor on the last sub-path, and after the
tick `path_idx` is the number of sub-paths; `BehaviourOnLine::execute` never ends
with status `SUCCESS`.  Nothing is said about the sub-paths before the cursor. -/
theorem success_only_at_end (env : DriverEnv) (d : BehaviouralPathDriver)
    (hr : BehaviouralPathDriver.Reachable env d) (inp : TickInput) (r : TickResult)
    (h : d.execute env inp = Except.ok r)
    (hs : r.status = MotionStatus.MOTION_STATUS_SUCCESS) (hp : d.paths_ ≠ []) :
    d.active_behaviour_ = some BehaviourKind.BehaviourApproachTurningPoint ∧
    Event.dispatch BehaviourKind.BehaviourApproachTurningPoint ∈ r.events ∧
    Event.dispatch BehaviourKind.BehaviourOnLine ∉ r.events ∧
    d.options_.path_idx + 1 = (d.paths_.length : ℤ) ∧
    r.driver.paths_ = d.paths_ ∧
    r.driver.options_.path_idx = (r.driver.paths_.length : ℤ) ∧
    (∀ (d2 : BehaviouralPathDriver) (inp2 : TickInput) (res : BehaviourResult),
      BehaviourOnLine.execute env d2 inp2 = Except.ok res →
      res.status ≠ MotionStatus.MOTION_STATUS_SUCCESS) := by
  have honline : ∀ (d2 : BehaviouralPathDriver) (inp2 : TickInput) (res : BehaviourResult),
      BehaviourOnLine.execute env d2 inp2 = Except.ok res →
      res.status ≠ MotionStatus.MOTION_STATUS_SUCCESS := by
    intro d2 inp2 res h2 hs2
    rcases onLine_execute_status env d2 inp2 res h2 with ⟨_, h3⟩ | ⟨_, h3⟩ | ⟨_, h3 | h3⟩ <;>
      rw [h3] at hs2 <;> cases hs2
  obtain ⟨_, hpend⟩ := reachable_inv env d hr
  rcases execute_cases env d inp r h with ⟨e, he, hr2⟩ | ⟨_, hp2, _⟩ | ⟨_, _, _, hr2⟩ |
    ⟨p, b, res, _, _, _, hb, hd, hf⟩
  · subst hr2
    simp only at hs
    subst hs
    rcases hpend with h1 | h1 <;> rw [h1] at he <;> cases he
  · exact absurd hp2 hp
  · subst hr2
    cases hs
  · obtain ⟨hst, _, hopt, _, hpaths, hev, _, _, _⟩ := finish_ok env _ b res r hf
    have hnd := dispatch_events env _ inp b res hd
    rw [hst] at hs
    cases b with
    | BehaviourOnLine => exact absurd hs (honline _ inp res hd)
    | BehaviourApproachTurningPoint =>
      have hact : d.active_behaviour_ = some BehaviourKind.BehaviourApproachTurningPoint := by
        rcases entered_active d _ hb with ⟨_, h1⟩ | h1
        · cases h1
        · exact h1
      have hne : ¬ d.active_behaviour_ = none := by rw [hact]; simp
      simp only [if_neg hne] at hd hpaths
      rcases approach_execute_status env _ inp res hd with ⟨_, h3⟩ | ⟨_, h3⟩ | ⟨_, h3⟩ |
        ⟨_, _, h4, h5⟩
      · rw [h3] at hs; cases hs
      · rw [h3] at hs; cases hs
      · rw [h3] at hs; cases hs
      · simp only [BehaviouralPathDriver.getSubPathCount] at h4 h5
        refine ⟨hact, ?_, ?_, ?_, hpaths, ?_, honline⟩
        · rw [hev]; simp
        · rw [hev]
          simp [hnd]
        · rw [← h4, h5]
        · rw [hopt, hpaths, h5]
    | BehaviourEmergencyBreak =>
      obtain ⟨_, h3, _, _⟩ := emergencyBreak_execute_eq _ res hd
      rw [h3] at hs
      cases hs

/-- C27: in every reachable driver the active behaviour is not
`BehaviourEmergencyBreak`, so that no tick calls `BehaviourEmergencyBreak::execute`
and no tick leaves that behaviour installed; and whenever the behaviour called in a
tick ends, the part of `execute` after the call completes, that is, the assertion
`status == SUCCESS` in the handler of the null behaviour holds when it is
reached. -/
theorem emergencyBreak_never_dispatched (env : DriverEnv) (d : BehaviouralPathDriver)
    (hr : BehaviouralPathDriver.Reachable env d) :
    d.active_behaviour_ ≠ some BehaviourKind.BehaviourEmergencyBreak ∧
    (∀ (inp : TickInput) (r : TickResult), d.execute env inp = Except.ok r →
      Event.dispatch BehaviourKind.BehaviourEmergencyBreak ∉ r.events ∧
      r.driver.active_behaviour_ ≠ some BehaviourKind.BehaviourEmergencyBreak) ∧
    (∀ (inp : TickInput) (p : Pose2D) (b : BehaviourKind) (res : BehaviourResult),
      inp.worldPose = some p →
      (if d.active_behaviour_ = none then d.start else d).active_behaviour_ = some b →
      BehaviouralPathDriver.dispatch env b
        { (if d.active_behaviour_ = none then d.start else d) with slam_pose_ := p } inp
          = Except.ok res →
      (res.thrown = some Thrown.NullBehaviour →
        res.status = MotionStatus.MOTION_STATUS_SUCCESS) ∧
      ∃ r, BehaviouralPathDriver.finish env
        { (if d.active_behaviour_ = none then d.start else d) with slam_pose_ := p } b res
          = Except.ok r) := by
  obtain ⟨hact, _⟩ := reachable_inv env d hr
  have hbne : ∀ b, (if d.active_behaviour_ = none then d.start else d).active_behaviour_
      = some b → b ≠ BehaviourKind.BehaviourEmergencyBreak := by
    intro b hb
    rcases entered_active d b hb with ⟨_, rfl⟩ | h1
    · simp
    · intro hbe
      rw [hbe] at h1
      exact hact h1
  refine ⟨hact, ?_, ?_⟩
  · intro inp r h
    refine ⟨?_, (reachable_inv env r.driver
      (BehaviouralPathDriver.Reachable.execute inp r hr h)).1⟩
    rcases execute_cases env d inp r h with ⟨e, _, hr2⟩ | ⟨_, _, hr2⟩ | ⟨_, _, _, hr2⟩ |
      ⟨p, b, res, _, _, _, hb, hd, hf⟩
    · subst hr2; simp
    · subst hr2; simp
    · subst hr2; simp
    · obtain ⟨_, _, _, _, _, hev, _, _, _⟩ := finish_ok env _ b res r hf
      have hnd := dispatch_events env _ inp b res hd
      have := hbne b hb
      rw [hev]
      simp [hnd, Ne.symm this]
  · intro inp p b res _ hb hd
    have hnull : res.thrown = some Thrown.NullBehaviour →
        res.status = MotionStatus.MOTION_STATUS_SUCCESS := by
      intro hth
      cases b with
      | BehaviourOnLine =>
        rcases onLine_execute_status env _ inp res hd with ⟨h1, _⟩ | ⟨h1, _⟩ | ⟨h1, _⟩ <;>
          rw [h1] at hth <;> cases hth
      | BehaviourApproachTurningPoint =>
        rcases approach_execute_status env _ inp res hd with ⟨h1, _⟩ | ⟨h1, _⟩ | ⟨h1, _⟩ |
          ⟨_, h2, _⟩
        · rw [h1] at hth; cases hth
        · rw [h1] at hth; cases hth
        · rw [h1] at hth; cases hth
        · exact h2
      | BehaviourEmergencyBreak => exact absurd rfl (hbne _ hb)
    refine ⟨hnull, ?_⟩
    simp only [BehaviouralPathDriver.finish]
    rcases hth : res.thrown with _ | t
    · exact ⟨_, rfl⟩
    · cases t with
      | NullBehaviour =>
        have hs := hnull hth
        simp only [hs, ne_eq, not_true_eq_false, if_false]
        exact ⟨_, rfl⟩
      | Behaviour nb => exact ⟨_, rfl⟩

/-! ## Examples for the driver -/

/-- An instance: the driver that approaches the end of the path
`(0,0), (1,0), (1.1,0)`, in a tick with the robot at `(0.95, 0)`, where the angle
is 0, and the outcome of that tick. -/
theorem approach_cusp_test_witness :
    (nearCuspDriver.pending_error_ = none ∧
      nearCuspDriver.active_behaviour_ = some BehaviourKind.BehaviourApproachTurningPoint ∧
      nearCuspDriver.getSubPath nearCuspDriver.options_.path_idx = some nearCuspGoal.path ∧
      nearCuspDriver.options_.wp_idx < (nearCuspGoal.path.length : ℤ) ∧
      at? nearCuspGoal.path ((nearCuspGoal.path.length : ℤ) - 2) = some ⟨1, 0, 0⟩ ∧
      (robotAt (19 / 20) 90).worldPose = some ⟨19 / 20, 0, 0⟩ ∧
      (robotAt (19 / 20) 90).transformNext ⟨1, 0, 0⟩ = some ⟨1 / 20, 0, 0⟩ ∧
      (robotAt (19 / 20) 90).behaviourPose = some ⟨19 / 20, 0, 0⟩) ∧
    BehaviourApproachTurningPoint.angle exampleDriverEnv ⟨1, 0, 0⟩ ⟨19 / 20, 0, 0⟩ = 0 ∧
    ∃ r, nearCuspDriver.execute exampleDriverEnv (robotAt (19 / 20) 90) = Except.ok r ∧
      (|BehaviourApproachTurningPoint.angle exampleDriverEnv ⟨1, 0, 0⟩ ⟨19 / 20, 0, 0⟩|
          ≥ exampleDriverEnv.M_PI / 2 →
        r.driver.options_.path_idx = nearCuspDriver.options_.path_idx + 1 ∧
        r.driver.options_.wp_idx = 0 ∧
        (∀ e s, Event.setCommand e s ∉ r.events) ∧ r.driver.pid_ = nearCuspDriver.pid_ ∧
        (nearCuspDriver.options_.path_idx + 1 < nearCuspDriver.getSubPathCount →
          r.driver.active_behaviour_ = some BehaviourKind.BehaviourOnLine ∧
          r.status = MotionStatus.MOTION_STATUS_MOVING) ∧
        (¬ nearCuspDriver.options_.path_idx + 1 < nearCuspDriver.getSubPathCount →
          r.driver.active_behaviour_ = none ∧
          r.status = MotionStatus.MOTION_STATUS_SUCCESS ∧
          r.driver.current_command_.v = 0)) ∧
      (|BehaviourApproachTurningPoint.angle exampleDriverEnv ⟨1, 0, 0⟩ ⟨19 / 20, 0, 0⟩|
          < exampleDriverEnv.M_PI / 2 →
        r.driver.options_.path_idx = nearCuspDriver.options_.path_idx ∧
        r.driver.active_behaviour_ = some BehaviourKind.BehaviourApproachTurningPoint ∧
        r.status = MotionStatus.MOTION_STATUS_MOVING) :=
  ⟨by decide!, by decide!,
    approach_cusp_test exampleDriverEnv nearCuspDriver (robotAt (19 / 20) 90) ⟨19 / 20, 0, 0⟩
      ⟨19 / 20, 0, 0⟩ nearCuspGoal.path ⟨1, 0, 0⟩ ⟨1 / 20, 0, 0⟩ (by decide!) (by decide!)
      (by decide!) (by decide!) (by decide!) (by decide!) (by decide!) (by decide!)⟩

/-- An instance: the first tick with the goal of five poses and the robot at the
origin, where the first three poses are within the tolerance and the loop stops at
index 3. -/
theorem onLine_advance_loop_witness :
    (fivePoseParent.getSubPath fivePoseParent.options_.path_idx = some fivePoseGoal.path ∧
      fivePoseParent.options_.wp_idx = ((0 : ℕ) : ℤ) ∧ 0 < fivePoseGoal.path.length) ∧
    BehaviourOnLine.advance exampleDriverEnv fivePoseParent fivePoseGoal.path 0
      = some (3, false) ∧
    ∃ res, BehaviourOnLine.advanceLoop exampleDriverEnv fivePoseParent fivePoseGoal.path
          (fivePoseGoal.path.length - 0) fivePoseParent.options_.wp_idx = some (some res) ∧
        BehaviourOnLine.advance exampleDriverEnv fivePoseParent
          (dropFrom fivePoseGoal.path fivePoseParent.options_.wp_idx)
          fivePoseParent.options_.wp_idx = some res :=
  ⟨by decide!, by decide!,
    (onLine_advance_loop exampleDriverEnv fivePoseParent (robotAt 0 30) fivePoseGoal.path 0
      (by decide!) (by decide!) (by decide!)).1⟩

/-- An instance: the first tick with the goal whose poses are turned by `4 / 15`:
the regulator returns `delta = 0.4`, above the threshold `0.25`, and the published
speed is half of `max_speed_ = 1`. -/
theorem onLine_speed_witness :
    ((freshDriver.setGoal exampleEnv steeringGoal).execute exampleDriverEnv (robotAt 0 30)
        = Except.ok steeringTick ∧
      Event.dispatch BehaviourKind.BehaviourOnLine ∈ steeringTick.events ∧
      Event.setCommand (4 / 15) 1 ∈ steeringTick.events ∧
      ((freshDriver.setGoal exampleEnv steeringGoal).pid_.execute (robotAt 0 30).now (4 / 15)
        0).1 = true) ∧
    (((freshDriver.setGoal exampleEnv steeringGoal).pid_.execute (robotAt 0 30).now (4 / 15)
        0).2.2 = 2 / 5 ∧
      (freshDriver.setGoal exampleEnv steeringGoal).options_.steer_slow_threshold_ = 1 / 4 ∧
      (freshDriver.setGoal exampleEnv steeringGoal).options_.max_speed_ = 1 ∧
      steeringTick.published = some ⟨1 / 2, 2 / 5, 0⟩) ∧
    ∃ dir_sign cmd, steeringTick.dir_sign = some dir_sign ∧
      steeringTick.published = some cmd ∧
      |cmd.v| = |(freshDriver.setGoal exampleEnv steeringGoal).options_.max_speed_|
        * (if dir_sign < 0 then 1 / 2 else 1)
        * (if |((freshDriver.setGoal exampleEnv steeringGoal).pid_.execute
              (robotAt 0 30).now (4 / 15) 0).2.2|
            > (freshDriver.setGoal exampleEnv steeringGoal).options_.steer_slow_threshold_ then
            1 / 2 else 1) :=
  ⟨by decide!, by decide!,
    onLine_speed exampleDriverEnv (freshDriver.setGoal exampleEnv steeringGoal) (robotAt 0 30)
      steeringTick (4 / 15) 1 (by decide!) (by decide!) (by decide!) (by decide!)⟩

/-- C25 (as stated) fails.  With a goal of speed `-1` the first tick of
`BehaviourOnLine`, which the regulator accepts with `dir_sign = 1` and `delta = 0`,
publishes `v = -1`, so that `|v| = 1`, while `max_speed * a * b = -1`. -/
theorem onLine_speed_fails :
    (freshDriver.setGoal exampleEnv negativeSpeedGoal).execute exampleDriverEnv (robotAt 0 30)
      = Except.ok negativeSpeedTick ∧
    Event.dispatch BehaviourKind.BehaviourOnLine ∈ negativeSpeedTick.events ∧
    Event.setCommand 0 (-1) ∈ negativeSpeedTick.events ∧
    (freshDriver.setGoal exampleEnv negativeSpeedGoal).pid_.execute 30 0 0
      = (true, { (freshDriver.setGoal exampleEnv negativeSpeedGoal).pid_ with timer_ := 30 },
          0) ∧
    (freshDriver.setGoal exampleEnv negativeSpeedGoal).options_.max_speed_ = -1 ∧
    negativeSpeedTick.dir_sign = some 1 ∧
    negativeSpeedTick.published = some ⟨-1, 0, 0⟩ ∧
    |(-1 : ℚ)| ≠ (-1) * 1 * 1 := by
  decide!

/-- A tick of `BehaviourOnLine` with `dir_sign = -1`: the driving driver with the
robot beyond the waypoint it is heading for publishes half of `max_speed_ = 1`,
backwards. -/
theorem reverseTick_speed :
    drivingDriver.execute exampleDriverEnv (robotAt (3 / 2) 60) = Except.ok reverseTick ∧
    Event.dispatch BehaviourKind.BehaviourOnLine ∈ reverseTick.events ∧
    reverseTick.dir_sign = some (-1) ∧ reverseTick.published = some ⟨-1 / 2, 0, 0⟩ := by
  decide!

theorem reachable_approachingDriver :
    BehaviouralPathDriver.Reachable exampleDriverEnv approachingDriver :=
  reachable_runCalls exampleDriverEnv
    [Call.setGoal shortGoal, Call.execute (robotAt (1 / 10) 30)] freshDriver approachingDriver
    reachable_freshDriver (by decide!)

theorem reachable_drivingDriver :
    BehaviouralPathDriver.Reachable exampleDriverEnv drivingDriver :=
  reachable_runCalls exampleDriverEnv
    [Call.setGoal straightGoal, Call.execute (robotAt 0 30)] freshDriver drivingDriver
    reachable_freshDriver (by decide!)

theorem success_only_at_end_witness :
    (BehaviouralPathDriver.Reachable exampleDriverEnv approachingDriver ∧
      approachingDriver.execute exampleDriverEnv (robotAt (1 / 10) 60) = Except.ok arrivalTick ∧
      arrivalTick.status = MotionStatus.MOTION_STATUS_SUCCESS ∧
      approachingDriver.paths_ ≠ []) ∧
    approachingDriver.active_behaviour_ = some BehaviourKind.BehaviourApproachTurningPoint ∧
    Event.dispatch BehaviourKind.BehaviourApproachTurningPoint ∈ arrivalTick.events ∧
    Event.dispatch BehaviourKind.BehaviourOnLine ∉ arrivalTick.events ∧
    approachingDriver.options_.path_idx + 1 = (approachingDriver.paths_.length : ℤ) ∧
    arrivalTick.driver.paths_ = approachingDriver.paths_ ∧
    arrivalTick.driver.options_.path_idx = (arrivalTick.driver.paths_.length : ℤ) ∧
    (∀ (d2 : BehaviouralPathDriver) (inp2 : TickInput) (res : BehaviourResult),
      BehaviourOnLine.execute exampleDriverEnv d2 inp2 = Except.ok res →
      res.status ≠ MotionStatus.MOTION_STATUS_SUCCESS) :=
  ⟨⟨reachable_approachingDriver, by decide!, by decide!, by decide!⟩,
    success_only_at_end exampleDriverEnv approachingDriver reachable_approachingDriver
      (robotAt (1 / 10) 60) arrivalTick (by decide!) (by decide!) (by decide!)⟩

/-- C26 (evaluation at the failing input): `execute` returns `SUCCESS` while a
sub-path has not been visited.  A driver follows the path that goes east for 0.1 and
back up to the approach of the end of its second sub-path, cursor `(1, 1)`, and then
gets the goal from `(10, 0)` to `(12, 0)` and back, of two sub-paths.  `setGoal`
keeps the behaviour and the cursor, so the first tick after it calls
`BehaviourApproachTurningPoint` on the second sub-path of the new goal and returns
`SUCCESS`, with the robot at `(0.1, 0)` and the first sub-path never followed. -/
theorem stale_cursor_success :
    runCalls exampleDriverEnv freshDriver
        [Call.setGoal turnBackGoal, Call.execute (robotAt (1 / 10) 30),
         Call.execute (robotAt (1 / 10) 60), Call.execute (robotAt (1 / 10) 90),
         Call.setGoal farTurnBackGoal] = Except.ok staleApproachDriver ∧
    staleApproachDriver.paths_
      = [[⟨10, 0, 0⟩, ⟨11, 0, 0⟩, ⟨12, 0, 0⟩],
         [⟨12, 0, 0⟩, ⟨11, 0, 884279719003555 / 281474976710656⟩,
          ⟨10, 0, 884279719003555 / 281474976710656⟩]] ∧
    staleApproachDriver.active_behaviour_
      = some BehaviourKind.BehaviourApproachTurningPoint ∧
    staleApproachDriver.options_.path_idx = 1 ∧ staleApproachDriver.options_.wp_idx = 1 ∧
    staleApproachDriver.execute exampleDriverEnv (robotAt (1 / 10) 120)
      = Except.ok staleSuccessTick ∧
    staleSuccessTick.status = MotionStatus.MOTION_STATUS_SUCCESS ∧
    Event.dispatch BehaviourKind.BehaviourApproachTurningPoint ∈ staleSuccessTick.events ∧
    Event.dispatch BehaviourKind.BehaviourOnLine ∉ staleSuccessTick.events ∧
    staleSuccessTick.driver.options_.path_idx = 2 := by
  decide!

/-- An instance: the driving driver, and the tick in which the pose query of
the behaviour fails, which installs the emergency break and clears it. -/
theorem emergencyBreak_never_dispatched_witness :
    BehaviouralPathDriver.Reachable exampleDriverEnv drivingDriver ∧
    (drivingDriver.execute exampleDriverEnv { robotAt (1 / 2) 60 with behaviourPose := none }
        = Except.ok behaviourLostTick ∧
      behaviourLostTick.status = MotionStatus.MOTION_STATUS_SLAM_FAIL ∧
      behaviourLostTick.driver.active_behaviour_ = none) ∧
    drivingDriver.active_behaviour_ ≠ some BehaviourKind.BehaviourEmergencyBreak ∧
    (∀ (inp : TickInput) (r : TickResult), drivingDriver.execute exampleDriverEnv inp
        = Except.ok r →
      Event.dispatch BehaviourKind.BehaviourEmergencyBreak ∉ r.events ∧
      r.driver.active_behaviour_ ≠ some BehaviourKind.BehaviourEmergencyBreak) :=
  ⟨reachable_drivingDriver, by decide!,
    (emergencyBreak_never_dispatched exampleDriverEnv drivingDriver reachable_drivingDriver).1,
    (emergencyBreak_never_dispatched exampleDriverEnv drivingDriver reachable_drivingDriver).2.1⟩

end PathFollower
